import Mathlib

/-!
# AC-3 / Enhanced AC-3 specific-parameter tools (`codecs/a52.c`)

A shallow embedding of the record encoders and decoders, the AC-3 syncframe
header parser, the Enhanced AC-3 syncframe parser and the Enhanced AC-3
access-unit assembler of `a52.c`,
followed by the properties established about them.

Conventions.
* Bytes and every C integer are natural numbers; a truncation that C performs
  is written out with `%`.
* A byte buffer is a `List Nat`.  A read at an index past the end of a buffer
  is a read of whatever memory follows it; the decoders take that memory as
  the parameter `oob` (index to byte), so a statement proved for every `oob`
  holds whatever lies there.
* The 8-entry array `independent_info[8]` is a list of 8 entries; a store at an
  index outside the array leaves the 8 entries as they are.
* The assembler's loop is a structurally recursive function with a fuel
  argument, and it is proved that the fuel given by the entry point always
  suffices (`setup_total`).
-/

namespace A52

/-! ## Constants of the absent headers -/

/-- The constant `AC3_SPECIFIC_BOX_LENGTH` of `a52.c`. -/
def AC3_SPECIFIC_BOX_LENGTH : Nat := 11

/-- Modelled from the spec: `ISOM_BASEBOX_COMMON_SIZE` of `core/box.h`, the
4-byte size plus the 4-byte type of a box. -/
def ISOM_BASEBOX_COMMON_SIZE : Nat := 8

/-- Modelled from the spec: `EAC3_MAX_SYNCFRAME_LENGTH` of `a52.h`, the maximum
legal syncframe length, 2 * 2^11 bytes. -/
def EAC3_MAX_SYNCFRAME_LENGTH : Nat := 4096

/-- Modelled from the spec: `AC3_MIN_SYNCFRAME_LENGTH` of `a52.h`, the AC-3
minimum syncframe length: 128 bytes, the smallest frame size of the frame size
code table (64 words).  The properties below use of this value only that it
covers the 7 bytes of the header fields and does not exceed
`AC3_MAX_SYNCFRAME_LENGTH`. -/
def AC3_MIN_SYNCFRAME_LENGTH : Nat := 128

/-- Modelled from the spec: `AC3_MAX_SYNCFRAME_LENGTH` of `a52.h`, the AC-3
maximum syncframe length: 3840 bytes, the largest frame size of the frame size
code table (1920 words). -/
def AC3_MAX_SYNCFRAME_LENGTH : Nat := 3840

/-- The constant `EAC3_SPECIFIC_BOX_MIN_LENGTH` of `a52.c`. -/
def EAC3_SPECIFIC_BOX_MIN_LENGTH : Nat := 13

/-- Modelled from the spec: `ISOM_BOX_TYPE_DAC3.fourcc`, the tag 'dac3'. -/
def ISOM_BOX_TYPE_DAC3 : Nat := 0x64616333

/-- Modelled from the spec: `ISOM_BOX_TYPE_DEC3.fourcc`, the tag 'dec3'. -/
def ISOM_BOX_TYPE_DEC3 : Nat := 0x64656333

/-- Modelled from the spec: `eac3_audio_block_table` of `a52.h`, selector to
number of audio blocks, 0->1, 1->2, 2->3, 3->6. -/
def eac3_audio_block_table (numblkscod : Nat) : Nat :=
  [1, 2, 3, 6].getD numblkscod 0

/-! ## Data model -/

/-- The structure `lsmash_ac3_specific_parameters_t`. -/
structure lsmash_ac3_specific_parameters_t where
  fscod : Nat
  bsid : Nat
  bsmod : Nat
  acmod : Nat
  lfeon : Nat
  frmsizecod : Nat
  deriving DecidableEq, Repr

/-- The structure `lsmash_eac3_substream_info_t`. -/
structure lsmash_eac3_substream_info_t where
  fscod : Nat
  fscod2 : Nat
  bsid : Nat
  bsmod : Nat
  acmod : Nat
  lfeon : Nat
  num_dep_sub : Nat
  chan_loc : Nat
  deriving DecidableEq, Repr

/-- The structure `lsmash_eac3_specific_parameters_t`; `independent_info` is
the array of 8 entries. -/
structure lsmash_eac3_specific_parameters_t where
  data_rate : Nat
  num_ind_sub : Nat
  independent_info : List lsmash_eac3_substream_info_t
  deriving DecidableEq, Repr

/-- The all-zero substream entry (`= { 0 }`). -/
def zero_info : lsmash_eac3_substream_info_t :=
  { fscod := 0, fscod2 := 0, bsid := 0, bsmod := 0, acmod := 0, lfeon := 0,
    num_dep_sub := 0, chan_loc := 0 }

/-- The all-zero parameter structure with its 8 entries. -/
def zero_param : lsmash_eac3_specific_parameters_t :=
  { data_rate := 0, num_ind_sub := 0, independent_info := List.replicate 8 zero_info }

/-! ## Bit writer -/

/-- The `k` bytes of `x`, most significant first. -/
def beBytes (k x : Nat) : List Nat :=
  (List.range k).map fun i => x / 2 ^ (8 * (k - 1 - i)) % 256

/-- Modelled from the spec: the bit writer `lsmash_bits_t` of the absent bit
cursor collaborator: the bytes already completed, and the `store` pending bits
held in `cache`. -/
structure lsmash_bits_t where
  bytes : List Nat
  cache : Nat
  store : Nat
  deriving DecidableEq, Repr

/-- Modelled from the spec: `lsmash_bits_init` of the absent bit cursor: an empty writer. -/
def lsmash_bits_init : lsmash_bits_t := { bytes := [], cache := 0, store := 0 }

/-- Modelled from the spec: `lsmash_bits_put` of the absent bit cursor: append
the low `width` bits of `value`, most significant bit first. -/
def lsmash_bits_put (bits : lsmash_bits_t) (width value : Nat) : lsmash_bits_t :=
  let c := bits.cache * 2 ^ width + value % 2 ^ width
  let s := bits.store + width
  { bytes := bits.bytes ++ beBytes (s / 8) (c / 2 ^ (s % 8)),
    cache := c % 2 ^ (s % 8),
    store := s % 8 }

/-- Modelled from the spec: `lsmash_bits_export_data` of the absent bit cursor:
the bytes written, a pending partial byte being padded with zero bits. -/
def lsmash_bits_export_data (bits : lsmash_bits_t) : List Nat :=
  if bits.store = 0 then bits.bytes
  else bits.bytes ++ [bits.cache * 2 ^ (8 - bits.store) % 256]

/-- The byte at index `i` of a buffer, `oob` serving the bytes past its end. -/
def rdByte (oob : Nat → Nat) (data : List Nat) (i : Nat) : Nat :=
  if i < data.length then data.getD i 0 else oob i % 256

/-- Modelled from the spec: `LSMASH_GET_BE32` at byte offset `off`. -/
def LSMASH_GET_BE32 (oob : Nat → Nat) (data : List Nat) (off : Nat) : Nat :=
  rdByte oob data off * 2 ^ 24 + rdByte oob data (off + 1) * 2 ^ 16
    + rdByte oob data (off + 2) * 2 ^ 8 + rdByte oob data (off + 3)

/-- Modelled from the spec: `LSMASH_GET_BE64` at byte offset `off`. -/
def LSMASH_GET_BE64 (oob : Nat → Nat) (data : List Nat) (off : Nat) : Nat :=
  LSMASH_GET_BE32 oob data off * 2 ^ 32 + LSMASH_GET_BE32 oob data (off + 4)

/-! ## AC-3 record codec -/

/-- The function `lsmash_create_ac3_specific_info`: the record bytes
(`*data_length` is their number). -/
def lsmash_create_ac3_specific_info (param : lsmash_ac3_specific_parameters_t) : List Nat :=
  let bits := lsmash_bits_init
  let bits := lsmash_bits_put bits 32 AC3_SPECIFIC_BOX_LENGTH
  let bits := lsmash_bits_put bits 32 ISOM_BOX_TYPE_DAC3
  let bits := lsmash_bits_put bits 2 param.fscod
  let bits := lsmash_bits_put bits 5 param.bsid
  let bits := lsmash_bits_put bits 3 param.bsmod
  let bits := lsmash_bits_put bits 3 param.acmod
  let bits := lsmash_bits_put bits 1 param.lfeon
  let bits := lsmash_bits_put bits 5 (param.frmsizecod >>> 1)
  let bits := lsmash_bits_put bits 5 0
  lsmash_bits_export_data bits

/-- The function `ac3_construct_specific_parameters`: the return code and the
destination parameters after the call (`dst` before it); `src` is the record,
`src.length` its `size`. -/
def ac3_construct_specific_parameters (oob : Nat → Nat)
    (dst : lsmash_ac3_specific_parameters_t) (src : List Nat) :
    Int × lsmash_ac3_specific_parameters_t :=
  if src.length < AC3_SPECIFIC_BOX_LENGTH then (-1, dst)
  else
    let size := LSMASH_GET_BE32 oob src 0
    let data := ISOM_BASEBOX_COMMON_SIZE
    let (size, data) :=
      if size = 1 then (LSMASH_GET_BE64 oob src data, data + 8) else (size, data)
    if size ≠ src.length then (-1, dst)
    else
      let d := fun i => rdByte oob src (data + i)
      let fscod := (d 0 >>> 6) &&& 0x03
      let bsid := (d 0 >>> 1) &&& 0x1F
      let bsmod := ((d 0 &&& 0x01) <<< 2) ||| ((d 2 >>> 6) &&& 0x03)
      let acmod := (d 1 >>> 3) &&& 0x07
      let lfeon := (d 1 >>> 2) &&& 0x01
      let frmsizecod := ((d 1 &&& 0x03) <<< 3) ||| ((d 3 >>> 5) &&& 0x07)
      let frmsizecod := (frmsizecod <<< 1) % 256
      (0, { fscod := fscod, bsid := bsid, bsmod := bsmod, acmod := acmod,
            lfeon := lfeon, frmsizecod := frmsizecod })

/-! ## Enhanced AC-3 record codec -/

/-- The body of the `for` loop of `lsmash_create_eac3_specific_info` for one entry. -/
def eac3_put_substream (bits : lsmash_bits_t) (independent_info : lsmash_eac3_substream_info_t) :
    lsmash_bits_t :=
  let bits := lsmash_bits_put bits 2 independent_info.fscod
  let bits := lsmash_bits_put bits 5 independent_info.bsid
  let bits := lsmash_bits_put bits 5 independent_info.bsmod
  let bits := lsmash_bits_put bits 3 independent_info.acmod
  let bits := lsmash_bits_put bits 1 independent_info.lfeon
  let bits := lsmash_bits_put bits 3 0
  let bits := lsmash_bits_put bits 4 independent_info.num_dep_sub
  if independent_info.num_dep_sub > 0 then lsmash_bits_put bits 9 independent_info.chan_loc
  else lsmash_bits_put bits 1 0

/-- The `for` loop of `lsmash_create_eac3_specific_info`: `k` iterations from index `i`. -/
def eac3_put_substreams (infos : List lsmash_eac3_substream_info_t) :
    Nat → Nat → lsmash_bits_t → lsmash_bits_t
  | 0, _, bits => bits
  | k + 1, i, bits =>
    eac3_put_substreams infos k (i + 1) (eac3_put_substream bits (infos.getD i zero_info))

/-- Modelled from the spec: the macro `LSMASH_SET_BE32` of the absent headers, at
the start of a buffer: the 4-byte big-endian size prefix is written back. -/
def LSMASH_SET_BE32 (data : List Nat) (value : Nat) : List Nat :=
  beBytes 4 (value % 2 ^ 32) ++ data.drop 4

/-- The function `lsmash_create_eac3_specific_info`: `none` is the `NULL`
return, otherwise the record bytes (`*data_length` is their number). -/
def lsmash_create_eac3_specific_info (param : lsmash_eac3_specific_parameters_t) :
    Option (List Nat) :=
  if param.num_ind_sub > 7 then none
  else
    let bits := lsmash_bits_init
    let bits := lsmash_bits_put bits 32 0
    let bits := lsmash_bits_put bits 32 ISOM_BOX_TYPE_DEC3
    let bits := lsmash_bits_put bits 13 param.data_rate
    let bits := lsmash_bits_put bits 3 param.num_ind_sub
    let bits := eac3_put_substreams param.independent_info (param.num_ind_sub + 1) 0 bits
    let data := lsmash_bits_export_data bits
    some (LSMASH_SET_BE32 data data.length)

/-- The `for` loop of `eac3_construct_specific_parameters`: `k` iterations left,
`i` the index, `data` the offset of the read pointer in `src`, `size` the
running size; the return code and the entries after the loop. -/
def eac3_construct_loop (oob : Nat → Nat) (src : List Nat) :
    Nat → Nat → Nat → Nat → List lsmash_eac3_substream_info_t →
      Int × List lsmash_eac3_substream_info_t
  | 0, _, _, _, infos => (0, infos)
  | k + 1, i, data, size, infos =>
    if size < 3 then (-1, infos)
    else
      let d := fun j => rdByte oob src (data + j)
      let e := infos.getD i zero_info
      let e := { e with
        fscod := (d 0 >>> 6) &&& 0x03,
        bsid := (d 0 >>> 1) &&& 0x1F,
        bsmod := ((d 0 &&& 0x01) <<< 4) ||| ((d 1 >>> 4) &&& 0x0F),
        acmod := (d 1 >>> 1) &&& 0x07,
        lfeon := d 1 &&& 0x01,
        num_dep_sub := (d 2 >>> 1) &&& 0x0F }
      let data := data + 3
      let size := size - 3
      if e.num_dep_sub > 0 then
        if size < 1 then (-1, infos.set i e)
        else
          let e := { e with
            chan_loc := ((rdByte oob src (data - 1) &&& 0x01) <<< 8) ||| rdByte oob src data }
          eac3_construct_loop oob src k (i + 1) (data + 1) (size - 1) (infos.set i e)
      else eac3_construct_loop oob src k (i + 1) data size (infos.set i e)

/-- The function `eac3_construct_specific_parameters`: the return code and the
destination parameters after the call (`dst` before it); `src` is the record,
`src.length` its `size`. -/
def eac3_construct_specific_parameters (oob : Nat → Nat)
    (dst : lsmash_eac3_specific_parameters_t) (src : List Nat) :
    Int × lsmash_eac3_specific_parameters_t :=
  if src.length < EAC3_SPECIFIC_BOX_MIN_LENGTH then (-1, dst)
  else
    let size := LSMASH_GET_BE32 oob src 0
    let data := ISOM_BASEBOX_COMMON_SIZE
    let (size, data) :=
      if size = 1 then (LSMASH_GET_BE64 oob src data, data + 8) else (size, data)
    if size ≠ src.length then (-1, dst)
    else
      let data_rate := ((rdByte oob src data <<< 5) ||| ((rdByte oob src (data + 1) >>> 3) &&& 0x1F))
        % 2 ^ 16
      let num_ind_sub := rdByte oob src (data + 1) &&& 0x07
      let r := eac3_construct_loop oob src (num_ind_sub + 1) 0 (data + 2) (size - 2)
        dst.independent_info
      (r.1, { data_rate := data_rate, num_ind_sub := num_ind_sub, independent_info := r.2 })

/-! ## Bit cursor -/

/-- Modelled from the spec: the bit at index `i` of a byte window read by the
absent bit cursor, most significant bit of byte 0 first; past the end of the
window the cursor serves zero bits (its failure report is never inspected by
the parsers). -/
def bitAt (data : List Nat) (i : Nat) : Nat :=
  (data.getD (i / 8) 0 >>> (7 - i % 8)) % 2

/-- Modelled from the spec: `lsmash_bits_get` of the absent bit cursor: the
unsigned value of the `width` bits starting at bit `pos`, most significant
first.  The cursor position after the read is `pos + width`. -/
def lsmash_bits_get (data : List Nat) (pos : Nat) : Nat → Nat
  | 0 => 0
  | width + 1 => lsmash_bits_get data pos width * 2 + bitAt data (pos + width)

/-! ## AC-3 syncframe header parser -/

/-- The structure `ac3_info_t` of `a52.h`, restricted to the members `a52.c`
uses: the parameters and the buffer of `AC3_MAX_SYNCFRAME_LENGTH` bytes. -/
structure ac3_info_t where
  dac3_param : lsmash_ac3_specific_parameters_t
  buffer : List Nat
  deriving DecidableEq, Repr

/-- The all-zero AC-3 parameter structure. -/
def zero_ac3_param : lsmash_ac3_specific_parameters_t :=
  { fscod := 0, bsid := 0, bsmod := 0, acmod := 0, lfeon := 0, frmsizecod := 0 }

/-- The function `ac3_check_syncframe_header`. -/
def ac3_check_syncframe_header (param : lsmash_ac3_specific_parameters_t) : Int :=
  if param.fscod = 0x3 then -1
  else if param.frmsizecod > 0x25 then -1
  else if param.bsid ≥ 10 then -1
  else 0

/-- The function `ac3_parse_syncframe_header`: the return code and the handler
after the call.  The bit cursor is handed the first `AC3_MIN_SYNCFRAME_LENGTH`
bytes at `data`; `lsmash_bits_import_data` is taken to succeed (it fails on an
allocation failure only). -/
def ac3_parse_syncframe_header (info : ac3_info_t) (data : List Nat) : Int × ac3_info_t :=
  let data := data.take AC3_MIN_SYNCFRAME_LENGTH
  let param := info.dac3_param
  let pos := 32
  let param := { param with fscod := lsmash_bits_get data pos 2 }
  let pos := pos + 2
  let param := { param with frmsizecod := lsmash_bits_get data pos 6 }
  let pos := pos + 6
  let param := { param with bsid := lsmash_bits_get data pos 5 }
  let pos := pos + 5
  let param := { param with bsmod := lsmash_bits_get data pos 3 }
  let pos := pos + 3
  let param := { param with acmod := lsmash_bits_get data pos 3 }
  let pos := pos + 3
  let pos := if (param.acmod &&& 0x01) ≠ 0 ∧ param.acmod ≠ 0x01 then pos + 2 else pos
  let pos := if (param.acmod &&& 0x04) ≠ 0 then pos + 2 else pos
  let pos := if param.acmod = 0x02 then pos + 2 else pos
  let param := { param with lfeon := lsmash_bits_get data pos 1 }
  (ac3_check_syncframe_header param, { info with dac3_param := param })

/-- The function `lsmash_setup_ac3_specific_parameters_from_syncframe`: the
return code and the caller's parameters after the call (`param` before it).
The input is a byte list, so the test `!data` has no counterpart; the handler's
buffer is zeroed and receives the first `min data_length AC3_MAX_SYNCFRAME_LENGTH`
input bytes. -/
def lsmash_setup_ac3_specific_parameters_from_syncframe
    (param : lsmash_ac3_specific_parameters_t) (data : List Nat) :
    Int × lsmash_ac3_specific_parameters_t :=
  if data.length < AC3_MIN_SYNCFRAME_LENGTH then (-1, param)
  else if data.getD 0 0 ≠ 0x0b ∨ data.getD 1 0 ≠ 0x77 then (-1, param)
  else
    let copied := min data.length AC3_MAX_SYNCFRAME_LENGTH
    let info : ac3_info_t :=
      { dac3_param := zero_ac3_param,
        buffer := data.take copied ++ List.replicate (AC3_MAX_SYNCFRAME_LENGTH - copied) 0 }
    let r := ac3_parse_syncframe_header info info.buffer
    if r.1 ≠ 0 then (-1, param) else (0, r.2.dac3_param)

/-! ## Enhanced AC-3 syncframe parser -/

/-- The structure `eac3_info_t` of `a52.h`, restricted to the members `a52.c`
uses: the byte window `buffer_pos .. buffer_end` is kept by the assembler
state below. -/
structure eac3_info_t where
  dec3_param : lsmash_eac3_specific_parameters_t
  independent_info : List lsmash_eac3_substream_info_t
  dependent_info : lsmash_eac3_substream_info_t
  dec3_param_initialized : Bool
  strmtyp : Nat
  substreamid : Nat
  current_independent_substream_id : Nat
  numblkscod : Nat
  number_of_audio_blocks : Nat
  number_of_independent_substreams : Nat
  no_more_read : Bool
  syncframe_count : Nat
  frame_size : Nat
  deriving DecidableEq, Repr

/-- The handler as `eac3_info_t handler = { { 0 } }` leaves it. -/
def zero_handler : eac3_info_t :=
  { dec3_param := zero_param, independent_info := List.replicate 8 zero_info,
    dependent_info := zero_info, dec3_param_initialized := false, strmtyp := 0,
    substreamid := 0, current_independent_substream_id := 0, numblkscod := 0,
    number_of_audio_blocks := 0, number_of_independent_substreams := 0,
    no_more_read := false, syncframe_count := 0, frame_size := 0 }

/-- A store through `&table[i]`: the entry `i` replaced by `f` of itself.  An
index of 8 or more lies outside the array; the 8 entries are then left as they
are. -/
def modifyEntry (table : List lsmash_eac3_substream_info_t) (i : Nat)
    (f : lsmash_eac3_substream_info_t → lsmash_eac3_substream_info_t) :
    List lsmash_eac3_substream_info_t :=
  table.set i (f (table.getD i zero_info))

/-- The `for` loop of `eac3_update_specific_param`: `k` iterations from index `i`,
copying entry `i` of `src` to entry `i` of `dst`. -/
def eac3_copy_entries (src : List lsmash_eac3_substream_info_t) :
    Nat → Nat → List lsmash_eac3_substream_info_t → List lsmash_eac3_substream_info_t
  | 0, _, dst => dst
  | k + 1, i, dst => eac3_copy_entries src k (i + 1) (dst.set i (src.getD i zero_info))

/-- The function `eac3_update_specific_param`; `num_ind_sub` is a `uint8_t`. -/
def eac3_update_specific_param (info : eac3_info_t) : eac3_info_t :=
  let num_ind_sub := (info.number_of_independent_substreams + 255) % 256
  { info with
    dec3_param :=
      { data_rate := 0, num_ind_sub := num_ind_sub,
        independent_info :=
          eac3_copy_entries info.independent_info (num_ind_sub + 1) 0
            info.dec3_param.independent_info },
    dec3_param_initialized := true }

/-- The function `lsmash_eac3_get_chan_loc_from_chanmap`. -/
def lsmash_eac3_get_chan_loc_from_chanmap (chanmap : Nat) : Nat :=
  ((chanmap &&& 0x7f8) >>> 2) ||| ((chanmap &&& 0x2) >>> 1)

/-- The function `eac3_check_syncframe_header`. -/
def eac3_check_syncframe_header (info : eac3_info_t) : Int :=
  if info.strmtyp = 0x3 then -1
  else
    let substream_info :=
      if info.strmtyp ≠ 0x1 then
        info.independent_info.getD info.current_independent_substream_id zero_info
      else info.dependent_info
    if substream_info.fscod = 0x3 ∧ substream_info.fscod2 = 0x3 then -1
    else if substream_info.bsid < 10 ∨ substream_info.bsid > 16 then -1
    else 0

/-- The pattern `if( lsmash_bits_get( bits, 1 ) ) lsmash_bits_get( bits, width )`:
the cursor position after it. -/
def skipFlagged (data : List Nat) (pos width : Nat) : Nat :=
  if lsmash_bits_get data pos 1 ≠ 0 then pos + 1 + width else pos + 1

/-- The loop over `blk` of `eac3_parse_syncframe` (blkmixcfginfoe, blkmixcfginfo):
the cursor position after `blocks` iterations. -/
def eac3_skip_blkmixcfginfo (data : List Nat) : Nat → Nat → Nat
  | 0, pos => pos
  | blocks + 1, pos => eac3_skip_blkmixcfginfo data blocks (skipFlagged data pos 5)

/-- The mixing-metadata part of `eac3_parse_syncframe`, from `mixmdate` on
(every field is read and discarded): the cursor position after it. -/
def eac3_skip_mixmdat (data : List Nat) (pos strmtyp acmod lfeon numblkscod : Nat) : Nat :=
  if lsmash_bits_get data pos 1 ≠ 0 then
    let pos := pos + 1
    let pos := if acmod > 0x2 then pos + 2 else pos
    let pos :=
      if ((acmod &&& 0x1) ≠ 0 ∧ acmod > 0x2) ∨ (acmod &&& 0x4) ≠ 0 then pos + 6 else pos
    let pos := if lfeon ≠ 0 then skipFlagged data pos 5 else pos
    if strmtyp = 0x0 then
      let pos := skipFlagged data pos 6
      let pos := if acmod = 0x0 then skipFlagged data pos 6 else pos
      let pos := skipFlagged data pos 6
      let mixdef := lsmash_bits_get data pos 2
      let pos := pos + 2
      let pos :=
        if mixdef = 0x1 then pos + 5
        else if mixdef = 0x2 then pos + 12
        else if mixdef = 0x3 then
          let mixdeflen := lsmash_bits_get data pos 5
          pos + 5 + 8 * (mixdeflen + 2)
        else pos
      let pos :=
        if acmod < 0x2 then
          let pos := skipFlagged data pos 14
          if acmod = 0x0 then skipFlagged data pos 14 else pos
        else pos
      if lsmash_bits_get data pos 1 ≠ 0 then
        let pos := pos + 1
        if numblkscod = 0x0 then pos + 5
        else eac3_skip_blkmixcfginfo data ([1, 2, 3, 6].getD numblkscod 0) pos
      else pos + 1
    else pos
  else pos + 1

/-- The informational-metadata part of `eac3_parse_syncframe`, from `infomdate`
on: the value stored in `bsmod` and the cursor position after it. -/
def eac3_parse_infomdat (data : List Nat) (pos acmod fscod : Nat) : Nat × Nat :=
  if lsmash_bits_get data pos 1 ≠ 0 then
    let pos := pos + 1
    let bsmod := lsmash_bits_get data pos 3
    let pos := pos + 3
    let pos := pos + 1
    let pos := pos + 1
    let pos := if acmod = 0x2 then pos + 4 else if acmod ≥ 0x6 then pos + 2 else pos
    let pos := skipFlagged data pos 8
    let pos := if acmod = 0x0 then skipFlagged data pos 8 else pos
    let pos := if fscod < 0x3 then pos + 1 else pos
    (bsmod, pos)
  else (0, pos + 1)

/-- The last part of `eac3_parse_syncframe`, from `convsync` to `addbsi` (every
field is read and discarded): the cursor position after it. -/
def eac3_skip_tail (data : List Nat) (pos strmtyp numblkscod : Nat) : Nat :=
  let pos := if strmtyp = 0x0 ∧ numblkscod ≠ 0x3 then pos + 1 else pos
  let pos :=
    if strmtyp = 0x2 then
      let (blkid, pos) :=
        if numblkscod = 0x3 then (1, pos) else (lsmash_bits_get data pos 1, pos + 1)
      if blkid ≠ 0 then pos + 6 else pos
    else pos
  if lsmash_bits_get data pos 1 ≠ 0 then
    let pos := pos + 1
    let addbsil := lsmash_bits_get data pos 6
    pos + 6 + (addbsil + 1) * 8
  else pos + 1

/-- The function `eac3_parse_syncframe`: `data` is the window of `data_length`
bytes handed to the bit cursor; the return code and the handler after the call.
The pointer `substream_info` is the local value `substream_info`, stored back
into the entry it points to at the end (the only other store into the table,
the OR into `chan_loc`, happens for dependent frames, where `substream_info`
points to `dependent_info`).  `lsmash_bits_import_data` is taken to succeed
(it fails on an allocation failure only). -/
def eac3_parse_syncframe (info : eac3_info_t) (data : List Nat) : Int × eac3_info_t :=
  let pos := 16
  let strmtyp := lsmash_bits_get data pos 2
  let pos := pos + 2
  let substreamid := lsmash_bits_get data pos 3
  let pos := pos + 3
  let info := { info with strmtyp := strmtyp, substreamid := substreamid }
  let info :=
    if strmtyp ≠ 0x1 then
      let info :=
        if substreamid = 0x0 ∧ info.number_of_independent_substreams ≠ 0 then
          eac3_update_specific_param info
        else info
      { info with
        current_independent_substream_id := substreamid,
        independent_info := modifyEntry info.independent_info substreamid
          fun e => { e with chan_loc := 0 } }
    else info
  let substream_info :=
    if strmtyp ≠ 0x1 then
      info.independent_info.getD info.current_independent_substream_id zero_info
    else info.dependent_info
  let info := { info with frame_size := 2 * (lsmash_bits_get data pos 11 + 1) }
  let pos := pos + 11
  let fscod := lsmash_bits_get data pos 2
  let pos := pos + 2
  let substream_info := { substream_info with fscod := fscod }
  let substream_info :=
    if fscod = 0x3 then { substream_info with fscod2 := lsmash_bits_get data pos 2 }
    else substream_info
  let info :=
    { info with numblkscod := if fscod = 0x3 then 0x3 else lsmash_bits_get data pos 2 }
  let pos := pos + 2
  let acmod := lsmash_bits_get data pos 3
  let pos := pos + 3
  let lfeon := lsmash_bits_get data pos 1
  let pos := pos + 1
  let bsid := lsmash_bits_get data pos 5
  let pos := pos + 5
  let substream_info := { substream_info with acmod := acmod, lfeon := lfeon, bsid := bsid }
  let pos := pos + 5
  let pos := skipFlagged data pos 8
  let pos := if acmod = 0x0 then skipFlagged data (pos + 5) 8 else pos
  let chanmape := strmtyp = 0x1 ∧ lsmash_bits_get data pos 1 ≠ 0
  let info :=
    if chanmape then
      let chanmap := lsmash_bits_get data (pos + 1) 16
      { info with
        independent_info := modifyEntry info.independent_info
          info.current_independent_substream_id fun e =>
            { e with chan_loc := e.chan_loc ||| lsmash_eac3_get_chan_loc_from_chanmap chanmap } }
    else info
  let pos := if strmtyp = 0x1 then (if chanmape then pos + 1 + 16 else pos + 1) else pos
  let pos := eac3_skip_mixmdat data pos strmtyp acmod lfeon info.numblkscod
  let infomdat := eac3_parse_infomdat data pos acmod fscod
  let substream_info := { substream_info with bsmod := infomdat.1 }
  let _pos := eac3_skip_tail data infomdat.2 strmtyp info.numblkscod
  let info :=
    if strmtyp ≠ 0x1 then
      { info with
        independent_info :=
          info.independent_info.set info.current_independent_substream_id substream_info }
    else { info with dependent_info := substream_info }
  (eac3_check_syncframe_header info, info)

/-! ## Enhanced AC-3 access-unit assembler -/

/-- The state of the `while( 1 )` loop of
`lsmash_setup_eac3_specific_parameters_from_frame`: the handler, the bytes
`buffer_pos .. buffer_end` of the window (`remainder_length` is their number),
and the input bytes not yet copied into the window (`data_length` is their
number, `data + overall_wasted_data_length` their address). -/
structure eac3_loop_state where
  info : eac3_info_t
  window : List Nat
  data : List Nat
  deriving DecidableEq, Repr

/-- How one iteration of the loop ends: `goto setup_param` with the handler as
it then is, `return -2`, or the next iteration. -/
inductive eac3_step_result where
  | setup_param (info : eac3_info_t)
  | hard_failure
  | next (s : eac3_loop_state)
  deriving DecidableEq, Repr

/-- The refill at the top of the loop body (the `if` on `no_more_read` and
`remainder_length`). -/
def eac3_refill (s : eac3_loop_state) : eac3_loop_state :=
  if ¬ s.info.no_more_read ∧ s.window.length < EAC3_MAX_SYNCFRAME_LENGTH then
    let wasted_data_length := min s.data.length EAC3_MAX_SYNCFRAME_LENGTH
    { info := { s.info with
                no_more_read := decide (s.data.length - wasted_data_length < 5) },
      window := s.window ++ s.data.take wasted_data_length,
      data := s.data.drop wasted_data_length }
  else s

/-- The end of the loop body (the `if( independent )` statement, the advance of
`buffer_pos` and the increment of `syncframe_count`).  With
`number_of_independent_substreams` at 0 the entry before the array would be
addressed; the 8 entries are then left as they are. -/
def eac3_count_substream (info : eac3_info_t) (window data : List Nat) : eac3_step_result :=
  let independent := info.strmtyp ≠ 0x1
  let info :=
    if independent then
      { info with
        independent_info := modifyEntry info.independent_info
          info.number_of_independent_substreams fun e => { e with num_dep_sub := 0 },
        number_of_independent_substreams :=
          (info.number_of_independent_substreams + 1) % 256 }
    else if info.number_of_independent_substreams = 0 then info
    else
      { info with
        independent_info := modifyEntry info.independent_info
          (info.number_of_independent_substreams - 1) fun e =>
            { e with num_dep_sub := (e.num_dep_sub + 1) % 256 } }
  .next { info := { info with syncframe_count := info.syncframe_count + 1 },
          window := window.drop info.frame_size,
          data := data }

/-- The part of the loop body after a successful `eac3_parse_syncframe` (from
the test of `remainder_length` against `frame_size` on); `info` is the handler
as the parser left it, `window` the bytes `buffer_pos .. buffer_end`. -/
def eac3_accept_syncframe (info : eac3_info_t) (window data : List Nat) : eac3_step_result :=
  if window.length < info.frame_size then .setup_param info
  else
    let independent := info.strmtyp ≠ 0x1
    if independent ∧ info.substreamid = 0x0 then
      if info.number_of_audio_blocks = 6 then
        .setup_param { info with number_of_audio_blocks := 0 }
      else if info.number_of_audio_blocks > 6 then .setup_param info
      else
        eac3_count_substream
          { info with
            number_of_audio_blocks :=
              (info.number_of_audio_blocks + eac3_audio_block_table info.numblkscod) % 256,
            number_of_independent_substreams := 0 }
          window data
    else if info.syncframe_count = 0 then .hard_failure
    else eac3_count_substream info window data

/-- The body of the `while( 1 )` loop. -/
def eac3_loop_body (s : eac3_loop_state) : eac3_step_result :=
  let s := eac3_refill s
  let remainder_length := s.window.length
  if remainder_length < 5 ∧ s.info.no_more_read then .setup_param s.info
  else if s.window.getD 0 0 ≠ 0x0b ∨ s.window.getD 1 0 ≠ 0x77 then .setup_param s.info
  else
    let r := eac3_parse_syncframe { s.info with frame_size := 0 }
      (s.window.take (min remainder_length EAC3_MAX_SYNCFRAME_LENGTH))
    if r.1 ≠ 0 then .setup_param r.2
    else eac3_accept_syncframe r.2 s.window s.data

/-- The `while( 1 )` loop, at most `fuel` iterations: `none` when the fuel runs
out before the loop is left. -/
def eac3_loop : Nat → eac3_loop_state → Option eac3_step_result
  | 0, _ => none
  | fuel + 1, s =>
    match eac3_loop_body s with
    | .next s => eac3_loop fuel s
    | r => some r

/-- The statements after the label `setup_param`: the return code and the
caller's parameters after the call (`param` before it). -/
def eac3_setup_param (param : lsmash_eac3_specific_parameters_t) (info : eac3_info_t) :
    Int × lsmash_eac3_specific_parameters_t :=
  if info.number_of_independent_substreams = 0 ∨ info.number_of_independent_substreams > 8 then
    (-1, param)
  else
    let info := if ¬ info.dec3_param_initialized then eac3_update_specific_param info else info
    (if info.number_of_audio_blocks = 6 then 0 else -1, info.dec3_param)

/-- The loop of `lsmash_setup_eac3_specific_parameters_from_frame` run on the
input `data` from the zeroed handler and the empty window.  `data_length` is a
`uint32_t`, so an input has fewer than 2^32 bytes and `syncframe_count` cannot
wrap. -/
def eac3_run (data : List Nat) : Option eac3_step_result :=
  eac3_loop (data.length + 1) { info := zero_handler, window := [], data := data }

/-- The function `lsmash_setup_eac3_specific_parameters_from_frame`: the return
code and the caller's parameters after the call (`param` before it); `none`
would be a loop that is never left.  The input is a byte list, so the test
`!data` has no counterpart. -/
def lsmash_setup_eac3_specific_parameters_from_frame
    (param : lsmash_eac3_specific_parameters_t) (data : List Nat) :
    Option (Int × lsmash_eac3_specific_parameters_t) :=
  if data.length < 5 then some (-1, param)
  else
    match eac3_run data with
    | some (.setup_param info) => some (eac3_setup_param param info)
    | some .hard_failure => some (-2, param)
    | _ => none

/-! ## Header fields of a syncframe

The fields of the syncframe that starts at the first byte of a byte sequence,
by their position in the bitstream (bit 0 is the most significant bit of
byte 0).  They are the values carried in a frame's header;
`parse_independent` and `parse_dependent` below show that `eac3_parse_syncframe`
stores exactly these. -/

/-- The field `strmtyp`, bits 16..17. -/
def hdr_strmtyp (d : List Nat) : Nat := lsmash_bits_get d 16 2

/-- The field `substreamid`, bits 18..20. -/
def hdr_substreamid (d : List Nat) : Nat := lsmash_bits_get d 18 3

/-- The frame size in bytes, twice the 11-bit field `frmsiz` (bits 21..31) plus one. -/
def hdr_frame_size (d : List Nat) : Nat := 2 * (lsmash_bits_get d 21 11 + 1)

/-- The field `fscod`, bits 32..33. -/
def hdr_fscod (d : List Nat) : Nat := lsmash_bits_get d 32 2

/-- The field `fscod2`, bits 34..35 (present when `fscod` is 3). -/
def hdr_fscod2 (d : List Nat) : Nat := lsmash_bits_get d 34 2

/-- The block-count selector: 3 when `fscod` is 3, the field `numblkscod`
(bits 34..35) otherwise. -/
def hdr_numblkscod (d : List Nat) : Nat :=
  if hdr_fscod d = 3 then 3 else lsmash_bits_get d 34 2

/-- The field `acmod`, bits 36..38. -/
def hdr_acmod (d : List Nat) : Nat := lsmash_bits_get d 36 3

/-- The field `lfeon`, bit 39. -/
def hdr_lfeon (d : List Nat) : Nat := lsmash_bits_get d 39 1

/-- The field `bsid`, bits 40..44. -/
def hdr_bsid (d : List Nat) : Nat := lsmash_bits_get d 40 5

/-- The bit position of the flag `chanmape` of a dependent frame: after
`dialnorm`, `compre`/`compr` and, in dual mono, `dialnorm2`, `compre2`/`compr2`. -/
def hdr_chanmape_pos (d : List Nat) : Nat :=
  if hdr_acmod d = 0 then skipFlagged d (skipFlagged d 50 8 + 5) 8 else skipFlagged d 50 8

/-- The channel map a frame carries: the 16-bit field `chanmap` of a dependent
frame (`strmtyp` 1) whose flag `chanmape` is set. -/
def hdr_chanmap (d : List Nat) : Option Nat :=
  if hdr_strmtyp d = 1 ∧ lsmash_bits_get d (hdr_chanmape_pos d) 1 ≠ 0 then
    some (lsmash_bits_get d (hdr_chanmape_pos d + 1) 16)
  else none

/-- The bit position of the flag `mixmdate`. -/
def hdr_mixmdate_pos (d : List Nat) : Nat :=
  if hdr_strmtyp d = 1 then
    if lsmash_bits_get d (hdr_chanmape_pos d) 1 ≠ 0 then hdr_chanmape_pos d + 1 + 16
    else hdr_chanmape_pos d + 1
  else hdr_chanmape_pos d

/-- The informational metadata: the value of `bsmod` (0 without `infomdate`) and
the bit position after the last of its fields. -/
def hdr_infomdat (d : List Nat) : Nat × Nat :=
  eac3_parse_infomdat d
    (eac3_skip_mixmdat d (hdr_mixmdate_pos d) (hdr_strmtyp d) (hdr_acmod d) (hdr_lfeon d)
      (hdr_numblkscod d))
    (hdr_acmod d) (hdr_fscod d)

/-- The bitstream mode a frame carries. -/
def hdr_bsmod (d : List Nat) : Nat := (hdr_infomdat d).1

/-- The header passes the validation of `eac3_check_syncframe_header`: the
stream type is not 3, the sample-rate codes are not both 3, and `bsid` lies in
10..16. -/
def hdr_valid (d : List Nat) : Prop :=
  hdr_strmtyp d ≠ 3 ∧ ¬ (hdr_fscod d = 3 ∧ hdr_fscod2 d = 3) ∧ 10 ≤ hdr_bsid d ∧ hdr_bsid d ≤ 16

instance (d : List Nat) : Decidable (hdr_valid d) := by
  unfold hdr_valid; infer_instance

/-- The table after the channel map of a dependent frame, when it carries one, is
OR-ed as a location mask into the entry `cur`. -/
def or_chan_loc (table : List lsmash_eac3_substream_info_t) (cur : Nat) :
    Option Nat → List lsmash_eac3_substream_info_t
  | some chanmap =>
    modifyEntry table cur fun e =>
      { e with chan_loc := e.chan_loc ||| lsmash_eac3_get_chan_loc_from_chanmap chanmap }
  | none => table

/-- The entry `old` after the header fields of the frame `d` are stored in it. -/
def hdr_entry (old : lsmash_eac3_substream_info_t) (d : List Nat) :
    lsmash_eac3_substream_info_t :=
  { old with
    fscod := hdr_fscod d,
    fscod2 := if hdr_fscod d = 3 then hdr_fscod2 d else old.fscod2,
    acmod := hdr_acmod d, lfeon := hdr_lfeon d, bsid := hdr_bsid d, bsmod := hdr_bsmod d }

/-! ## Locality of the bit cursor -/

/-- Two byte sequences carry the same first `n` bits. -/
def agree (d1 d2 : List Nat) (n : Nat) : Prop := ∀ i, i < n → bitAt d1 i = bitAt d2 i

/-- A step of the cursor that reads only the bits it passes over: it never
moves back, and on two byte sequences that carry the same bits up to the
position it reaches it reaches the same position. -/
def LocalStep (S : List Nat → Nat → Nat) : Prop :=
  (∀ d p, p ≤ S d p) ∧
  ∀ d1 d2 n p, agree d1 d2 n → S d1 p ≤ n → S d2 p = S d1 p

/-- The cursor position after the informational metadata, as a step of the cursor. -/
def infomdatEnd (d : List Nat) (pos acmod fscod : Nat) : Nat :=
  if lsmash_bits_get d pos 1 ≠ 0 then
    let pos := pos + 1
    let pos := pos + 3
    let pos := pos + 1
    let pos := pos + 1
    let pos := if acmod = 0x2 then pos + 4 else if acmod ≥ 0x6 then pos + 2 else pos
    let pos := skipFlagged d pos 8
    let pos := if acmod = 0x0 then skipFlagged d pos 8 else pos
    if fscod < 0x3 then pos + 1 else pos
  else pos + 1

/-- The bit position after the last header field the parser keeps (the end of
the informational metadata). -/
def hdr_end (d : List Nat) : Nat := (hdr_infomdat d).2

/-- A complete, well-formed syncframe: the bytes of one frame, beginning with
the syncword, as long as its frame size field says, with a header that passes
the validation and whose fields, up to the last one the parser keeps, lie
inside the frame. -/
def WellFormedFrame (f : List Nat) : Prop :=
  f.getD 0 0 = 0x0b ∧ f.getD 1 0 = 0x77 ∧ hdr_frame_size f = f.length ∧ hdr_valid f ∧
    hdr_end f ≤ 8 * f.length

/-! ## Auxiliary definitions for the assembler -/

/-- The result of the loop from the state `s`, with fuel enough for it. -/
def eac3_result (s : eac3_loop_state) : Option eac3_step_result :=
  eac3_loop (s.window.length + s.data.length + 1) s

/-- The step result `r` with the bytes `rest` appended to the window of a next state. -/
def withRest (rest : List Nat) : eac3_step_result → eac3_step_result
  | .next s => .next { s with window := s.window ++ rest }
  | r => r

/-- The location mask accumulated from the channel maps of a list of frames: the
bitwise OR of `lsmash_eac3_get_chan_loc_from_chanmap` over the frames that carry
a channel map, 0 when none does. -/
def chan_loc_of (frames : List (List Nat)) : Nat :=
  (frames.filterMap hdr_chanmap).foldl
    (fun acc chanmap => acc ||| lsmash_eac3_get_chan_loc_from_chanmap chanmap) 0

/-- The handler after the loop body has accepted the well-formed dependent frame `f`. -/
def after_dependent (info : eac3_info_t) (f : List Nat) : eac3_info_t :=
  { info with
    strmtyp := hdr_strmtyp f, substreamid := hdr_substreamid f,
    frame_size := hdr_frame_size f, numblkscod := hdr_numblkscod f,
    dependent_info := hdr_entry info.dependent_info f,
    independent_info :=
      modifyEntry
        (or_chan_loc info.independent_info info.current_independent_substream_id (hdr_chanmap f))
        (info.number_of_independent_substreams - 1)
        fun e => { e with num_dep_sub := (e.num_dep_sub + 1) % 256 },
    syncframe_count := info.syncframe_count + 1 }

/-- The handler after the loop body has accepted the well-formed independent
frame `f` of a substream other than 0. -/
def after_independent (info : eac3_info_t) (f : List Nat) : eac3_info_t :=
  { info with
    strmtyp := hdr_strmtyp f, substreamid := hdr_substreamid f,
    current_independent_substream_id := hdr_substreamid f,
    frame_size := hdr_frame_size f, numblkscod := hdr_numblkscod f,
    independent_info :=
      modifyEntry
        (info.independent_info.set (hdr_substreamid f)
          (hdr_entry { info.independent_info.getD (hdr_substreamid f) zero_info with
                       chan_loc := 0 } f))
        info.number_of_independent_substreams
        fun e => { e with num_dep_sub := 0 },
    number_of_independent_substreams := (info.number_of_independent_substreams + 1) % 256,
    syncframe_count := info.syncframe_count + 1 }

/-- The handler after the loop body has accepted the well-formed independent
frame `f` of substream 0. -/
def after_unit_start (info : eac3_info_t) (f : List Nat) : eac3_info_t :=
  { (if info.number_of_independent_substreams ≠ 0 then
      eac3_update_specific_param info else info) with
    strmtyp := hdr_strmtyp f, substreamid := 0,
    current_independent_substream_id := 0,
    frame_size := hdr_frame_size f, numblkscod := hdr_numblkscod f,
    independent_info :=
      modifyEntry
        (info.independent_info.set 0
          (hdr_entry { info.independent_info.getD 0 zero_info with chan_loc := 0 } f))
        0 fun e => { e with num_dep_sub := 0 },
    number_of_audio_blocks :=
      (info.number_of_audio_blocks + eac3_audio_block_table (hdr_numblkscod f)) % 256,
    number_of_independent_substreams := 1,
    syncframe_count := info.syncframe_count + 1 }

instance (f : List Nat) : Decidable (WellFormedFrame f) := by
  unfold WellFormedFrame; infer_instance

/-- The number of distinct independent substreams present in a list of frames:
the number of different substream ids among its independent frames. -/
def distinct_independent (fs : List (List Nat)) : Nat :=
  ((fs.filter fun f => hdr_strmtyp f ≠ 1).map hdr_substreamid).dedup.length

/-- The audio blocks contributed by the independent frames of substream 0 in a
list of frames (selector table 0->1, 1->2, 2->3, 3->6). -/
def unit_blocks : List (List Nat) → Nat
  | [] => 0
  | f :: fs =>
    (if hdr_strmtyp f ≠ 1 ∧ hdr_substreamid f = 0 then
      eac3_audio_block_table (hdr_numblkscod f) else 0) + unit_blocks fs

/-- The number of independent syncframes in the last group of a list of frames,
a group running from an independent frame of substream 0 up to the next one;
`n` independent syncframes of the current group precede the list. -/
def last_group : List (List Nat) → Nat → Nat
  | [], n => n
  | f :: fs, n =>
    if hdr_strmtyp f ≠ 1 ∧ hdr_substreamid f = 0 then last_group fs 1
    else if hdr_strmtyp f ≠ 1 then last_group fs (n + 1)
    else last_group fs n

/-- The number of independent syncframes in the group that precedes the last
independent frame of substream 0 of a list of frames (`prev` when the list has
no such frame); `n` independent syncframes of the current group precede the list. -/
def previous_group : List (List Nat) → Nat → Option Nat → Option Nat
  | [], _, prev => prev
  | f :: fs, n, prev =>
    if hdr_strmtyp f ≠ 1 ∧ hdr_substreamid f = 0 then previous_group fs 1 (some n)
    else if hdr_strmtyp f ≠ 1 then previous_group fs (n + 1) prev
    else previous_group fs n prev

/-- No group of a list of frames holds more than 8 independent syncframes; `n`
independent syncframes of the current group precede the list. -/
def groups_within : List (List Nat) → Nat → Prop
  | [], n => n ≤ 8
  | f :: fs, n =>
    if hdr_strmtyp f ≠ 1 ∧ hdr_substreamid f = 0 then n ≤ 8 ∧ groups_within fs 1
    else if hdr_strmtyp f ≠ 1 then groups_within fs (n + 1)
    else groups_within fs n

/-! ## Auxiliary definitions for the record codecs -/

/-- The record bytes of one entry. -/
def substreamBytes (e : lsmash_eac3_substream_info_t) : List Nat :=
  [e.fscod % 4 * 64 + e.bsid % 32 * 2 + e.bsmod % 32 / 16,
   e.bsmod % 16 * 16 + e.acmod % 8 * 2 + e.lfeon % 2] ++
  (if e.num_dep_sub > 0 then [e.num_dep_sub % 16 * 2 + e.chan_loc % 512 / 256, e.chan_loc % 256]
   else [0])

/-- Every field of an entry fits its width in the record. -/
def InWidth (e : lsmash_eac3_substream_info_t) : Prop :=
  e.fscod < 4 ∧ e.bsid < 32 ∧ e.bsmod < 32 ∧ e.acmod < 8 ∧ e.lfeon ≤ 1 ∧
    e.num_dep_sub < 16 ∧ e.chan_loc < 512

/-- The entry `old` after the decoder has stored the record fields of `e` in it. -/
def decoded (old e : lsmash_eac3_substream_info_t) : lsmash_eac3_substream_info_t :=
  { old with fscod := e.fscod, bsid := e.bsid, bsmod := e.bsmod, acmod := e.acmod,
             lfeon := e.lfeon, num_dep_sub := e.num_dep_sub,
             chan_loc := if e.num_dep_sub > 0 then e.chan_loc else old.chan_loc }

/-- The table after the decoder loop has stored the entries `ents` from index `i` on. -/
def writeBack : List lsmash_eac3_substream_info_t → Nat → List lsmash_eac3_substream_info_t →
    List lsmash_eac3_substream_info_t
  | infos, _, [] => infos
  | infos, i, e :: es => writeBack (infos.set i (decoded (infos.getD i zero_info) e)) (i + 1) es

/-- The entries `0..k-1` of a table, as the encoder loop visits them. -/
def firstEntries (infos : List lsmash_eac3_substream_info_t) (k : Nat) :
    List lsmash_eac3_substream_info_t :=
  (List.range k).map fun j => infos.getD j zero_info

/-- The decoded entry `r` carries the record fields of `e`. -/
def entryMatches (r e : lsmash_eac3_substream_info_t) : Prop :=
  r.fscod = e.fscod ∧ r.bsid = e.bsid ∧ r.bsmod = e.bsmod ∧ r.acmod = e.acmod ∧
    r.lfeon = e.lfeon ∧ r.num_dep_sub = e.num_dep_sub ∧
    (e.num_dep_sub > 0 → r.chan_loc = e.chan_loc)

/-! ## Header fields of an AC-3 syncframe

The fixed fields of the AC-3 syncframe that starts at the first byte of a byte
sequence, by their position in the bitstream, and the bit layouts of the two
records. -/

/-- The field `fscod` of an AC-3 syncframe: bits 32..33. -/
def ac3_hdr_fscod (d : List Nat) : Nat := 2 * bitAt d 32 + bitAt d 33

/-- The field `frmsizecod` of an AC-3 syncframe: bits 34..39. -/
def ac3_hdr_frmsizecod (d : List Nat) : Nat :=
  32 * bitAt d 34 + 16 * bitAt d 35 + 8 * bitAt d 36 + 4 * bitAt d 37 + 2 * bitAt d 38 +
    bitAt d 39

/-- The field `bsid` of an AC-3 syncframe: bits 40..44. -/
def ac3_hdr_bsid (d : List Nat) : Nat :=
  16 * bitAt d 40 + 8 * bitAt d 41 + 4 * bitAt d 42 + 2 * bitAt d 43 + bitAt d 44

/-- The field `bsmod` of an AC-3 syncframe: bits 45..47. -/
def ac3_hdr_bsmod (d : List Nat) : Nat := 4 * bitAt d 45 + 2 * bitAt d 46 + bitAt d 47

/-- The field `acmod` of an AC-3 syncframe: bits 48..50. -/
def ac3_hdr_acmod (d : List Nat) : Nat := 4 * bitAt d 48 + 2 * bitAt d 49 + bitAt d 50

/-- The `width` low bits of `value`, most significant first. -/
def fieldBits (width value : Nat) : List Nat :=
  (List.range width).map fun i => value / 2 ^ (width - 1 - i) % 2

/-- The bytes of a bit sequence, 8 bits to a byte, most significant bit first
(bits after the last full byte are dropped). -/
def bytesOfBits : List Nat → List Nat
  | b0 :: b1 :: b2 :: b3 :: b4 :: b5 :: b6 :: b7 :: rest =>
    (128 * b0 + 64 * b1 + 32 * b2 + 16 * b3 + 8 * b4 + 4 * b5 + 2 * b6 + b7) :: bytesOfBits rest
  | _ => []

/-- The 24 bits of the AC-3 record after the size and the type, as the record
layout lists them. -/
def ac3_record_bits (p : lsmash_ac3_specific_parameters_t) : List Nat :=
  fieldBits 2 p.fscod ++ fieldBits 5 p.bsid ++ fieldBits 3 p.bsmod ++ fieldBits 3 p.acmod ++
    fieldBits 1 p.lfeon ++ fieldBits 5 (p.frmsizecod / 2) ++ [0, 0, 0, 0, 0]

/-- The bits of one substream of the Enhanced AC-3 record, as the record layout
lists them. -/
def eac3_substream_bits (e : lsmash_eac3_substream_info_t) : List Nat :=
  fieldBits 2 e.fscod ++ fieldBits 5 e.bsid ++ fieldBits 5 e.bsmod ++ fieldBits 3 e.acmod ++
    fieldBits 1 e.lfeon ++ [0, 0, 0] ++ fieldBits 4 e.num_dep_sub ++
    (if e.num_dep_sub > 0 then fieldBits 9 e.chan_loc else [0])

/-- The bits of the Enhanced AC-3 record after the size and the type, as the
record layout lists them. -/
def eac3_record_bits (p : lsmash_eac3_specific_parameters_t) : List Nat :=
  fieldBits 13 p.data_rate ++ fieldBits 3 p.num_ind_sub ++
    ((firstEntries p.independent_info (p.num_ind_sub + 1)).map eac3_substream_bits).flatten

/-- The size an AC-3 record declares: the big-endian 32-bit value at offset 0,
or, when that value is 1, the big-endian 64-bit value at offset 8. -/
def ac3_declared_size (oob : Nat → Nat) (src : List Nat) : Nat :=
  if LSMASH_GET_BE32 oob src 0 = 1 then LSMASH_GET_BE64 oob src 8 else LSMASH_GET_BE32 oob src 0

/-- The offset of the field bytes of an AC-3 record: 8, or 16 with the 64-bit size. -/
def ac3_fields_offset (oob : Nat → Nat) (src : List Nat) : Nat :=
  if LSMASH_GET_BE32 oob src 0 = 1 then 16 else 8

/-- The bit position of the flag `lfeon` of an AC-3 syncframe: bit 51, moved on
by 2 bits for each of `cmixlev` (acmod odd and not 1), `surmixlev` (bit 0x4 of
acmod set) and `dsurmod` (acmod 2) that the header carries. -/
def ac3_hdr_lfeon_pos (d : List Nat) : Nat :=
  51 + 2 * (if ac3_hdr_acmod d % 2 = 1 ∧ ac3_hdr_acmod d ≠ 1 then 1 else 0)
    + 2 * (if ac3_hdr_acmod d / 4 % 2 = 1 then 1 else 0)
    + 2 * (if ac3_hdr_acmod d = 2 then 1 else 0)

/-- The bit position of `lfeon` with the first skip taken whenever acmod is odd
and not 0, the reading of the skip rule that names acmod 0 as the excluded
mode. -/
def ac3_lfeon_pos_excluding_acmod0 (d : List Nat) : Nat :=
  51 + 2 * (if ac3_hdr_acmod d % 2 = 1 ∧ ac3_hdr_acmod d ≠ 0 then 1 else 0)
    + 2 * (if ac3_hdr_acmod d / 4 % 2 = 1 then 1 else 0)
    + 2 * (if ac3_hdr_acmod d = 2 then 1 else 0)

/-! ## Auxiliary definitions for the parser, the refill and the record reads -/

/-- The value of the bits `first..last` of a byte sequence, most significant
first (bit 0 is the most significant bit of byte 0). -/
def bitsValue (d : List Nat) (first last : Nat) : Nat :=
  (List.range (last + 1 - first)).foldl (fun acc i => 2 * acc + bitAt d (first + i)) 0

/-- The entry the pointer `substream_info` of `eac3_parse_syncframe` refers to,
in the handler the parser leaves: the table entry of the current independent
substream for an independent frame, `dependent_info` for a dependent one. -/
def substream_info_of (info : eac3_info_t) : lsmash_eac3_substream_info_t :=
  if info.strmtyp ≠ 0x1 then
    info.independent_info.getD info.current_independent_substream_id zero_info
  else info.dependent_info

/-- One step of the reference assembler: the decisions of the loop body taken
on the syncframe read directly from the unread input `rest`. -/
def reference_body (info : eac3_info_t) (rest : List Nat) : eac3_step_result :=
  if rest.length < 5 then .setup_param info
  else if rest.getD 0 0 ≠ 0x0b ∨ rest.getD 1 0 ≠ 0x77 then .setup_param info
  else
    let r := eac3_parse_syncframe { info with frame_size := 0 }
      (rest.take (min rest.length EAC3_MAX_SYNCFRAME_LENGTH))
    if r.1 ≠ 0 then .setup_param r.2
    else eac3_accept_syncframe r.2 rest []

/-- The reference assembler's loop, at most `fuel` steps: each step reads the
next syncframe at the running sum of the preceding frame sizes, that is at the
start of the unread input. -/
def reference_loop : Nat → eac3_info_t → List Nat → Option eac3_step_result
  | 0, _, _ => none
  | fuel + 1, info, rest =>
    match reference_body info rest with
    | .next s => reference_loop fuel s.info s.window
    | r => some r

/-- The reference assembler: the entry point with the loop replaced by the
reference loop over the whole input.  The handler starts zeroed with
`no_more_read` set, the whole input being at hand (the reference loop never
consults the flag). -/
def reference_assembler (param : lsmash_eac3_specific_parameters_t) (data : List Nat) :
    Option (Int × lsmash_eac3_specific_parameters_t) :=
  if data.length < 5 then some (-1, param)
  else
    match reference_loop (data.length + 1) { zero_handler with no_more_read := true } data with
    | some (.setup_param info) => some (eac3_setup_param param info)
    | some .hard_failure => some (-2, param)
    | _ => none

/-- The indices of `src` that the `for` loop of
`eac3_construct_specific_parameters` reads, in order: `k` iterations left, `data`
the offset of the read pointer, `size` the running size. -/
def eac3_construct_loop_reads (oob : Nat → Nat) (src : List Nat) : Nat → Nat → Nat → List Nat
  | 0, _, _ => []
  | k + 1, data, size =>
    if size < 3 then []
    else
      let num_dep_sub := (rdByte oob src (data + 2) >>> 1) &&& 0x0F
      let reads := [data, data + 1, data + 2]
      let data := data + 3
      let size := size - 3
      if num_dep_sub > 0 then
        if size < 1 then reads
        else reads ++ [data - 1, data] ++ eac3_construct_loop_reads oob src k (data + 1) (size - 1)
      else reads ++ eac3_construct_loop_reads oob src k data size

/-- The indices of `src` that `eac3_construct_specific_parameters` reads, in
order. -/
def eac3_construct_reads (oob : Nat → Nat) (src : List Nat) : List Nat :=
  if src.length < EAC3_SPECIFIC_BOX_MIN_LENGTH then []
  else
    let size := LSMASH_GET_BE32 oob src 0
    let data := ISOM_BASEBOX_COMMON_SIZE
    let reads := [0, 1, 2, 3]
    let (size, data, reads) :=
      if size = 1 then
        (LSMASH_GET_BE64 oob src data, data + 8, reads ++ (List.range 8).map fun j => data + j)
      else (size, data, reads)
    if size ≠ src.length then reads
    else
      let num_ind_sub := rdByte oob src (data + 1) &&& 0x07
      reads ++ [data, data + 1] ++
        eac3_construct_loop_reads oob src (num_ind_sub + 1) (data + 2) (size - 2)

/-! # Properties -/

/-! ## Arithmetic of the bit operations -/

theorem beBytes_zero (x : Nat) : beBytes 0 x = [] := rfl

theorem beBytes_one (x : Nat) : beBytes 1 x = [x % 256] := by simp [beBytes]

theorem beBytes_two (x : Nat) : beBytes 2 x = [x / 256 % 256, x % 256] := by
  simp [beBytes, List.range_succ]

theorem beBytes_four (x : Nat) :
    beBytes 4 x = [x / 16777216 % 256, x / 65536 % 256, x / 256 % 256, x % 256] := by
  simp [beBytes, List.range_succ]

theorem eac3_put_substream_aligned (bs : List Nat) (e : lsmash_eac3_substream_info_t) :
    eac3_put_substream { bytes := bs, cache := 0, store := 0 } e =
      { bytes := bs ++ substreamBytes e, cache := 0, store := 0 } := by
  unfold eac3_put_substream substreamBytes
  by_cases h : e.num_dep_sub > 0
  · simp [lsmash_bits_put, beBytes_zero, beBytes_one, beBytes_two, h]
    refine ⟨⟨?_, ?_, ?_, ?_⟩, ?_⟩ <;> omega
  · have h0 : e.num_dep_sub = 0 := by omega
    simp [lsmash_bits_put, beBytes_zero, beBytes_one, beBytes_two, h0]
    refine ⟨?_, ?_⟩ <;> omega

theorem eac3_put_substreams_aligned (infos : List lsmash_eac3_substream_info_t) (k : Nat) :
    ∀ (i : Nat) (bs : List Nat),
      eac3_put_substreams infos k i { bytes := bs, cache := 0, store := 0 } =
        { bytes := bs ++ ((List.range k).map fun j => substreamBytes (infos.getD (i + j) zero_info)).flatten,
          cache := 0, store := 0 } := by
  induction k with
  | zero => intro i bs; simp [eac3_put_substreams]
  | succ k ih =>
    intro i bs
    simp only [eac3_put_substreams, eac3_put_substream_aligned, ih]
    simp [List.range_succ_eq_map, List.map_map, Function.comp_def, Nat.add_assoc, Nat.add_comm 1]

theorem and_mask (x n : Nat) : x &&& (2 ^ n - 1) = x % 2 ^ n := Nat.and_pow_two_sub_one_eq_mod x n

theorem and_1 (x : Nat) : x &&& 1 = x % 2 := and_mask x 1

theorem and_3 (x : Nat) : x &&& 3 = x % 4 := and_mask x 2

theorem and_7 (x : Nat) : x &&& 7 = x % 8 := and_mask x 3

theorem and_15 (x : Nat) : x &&& 15 = x % 16 := and_mask x 4

theorem and_31 (x : Nat) : x &&& 31 = x % 32 := and_mask x 5

theorem shl_or (a b k : Nat) (h : b < 2 ^ k) : (a <<< k) ||| b = a * 2 ^ k + b := by
  rw [Nat.shiftLeft_eq, Nat.mul_comm, Nat.mul_add_lt_is_or h]

theorem mul_or (a b k : Nat) (h : b < 2 ^ k) : a * 2 ^ k ||| b = a * 2 ^ k + b := by
  rw [Nat.mul_comm, Nat.mul_add_lt_is_or h]

theorem rdByte_append (oob : Nat → Nat) (pre l : List Nat) (j : Nat) :
    rdByte oob (pre ++ l) (pre.length + j) = rdByte (fun m => oob (pre.length + m)) l j := by
  unfold rdByte
  simp only [List.length_append, Nat.add_lt_add_iff_left]
  split
  · simp [List.getD_eq_getElem?_getD, List.getElem?_append_right]
  · rfl

theorem rdByte_at0 (oob : Nat → Nat) (pre t : List Nat) (a : Nat) :
    rdByte oob (pre ++ a :: t) pre.length = a := by
  have h := rdByte_append oob pre (a :: t) 0
  simpa [rdByte] using h

theorem rdByte_at1 (oob : Nat → Nat) (pre t : List Nat) (a b : Nat) :
    rdByte oob (pre ++ a :: b :: t) (pre.length + 1) = b := by
  rw [rdByte_append]; simp [rdByte]

theorem rdByte_at2 (oob : Nat → Nat) (pre t : List Nat) (a b c : Nat) :
    rdByte oob (pre ++ a :: b :: c :: t) (pre.length + 2) = c := by
  rw [rdByte_append]; simp [rdByte]

theorem rdByte_at3 (oob : Nat → Nat) (pre t : List Nat) (a b c d : Nat) :
    rdByte oob (pre ++ a :: b :: c :: d :: t) (pre.length + 3) = d := by
  rw [rdByte_append]; simp [rdByte]

theorem eac3_construct_loop_step (oob : Nat → Nat) (pre rest : List Nat)
    (e : lsmash_eac3_substream_info_t) (he : InWidth e) (k i size : Nat)
    (infos : List lsmash_eac3_substream_info_t) (hs : 4 ≤ size) :
    eac3_construct_loop oob (pre ++ (substreamBytes e ++ rest)) (k + 1) i pre.length size infos =
      eac3_construct_loop oob (pre ++ (substreamBytes e ++ rest)) k (i + 1)
        (pre ++ substreamBytes e).length (size - (substreamBytes e).length)
        (infos.set i (decoded (infos.getD i zero_info) e)) := by
  obtain ⟨h1, h2, h3, h4, h5, h6, h7⟩ := he
  have hs3 : ¬ size < 3 := by omega
  have hs4 : ¬ size - 3 < 1 := by omega
  have hb : ((e.fscod % 4 * 64 + e.bsid % 32 * 2 + e.bsmod % 32 / 16) % 2) <<< 4 |||
      (e.bsmod % 16 * 16 + e.acmod % 8 * 2 + e.lfeon % 2) / 16 % 16 = e.bsmod := by
    rw [shl_or _ _ 4 (by omega)]; omega
  have hf : (e.fscod % 4 * 64 + e.bsid % 32 * 2 + e.bsmod % 32 / 16) / 64 % 4 = e.fscod := by omega
  have hi : (e.fscod % 4 * 64 + e.bsid % 32 * 2 + e.bsmod % 32 / 16) / 2 % 32 = e.bsid := by omega
  have ha : (e.bsmod % 16 * 16 + e.acmod % 8 * 2 + e.lfeon % 2) / 2 % 8 = e.acmod := by omega
  have hl : (e.bsmod % 16 * 16 + e.acmod % 8 * 2 + e.lfeon % 2) % 2 = e.lfeon := by omega
  have p1 : pre.length + 3 - 1 = pre.length + 2 := by omega
  have p2 : pre.length + 3 + 1 = pre.length + 4 := by omega
  have p3 : size - 3 - 1 = size - 4 := by omega
  by_cases h : e.num_dep_sub > 0
  · have hc : ((e.num_dep_sub % 16 * 2 + e.chan_loc % 512 / 256) % 2) <<< 8 ||| e.chan_loc % 256
        = e.chan_loc := by
      rw [shl_or _ _ 8 (by omega)]; omega
    have hn : (e.num_dep_sub % 16 * 2 + e.chan_loc % 512 / 256) / 2 % 16 = e.num_dep_sub := by omega
    have hn' : 0 < (e.num_dep_sub % 16 * 2 + e.chan_loc % 512 / 256) / 2 % 16 := by omega
    rw [eac3_construct_loop]
    simp only [substreamBytes, h, if_true, List.cons_append, List.nil_append, List.singleton_append,
      p1, rdByte_at0, rdByte_at1, rdByte_at2, rdByte_at3, Nat.add_zero, hs3, hs4, if_false,
      and_1, and_3, and_7, and_15, and_31, Nat.shiftRight_eq_div_pow,
      hb, hc, hn, hn', hf, hi, ha, hl, p2, p3, Nat.pow_one, gt_iff_lt, List.length_append,
      List.length_cons, List.length_nil, Nat.reduceAdd, Nat.reducePow, decoded]
  · have h0 : e.num_dep_sub = 0 := by omega
    have hz : ¬ (0 < 0 / 2 % 16) := by decide
    rw [eac3_construct_loop]
    simp only [substreamBytes, h, h0, if_false, List.cons_append, List.nil_append,
      List.singleton_append, lt_irrefl, Nat.zero_mod, Nat.zero_mul, Nat.zero_div,
      rdByte_at0, rdByte_at1, rdByte_at2, Nat.add_zero, hs3, hz,
      and_1, and_3, and_7, and_15, and_31, Nat.shiftRight_eq_div_pow,
      hb, hf, hi, ha, hl, Nat.pow_one, gt_iff_lt, List.length_append,
      List.length_cons, List.length_nil, Nat.reduceAdd, Nat.reducePow, decoded]

theorem eac3_construct_loop_spec (oob : Nat → Nat) :
    ∀ (ents : List lsmash_eac3_substream_info_t) (i : Nat) (pre : List Nat) (size : Nat)
      (infos : List lsmash_eac3_substream_info_t),
      (∀ e ∈ ents, InWidth e) → 4 * ents.length ≤ size →
      eac3_construct_loop oob (pre ++ (ents.map substreamBytes).flatten) ents.length i
        pre.length size infos = (0, writeBack infos i ents) := by
  intro ents
  induction ents with
  | nil => intro i pre size infos _ _; simp [eac3_construct_loop, writeBack]
  | cons e es ih =>
    intro i pre size infos hw hs
    have he : InWidth e := hw e (List.mem_cons_self _ _)
    have hes : ∀ x ∈ es, InWidth x := fun x hx => hw x (List.mem_cons_of_mem _ hx)
    have hl : (substreamBytes e).length ≤ 4 := by
      unfold substreamBytes; split <;> simp
    simp only [List.length_cons] at hs
    simp only [List.map_cons, List.flatten_cons, List.length_cons]
    rw [eac3_construct_loop_step oob pre _ e he _ i size infos (by omega)]
    rw [← List.append_assoc]
    rw [ih (i + 1) (pre ++ substreamBytes e) _ _ hes (by omega)]
    simp [writeBack]

theorem writeBack_length : ∀ (ents infos : List lsmash_eac3_substream_info_t) (i : Nat),
    (writeBack infos i ents).length = infos.length := by
  intro ents
  induction ents with
  | nil => intro infos i; rfl
  | cons e es ih => intro infos i; simp [writeBack, ih]

theorem writeBack_below : ∀ (ents infos : List lsmash_eac3_substream_info_t) (i j : Nat),
    j < i → (writeBack infos i ents).getD j zero_info = infos.getD j zero_info := by
  intro ents
  induction ents with
  | nil => intro infos i j _; rfl
  | cons e es ih =>
    intro infos i j hj
    simp only [writeBack]
    rw [ih _ (i + 1) j (by omega)]
    simp only [List.getD_eq_getElem?_getD]
    rw [List.getElem?_set_ne (by omega)]

theorem writeBack_at : ∀ (ents infos : List lsmash_eac3_substream_info_t) (i j : Nat),
    j < ents.length → i + j < infos.length →
    (writeBack infos i ents).getD (i + j) zero_info =
      decoded (infos.getD (i + j) zero_info) (ents.getD j zero_info) := by
  intro ents
  induction ents with
  | nil => intro infos i j hj; simp at hj
  | cons e es ih =>
    intro infos i j hj hi
    simp only [writeBack]
    cases j with
    | zero =>
      simp only [Nat.add_zero] at hi ⊢
      rw [writeBack_below _ _ (i + 1) i (Nat.lt_succ_self i)]
      simp only [List.getD_eq_getElem?_getD]
      have hi' : i < infos.length := by omega
      simp [List.getElem?_set_self, hi']
    | succ j =>
      have e1 : i + (j + 1) = (i + 1) + j := by omega
      simp only [List.length_cons] at hj
      rw [e1, ih _ (i + 1) j (by omega) (by simp; omega)]
      simp only [List.getD_eq_getElem?_getD]
      rw [List.getElem?_set_ne (by omega)]
      simp

theorem firstEntries_length (infos : List lsmash_eac3_substream_info_t) (k : Nat) :
    (firstEntries infos k).length = k := by simp [firstEntries]

theorem substreamBytes_length_le (e : lsmash_eac3_substream_info_t) :
    (substreamBytes e).length ≤ 4 := by
  unfold substreamBytes; split <;> simp

theorem substreamBytes_length_ge (e : lsmash_eac3_substream_info_t) :
    3 ≤ (substreamBytes e).length := by
  unfold substreamBytes; split <;> simp

theorem flatten_substreamBytes_length (ents : List lsmash_eac3_substream_info_t) :
    3 * ents.length ≤ ((ents.map substreamBytes).flatten).length ∧
    ((ents.map substreamBytes).flatten).length ≤ 4 * ents.length := by
  induction ents with
  | nil => simp
  | cons e es ih =>
    have h1 := substreamBytes_length_le e
    have h2 := substreamBytes_length_ge e
    simp only [List.map_cons, List.flatten_cons, List.length_append, List.length_cons]
    omega

theorem create_eac3_bytes (p : lsmash_eac3_specific_parameters_t) (h : p.num_ind_sub ≤ 7) :
    lsmash_create_eac3_specific_info p =
      some (beBytes 4 ((10 + (((firstEntries p.independent_info (p.num_ind_sub + 1)).map
                substreamBytes).flatten).length) % 2 ^ 32) ++
        ([100, 101, 99, 51, p.data_rate % 8192 / 32, p.data_rate % 32 * 8 + p.num_ind_sub % 8] ++
          ((firstEntries p.independent_info (p.num_ind_sub + 1)).map substreamBytes).flatten)) := by
  have h7 : ¬ p.num_ind_sub > 7 := by omega
  have hb : lsmash_bits_put (lsmash_bits_put (lsmash_bits_put (lsmash_bits_put lsmash_bits_init
      32 0) 32 ISOM_BOX_TYPE_DEC3) 13 p.data_rate) 3 p.num_ind_sub =
      { bytes := [0, 0, 0, 0, 100, 101, 99, 51, p.data_rate % 8192 / 32,
                  p.data_rate % 32 * 8 + p.num_ind_sub % 8], cache := 0, store := 0 } := by
    simp [lsmash_bits_put, lsmash_bits_init, beBytes_zero, beBytes_one, beBytes_two, beBytes_four,
      ISOM_BOX_TYPE_DEC3]
    refine ⟨?_, ?_⟩ <;> omega
  simp only [lsmash_create_eac3_specific_info, h7, if_false, hb, eac3_put_substreams_aligned,
    lsmash_bits_export_data, if_true, LSMASH_SET_BE32, Nat.zero_add, firstEntries, List.map_map,
    Function.comp_def]
  simp
  congr 2
  omega

theorem entryMatches_decoded (old e : lsmash_eac3_substream_info_t) :
    entryMatches (decoded old e) e := by
  unfold entryMatches decoded
  refine ⟨rfl, rfl, rfl, rfl, rfl, rfl, ?_⟩
  intro h
  simp [h]

theorem eac3_construct_of_create (p : lsmash_eac3_specific_parameters_t)
    (hn : p.num_ind_sub ≤ 7) (hr : p.data_rate < 2 ^ 13)
    (hw : ∀ i, i ≤ p.num_ind_sub → InWidth (p.independent_info.getD i zero_info))
    (oob : Nat → Nat) (dst : lsmash_eac3_specific_parameters_t) :
    ∃ record, lsmash_create_eac3_specific_info p = some record ∧
      eac3_construct_specific_parameters oob dst record =
        (0, { data_rate := p.data_rate, num_ind_sub := p.num_ind_sub,
              independent_info := writeBack dst.independent_info 0
                (firstEntries p.independent_info (p.num_ind_sub + 1)) }) := by
  refine ⟨_, create_eac3_bytes p hn, ?_⟩
  generalize hents : firstEntries p.independent_info (p.num_ind_sub + 1) = ents
  have hlen : ents.length = p.num_ind_sub + 1 := by rw [← hents, firstEntries_length]
  have hwe : ∀ e ∈ ents, InWidth e := by
    intro e he
    rw [← hents] at he
    simp only [firstEntries, List.mem_map, List.mem_range] at he
    obtain ⟨j, hj, rfl⟩ := he
    exact hw j (by omega)
  obtain ⟨hb1, hb2⟩ := flatten_substreamBytes_length ents
  generalize hbody : (ents.map substreamBytes).flatten = body at hb1 hb2
  have hL : (10 + body.length) % 2 ^ 32 = 10 + body.length := by omega
  have e4 : beBytes 4 (10 + body.length) = [0, 0, 0, 10 + body.length] := by
    rw [beBytes_four]
    simp only [List.cons.injEq, and_true]
    refine ⟨?_, ?_, ?_, ?_⟩ <;> omega
  rw [hL, e4]
  have hsplit : [0, 0, 0, 10 + body.length] ++
      ([100, 101, 99, 51, p.data_rate % 8192 / 32, p.data_rate % 32 * 8 + p.num_ind_sub % 8] ++ body)
      = [0, 0, 0, 10 + body.length, 100, 101, 99, 51, p.data_rate % 8192 / 32,
          p.data_rate % 32 * 8 + p.num_ind_sub % 8] ++ (ents.map substreamBytes).flatten := by
    rw [hbody]; rfl
  have hloop := eac3_construct_loop_spec oob ents 0
    [0, 0, 0, 10 + body.length, 100, 101, 99, 51, p.data_rate % 8192 / 32,
      p.data_rate % 32 * 8 + p.num_ind_sub % 8] (10 + body.length - 2) dst.independent_info hwe
    (by omega)
  rw [hlen] at hloop
  have hdr : ((p.data_rate % 8192 / 32) <<< 5 ||| (p.data_rate % 32 * 8 + p.num_ind_sub % 8) / 8 % 32)
      % 65536 = p.data_rate := by
    rw [shl_or _ _ 5 (by omega)]
    norm_num at hr
    omega
  have hni : (p.data_rate % 32 * 8 + p.num_ind_sub % 8) % 8 = p.num_ind_sub := by omega
  have h13 : ¬ (10 + body.length < 13) := by omega
  have h1 : ¬ (10 + body.length = 1) := by omega
  rw [hsplit]
  have hlen2 : ([0, 0, 0, 10 + body.length, 100, 101, 99, 51, p.data_rate % 8192 / 32,
      p.data_rate % 32 * 8 + p.num_ind_sub % 8] ++ (ents.map substreamBytes).flatten).length
      = 10 + body.length := by
    rw [hbody]; simp; omega
  have hpre : ([0, 0, 0, 10 + body.length, 100, 101, 99, 51, p.data_rate % 8192 / 32,
      p.data_rate % 32 * 8 + p.num_ind_sub % 8] : List Nat).length = 10 := rfl
  rw [hpre] at hloop
  generalize hsrc : ([0, 0, 0, 10 + body.length, 100, 101, 99, 51, p.data_rate % 8192 / 32,
      p.data_rate % 32 * 8 + p.num_ind_sub % 8] ++ (ents.map substreamBytes).flatten) = src
      at hloop hlen2
  have r0 : rdByte oob src 0 = 0 := by rw [← hsrc]; simp [rdByte]
  have r1 : rdByte oob src 1 = 0 := by rw [← hsrc]; simp [rdByte]
  have r2 : rdByte oob src 2 = 0 := by rw [← hsrc]; simp [rdByte]
  have r3 : rdByte oob src 3 = 10 + body.length := by rw [← hsrc]; simp [rdByte]
  have r8 : rdByte oob src 8 = p.data_rate % 8192 / 32 := by rw [← hsrc]; simp [rdByte]
  have r9 : rdByte oob src 9 = p.data_rate % 32 * 8 + p.num_ind_sub % 8 := by
    rw [← hsrc]; simp [rdByte]
  have hbe : LSMASH_GET_BE32 oob src 0 = 10 + body.length := by
    simp [LSMASH_GET_BE32, r0, r1, r2, r3]
  unfold eac3_construct_specific_parameters
  simp only [hlen2, EAC3_SPECIFIC_BOX_MIN_LENGTH, h13, if_false, hbe, h1, ISOM_BASEBOX_COMMON_SIZE,
    ne_eq, not_true_eq_false, r8, r9, and_7, and_31, Nat.shiftRight_eq_div_pow, Nat.reducePow,
    Nat.reduceAdd, hdr, hni, hloop]

/-! ## The syncframe parser -/

theorem update_independent_info (info : eac3_info_t) :
    (eac3_update_specific_param info).independent_info = info.independent_info := rfl

theorem get_lt (d : List Nat) (pos w : Nat) : lsmash_bits_get d pos w < 2 ^ w := by
  induction w with
  | zero => simp [lsmash_bits_get]
  | succ w ih =>
    have hb : bitAt d (pos + w) < 2 := by unfold bitAt; omega
    simp only [lsmash_bits_get, pow_succ]
    omega

theorem parse_independent (info : eac3_info_t) (d : List Nat) (h : hdr_strmtyp d ≠ 1)
    (hl : info.independent_info.length = 8) :
    eac3_parse_syncframe info d =
      (if hdr_valid d then 0 else -1,
       { (if hdr_substreamid d = 0 ∧ info.number_of_independent_substreams ≠ 0 then
            eac3_update_specific_param info else info) with
         strmtyp := hdr_strmtyp d, substreamid := hdr_substreamid d,
         current_independent_substream_id := hdr_substreamid d,
         frame_size := hdr_frame_size d, numblkscod := hdr_numblkscod d,
         independent_info := info.independent_info.set (hdr_substreamid d)
           (hdr_entry { info.independent_info.getD (hdr_substreamid d) zero_info with
                        chan_loc := 0 } d) }) := by
  have hs : hdr_substreamid d < 8 := get_lt d 18 3
  have hg : ∀ (t : List lsmash_eac3_substream_info_t) (e : lsmash_eac3_substream_info_t),
      t.length = 8 → (t.set (lsmash_bits_get d 18 3) e)[lsmash_bits_get d 18 3]? = some e := by
    intro t e ht
    rw [List.getElem?_set_self (by unfold hdr_substreamid at hs; omega)]
  unfold hdr_strmtyp at h
  obtain ⟨p0, t0, dep0, ini0, st0, sid0, cur0, nb0, blk0, n0, nmr0, sc0, fs0⟩ := info
  simp only at hl
  unfold eac3_parse_syncframe
  simp only [h, not_false_eq_true, if_true, if_false, false_and, ne_eq]
  by_cases hu : lsmash_bits_get d 18 3 = 0 ∧ ¬ n0 = 0 <;>
  by_cases hf : lsmash_bits_get d 32 2 = 3 <;>
  simp [hu, hf, eac3_check_syncframe_header, hdr_valid, modifyEntry, hdr_entry, hg, hl,
        eac3_update_specific_param, hdr_strmtyp, hdr_substreamid, hdr_fscod, hdr_fscod2, hdr_bsid, h,
        hdr_frame_size, hdr_numblkscod, hdr_acmod, hdr_lfeon, hdr_bsmod, hdr_infomdat,
        hdr_mixmdate_pos, hdr_chanmape_pos] <;>
  split_ifs <;> simp_all <;> omega

theorem parse_dependent (info : eac3_info_t) (d : List Nat) (h : hdr_strmtyp d = 1) :
    eac3_parse_syncframe info d =
      (if hdr_valid d then 0 else -1,
       { info with
         strmtyp := hdr_strmtyp d, substreamid := hdr_substreamid d,
         frame_size := hdr_frame_size d, numblkscod := hdr_numblkscod d,
         dependent_info := hdr_entry info.dependent_info d,
         independent_info :=
           or_chan_loc info.independent_info info.current_independent_substream_id
             (hdr_chanmap d) }) := by
  unfold hdr_strmtyp at h
  obtain ⟨p0, t0, dep0, ini0, st0, sid0, cur0, nb0, blk0, n0, nmr0, sc0, fs0⟩ := info
  unfold eac3_parse_syncframe
  by_cases hc : lsmash_bits_get d (hdr_chanmape_pos d) 1 = 0 <;>
  by_cases hf : lsmash_bits_get d 32 2 = 3 <;>
  simp [hf, eac3_check_syncframe_header, hdr_valid, hdr_entry, hdr_chanmap, or_chan_loc,
        hdr_strmtyp, hdr_substreamid, hdr_fscod, hdr_fscod2, hdr_bsid, h,
        hdr_frame_size, hdr_numblkscod, hdr_acmod, hdr_lfeon, hdr_bsmod, hdr_infomdat,
        hdr_mixmdate_pos] <;>
  simp [hdr_chanmape_pos, hdr_acmod] at hc <;>
  simp [hc, hdr_chanmape_pos, hdr_acmod] <;>
  split_ifs <;> simp_all <;> omega

theorem get_congr (d1 d2 : List Nat) (n pos w : Nat) (h : agree d1 d2 n) (hp : pos + w ≤ n) :
    lsmash_bits_get d1 pos w = lsmash_bits_get d2 pos w := by
  induction w with
  | zero => rfl
  | succ w ih =>
    simp only [lsmash_bits_get]
    rw [ih (by omega), h (pos + w) (by omega)]

theorem agree_take (d : List Nat) (k : Nat) : agree (d.take k) d (8 * k) := by
  intro i hi
  unfold bitAt
  have : i / 8 < k := by omega
  simp [List.getD_eq_getElem?_getD, List.getElem?_take, this]

theorem agree_append (d rest : List Nat) : agree (d ++ rest) d (8 * d.length) := by
  intro i hi
  unfold bitAt
  have : i / 8 < d.length := by omega
  simp [List.getD_eq_getElem?_getD, List.getElem?_append_left this]

theorem agree_mono (d1 d2 : List Nat) (n m : Nat) (h : agree d1 d2 n) (hm : m ≤ n) :
    agree d1 d2 m := fun i hi => h i (by omega)

theorem agree_symm (d1 d2 : List Nat) (n : Nat) (h : agree d1 d2 n) : agree d2 d1 n :=
  fun i hi => (h i hi).symm

theorem agree_take_all (d : List Nat) (k n : Nat) (hk : d.length ≤ k) : agree (d.take k) d n := by
  rw [List.take_of_length_le hk]
  intro i _
  rfl

theorem local_id : LocalStep (fun _ p => p) :=
  ⟨fun _ _ => Nat.le_refl _, fun _ _ _ _ _ _ => rfl⟩

theorem local_add (c : Nat) : LocalStep (fun _ p => p + c) :=
  ⟨fun _ _ => Nat.le_add_right _ _, fun _ _ _ _ _ _ => rfl⟩

theorem local_comp {S T : List Nat → Nat → Nat} (hS : LocalStep S) (hT : LocalStep T) :
    LocalStep (fun d p => T d (S d p)) := by
  refine ⟨fun d p => Nat.le_trans (hS.1 d p) (hT.1 d _), ?_⟩
  intro d1 d2 n p ha hn
  have h1 : S d1 p ≤ n := Nat.le_trans (hT.1 d1 _) hn
  have h2 := hS.2 d1 d2 n p ha h1
  simp only [h2]
  exact hT.2 d1 d2 n _ ha hn

theorem local_ite (c : Prop) [Decidable c] {S T : List Nat → Nat → Nat}
    (hS : LocalStep S) (hT : LocalStep T) :
    LocalStep (fun d p => if c then S d p else T d p) := by
  by_cases h : c
  · simpa [h] using hS
  · simpa [h] using hT

theorem local_value (w : Nat) {F : Nat → List Nat → Nat → Nat}
    (hF : ∀ v, LocalStep (F v)) :
    LocalStep (fun d p => F (lsmash_bits_get d p w) d (p + w)) := by
  refine ⟨fun d p => Nat.le_trans (Nat.le_add_right p w) ((hF _).1 d _), ?_⟩
  intro d1 d2 n p ha hn
  have h1 : p + w ≤ n := Nat.le_trans ((hF _).1 d1 _) hn
  have h2 := get_congr d1 d2 n p w ha h1
  simp only [← h2]
  exact (hF _).2 d1 d2 n _ ha hn

theorem local_flag {S T : List Nat → Nat → Nat} (hS : LocalStep S) (hT : LocalStep T) :
    LocalStep (fun d p => if lsmash_bits_get d p 1 ≠ 0 then S d (p + 1) else T d (p + 1)) :=
  local_value 1 (F := fun v d p => if v ≠ 0 then S d p else T d p)
    (fun v => local_ite (v ≠ 0) hS hT)

theorem local_skipFlagged (w : Nat) : LocalStep (fun d p => skipFlagged d p w) := by
  have h := local_flag (local_add w) local_id
  exact h

theorem local_blk (k : Nat) : LocalStep (fun d p => eac3_skip_blkmixcfginfo d k p) := by
  induction k with
  | zero => exact local_id
  | succ k ih =>
    show LocalStep (fun d p => eac3_skip_blkmixcfginfo d k (skipFlagged d p 5))
    exact local_comp (local_skipFlagged 5) ih

theorem local_mixmdat (strmtyp acmod lfeon numblkscod : Nat) :
    LocalStep (fun d p => eac3_skip_mixmdat d p strmtyp acmod lfeon numblkscod) :=
  local_flag
    (local_comp
      (local_comp
        (local_comp (local_ite (acmod > 0x2) (local_add 2) local_id)
          (local_ite (((acmod &&& 0x1) ≠ 0 ∧ acmod > 0x2) ∨ (acmod &&& 0x4) ≠ 0)
            (local_add 6) local_id))
        (local_ite (lfeon ≠ 0) (local_skipFlagged 5) local_id))
      (local_ite (strmtyp = 0x0)
        (local_comp
          (local_comp
            (local_comp
              (local_comp
                (local_comp (local_skipFlagged 6)
                  (local_ite (acmod = 0x0) (local_skipFlagged 6) local_id))
                (local_skipFlagged 6))
              (local_value 2
                (F := fun v d p =>
                  if v = 0x1 then p + 5 else if v = 0x2 then p + 12
                  else if v = 0x3 then p + 5 + 8 * (lsmash_bits_get d p 5 + 2) else p)
                (fun v => local_ite (v = 0x1) (local_add 5)
                  (local_ite (v = 0x2) (local_add 12)
                    (local_ite (v = 0x3)
                      (local_value 5 (F := fun len _ p => p + 8 * (len + 2))
                        (fun len => local_add (8 * (len + 2))))
                      local_id)))))
            (local_ite (acmod < 0x2)
              (local_comp (local_skipFlagged 14)
                (local_ite (acmod = 0x0) (local_skipFlagged 14) local_id))
              local_id))
          (local_flag
            (local_ite (numblkscod = 0x0) (local_add 5)
              (local_blk ([1, 2, 3, 6].getD numblkscod 0)))
            local_id))
        local_id))
    local_id

theorem infomdat_snd (d : List Nat) (pos acmod fscod : Nat) :
    (eac3_parse_infomdat d pos acmod fscod).2 = infomdatEnd d pos acmod fscod := by
  unfold eac3_parse_infomdat infomdatEnd
  split <;> rfl

theorem infomdat_fst (d : List Nat) (pos acmod fscod : Nat) :
    (eac3_parse_infomdat d pos acmod fscod).1 =
      if lsmash_bits_get d pos 1 ≠ 0 then lsmash_bits_get d (pos + 1) 3 else 0 := by
  unfold eac3_parse_infomdat
  split <;> rfl

theorem local_infomdatEnd (acmod fscod : Nat) :
    LocalStep (fun d p => infomdatEnd d p acmod fscod) :=
  local_flag
    (local_comp
      (local_comp
        (local_comp
          (local_comp (local_comp (local_comp (local_add 3) (local_add 1)) (local_add 1))
            (local_ite (acmod = 0x2) (local_add 4)
              (local_ite (acmod ≥ 0x6) (local_add 2) local_id)))
          (local_skipFlagged 8))
        (local_ite (acmod = 0x0) (local_skipFlagged 8) local_id))
      (local_ite (fscod < 0x3) (local_add 1) local_id))
    local_id

theorem infomdatEnd_ge (d : List Nat) (pos acmod fscod : Nat) :
    (if lsmash_bits_get d pos 1 ≠ 0 then pos + 4 else pos + 1) ≤ infomdatEnd d pos acmod fscod := by
  unfold infomdatEnd
  by_cases h : lsmash_bits_get d pos 1 ≠ 0
  · simp only [h, if_true]
    have h1 := (local_skipFlagged 8).1 d
      (if acmod = 0x2 then pos + 1 + 3 + 1 + 1 + 4
        else if acmod ≥ 0x6 then pos + 1 + 3 + 1 + 1 + 2 else pos + 1 + 3 + 1 + 1)
    have h2 := (local_skipFlagged 8).1 d (skipFlagged d
      (if acmod = 0x2 then pos + 1 + 3 + 1 + 1 + 4
        else if acmod ≥ 0x6 then pos + 1 + 3 + 1 + 1 + 2 else pos + 1 + 3 + 1 + 1) 8)
    simp only [] at h1 h2
    split_ifs at h1 h2 ⊢ <;> omega
  · simp only [h, if_false]; omega

theorem infomdat_congr (d1 d2 : List Nat) (n pos acmod fscod : Nat) (ha : agree d1 d2 n)
    (hn : (eac3_parse_infomdat d1 pos acmod fscod).2 ≤ n) :
    eac3_parse_infomdat d2 pos acmod fscod = eac3_parse_infomdat d1 pos acmod fscod := by
  rw [infomdat_snd] at hn
  have h2 := (local_infomdatEnd acmod fscod).2 d1 d2 n pos ha hn
  have hge := infomdatEnd_ge d1 pos acmod fscod
  have hflag : lsmash_bits_get d1 pos 1 = lsmash_bits_get d2 pos 1 :=
    get_congr d1 d2 n pos 1 ha (by split_ifs at hge <;> omega)
  apply Prod.ext
  · rw [infomdat_fst, infomdat_fst, ← hflag]
    split_ifs at hge ⊢ with h
    · exact (get_congr d1 d2 n (pos + 1) 3 ha (by omega)).symm
    · rfl
  · rw [infomdat_snd, infomdat_snd]
    exact h2

theorem local_chanmape (acmod : Nat) :
    LocalStep (fun d p =>
      if acmod = 0 then skipFlagged d (skipFlagged d p 8 + 5) 8 else skipFlagged d p 8) :=
  local_ite (acmod = 0)
    (local_comp (local_comp (local_skipFlagged 8) (local_add 5)) (local_skipFlagged 8))
    (local_skipFlagged 8)

/-- The header fields the parser keeps are the same on two byte sequences that
carry the same bits up to the end of the informational metadata of the first. -/
theorem hdr_congr (d1 d2 : List Nat) (n : Nat) (ha : agree d1 d2 n) (h45 : 45 ≤ n)
    (hn : (hdr_infomdat d1).2 ≤ n) :
    hdr_strmtyp d2 = hdr_strmtyp d1 ∧ hdr_substreamid d2 = hdr_substreamid d1 ∧
    hdr_frame_size d2 = hdr_frame_size d1 ∧ hdr_fscod d2 = hdr_fscod d1 ∧
    hdr_fscod2 d2 = hdr_fscod2 d1 ∧ hdr_numblkscod d2 = hdr_numblkscod d1 ∧
    hdr_acmod d2 = hdr_acmod d1 ∧ hdr_lfeon d2 = hdr_lfeon d1 ∧ hdr_bsid d2 = hdr_bsid d1 ∧
    hdr_chanmap d2 = hdr_chanmap d1 ∧ hdr_infomdat d2 = hdr_infomdat d1 := by
  have g : ∀ pos w, pos + w ≤ 45 → lsmash_bits_get d2 pos w = lsmash_bits_get d1 pos w :=
    fun pos w h => (get_congr d1 d2 n pos w ha (by omega)).symm
  have e1 : hdr_strmtyp d2 = hdr_strmtyp d1 := g 16 2 (by omega)
  have e2 : hdr_substreamid d2 = hdr_substreamid d1 := g 18 3 (by omega)
  have e3 : hdr_frame_size d2 = hdr_frame_size d1 := by
    unfold hdr_frame_size; rw [g 21 11 (by omega)]
  have e4 : hdr_fscod d2 = hdr_fscod d1 := g 32 2 (by omega)
  have e5 : hdr_fscod2 d2 = hdr_fscod2 d1 := g 34 2 (by omega)
  have e6 : hdr_numblkscod d2 = hdr_numblkscod d1 := by
    unfold hdr_numblkscod; rw [e4, g 34 2 (by omega)]
  have e7 : hdr_acmod d2 = hdr_acmod d1 := g 36 3 (by omega)
  have e8 : hdr_lfeon d2 = hdr_lfeon d1 := g 39 1 (by omega)
  have e9 : hdr_bsid d2 = hdr_bsid d1 := g 40 5 (by omega)
  -- the positions reached on `d1`
  have k1 := (local_mixmdat (hdr_strmtyp d1) (hdr_acmod d1) (hdr_lfeon d1) (hdr_numblkscod d1)).1
    d1 (hdr_mixmdate_pos d1)
  have k2 : eac3_skip_mixmdat d1 (hdr_mixmdate_pos d1) (hdr_strmtyp d1) (hdr_acmod d1)
      (hdr_lfeon d1) (hdr_numblkscod d1) ≤ n := by
    have := (local_infomdatEnd (hdr_acmod d1) (hdr_fscod d1)).1 d1
      (eac3_skip_mixmdat d1 (hdr_mixmdate_pos d1) (hdr_strmtyp d1) (hdr_acmod d1)
        (hdr_lfeon d1) (hdr_numblkscod d1))
    simp only [] at this
    unfold hdr_infomdat at hn
    rw [infomdat_snd] at hn
    omega
  simp only [] at k1
  have k3 : hdr_mixmdate_pos d1 ≤ n := by omega
  have c1 : hdr_chanmape_pos d2 = hdr_chanmape_pos d1 := by
    have hh := (local_chanmape (hdr_acmod d1)).2 d1 d2 n 50 ha
    simp only [] at hh
    unfold hdr_chanmape_pos
    rw [e7]
    apply hh
    have : hdr_chanmape_pos d1 ≤ hdr_mixmdate_pos d1 := by
      unfold hdr_mixmdate_pos; split_ifs <;> omega
    unfold hdr_chanmape_pos at this
    omega
  have c2 : hdr_strmtyp d1 = 1 →
      lsmash_bits_get d2 (hdr_chanmape_pos d1) 1 = lsmash_bits_get d1 (hdr_chanmape_pos d1) 1 := by
    intro hs
    refine (get_congr d1 d2 n _ 1 ha ?_).symm
    unfold hdr_mixmdate_pos at k3
    simp only [hs, if_true] at k3
    split_ifs at k3 <;> omega
  have c3 : hdr_chanmap d2 = hdr_chanmap d1 := by
    unfold hdr_chanmap
    rw [e1, c1]
    by_cases hs : hdr_strmtyp d1 = 1
    · rw [c2 hs]
      by_cases hf : lsmash_bits_get d1 (hdr_chanmape_pos d1) 1 = 0
      · rw [if_neg (fun hh => hh.2 hf), if_neg (fun hh => hh.2 hf)]
      · rw [if_pos ⟨hs, hf⟩, if_pos ⟨hs, hf⟩]
        refine congrArg some (get_congr d1 d2 n _ 16 ha ?_).symm
        unfold hdr_mixmdate_pos at k3
        rw [if_pos hs, if_pos hf] at k3
        omega
    · rw [if_neg (fun hh => hs hh.1), if_neg (fun hh => hs hh.1)]
  have c4 : hdr_mixmdate_pos d2 = hdr_mixmdate_pos d1 := by
    unfold hdr_mixmdate_pos
    rw [e1, c1]
    by_cases hs : hdr_strmtyp d1 = 1
    · rw [c2 hs]
    · rw [if_neg hs, if_neg hs]
  have c5 : eac3_skip_mixmdat d2 (hdr_mixmdate_pos d1) (hdr_strmtyp d1) (hdr_acmod d1)
      (hdr_lfeon d1) (hdr_numblkscod d1) =
      eac3_skip_mixmdat d1 (hdr_mixmdate_pos d1) (hdr_strmtyp d1) (hdr_acmod d1)
      (hdr_lfeon d1) (hdr_numblkscod d1) :=
    (local_mixmdat (hdr_strmtyp d1) (hdr_acmod d1) (hdr_lfeon d1) (hdr_numblkscod d1)).2
      d1 d2 n _ ha k2
  have c6 : hdr_infomdat d2 = hdr_infomdat d1 := by
    unfold hdr_infomdat
    rw [e1, e4, e6, e7, e8, c4, c5]
    exact infomdat_congr d1 d2 n _ _ _ ha hn
  exact ⟨e1, e2, e3, e4, e5, e6, e7, e8, e9, c3, c6⟩

theorem hdr_frame_size_ge (d : List Nat) : 2 ≤ hdr_frame_size d := by
  unfold hdr_frame_size; omega

theorem parse_frame_size (info : eac3_info_t) (data : List Nat) :
    (eac3_parse_syncframe info data).2.frame_size = hdr_frame_size data := by
  unfold eac3_parse_syncframe hdr_frame_size
  simp only []
  split_ifs <;> rfl

theorem refill_measure (s : eac3_loop_state) :
    (eac3_refill s).window.length + (eac3_refill s).data.length =
      s.window.length + s.data.length := by
  unfold eac3_refill
  split
  · simp only [List.length_append, List.length_take, List.length_drop]
    omega
  · rfl

theorem count_substream_next (info : eac3_info_t) (window data : List Nat) :
    ∃ info', eac3_count_substream info window data =
      .next { info := info', window := window.drop info.frame_size, data := data } := by
  unfold eac3_count_substream
  simp only []
  split_ifs <;> exact ⟨_, rfl⟩

theorem accept_syncframe_next (info : eac3_info_t) (window data : List Nat)
    (s' : eac3_loop_state) (h : eac3_accept_syncframe info window data = .next s') :
    info.frame_size ≤ window.length ∧ s'.window = window.drop info.frame_size ∧
      s'.data = data := by
  unfold eac3_accept_syncframe at h
  simp only [] at h
  split_ifs at h with h1 h2 h3 h4 h5
  · obtain ⟨info', hc⟩ := count_substream_next
      { info with
        number_of_audio_blocks :=
          (info.number_of_audio_blocks + eac3_audio_block_table info.numblkscod) % 256,
        number_of_independent_substreams := 0 } window data
    rw [hc] at h
    injection h with h
    subst h
    exact ⟨by omega, rfl, rfl⟩
  · obtain ⟨info', hc⟩ := count_substream_next info window data
    rw [hc] at h
    injection h with h
    subst h
    exact ⟨by omega, rfl, rfl⟩

theorem loop_body_next (s s' : eac3_loop_state) (h : eac3_loop_body s = .next s') :
    ∃ fs, 2 ≤ fs ∧ fs ≤ (eac3_refill s).window.length ∧
      s'.window = (eac3_refill s).window.drop fs ∧ s'.data = (eac3_refill s).data := by
  unfold eac3_loop_body at h
  simp only [] at h
  split_ifs at h with h1 h2 h3
  obtain ⟨k1, k2, k3⟩ := accept_syncframe_next _ _ _ _ h
  rw [parse_frame_size] at k1 k2
  exact ⟨_, hdr_frame_size_ge _, k1, k2, k3⟩

theorem loop_total : ∀ (fuel : Nat) (s : eac3_loop_state),
    s.window.length + s.data.length < fuel →
    (∃ info, eac3_loop fuel s = some (.setup_param info)) ∨
      eac3_loop fuel s = some .hard_failure := by
  intro fuel
  induction fuel with
  | zero => intro s h; omega
  | succ fuel ih =>
    intro s h
    unfold eac3_loop
    cases hb : eac3_loop_body s with
    | setup_param info => exact Or.inl ⟨info, rfl⟩
    | hard_failure => exact Or.inr rfl
    | next s' =>
      obtain ⟨fs, h2, hle, hw, hd⟩ := loop_body_next s s' hb
      have hm := refill_measure s
      apply ih
      rw [hw, hd, List.length_drop]
      omega

theorem run_total (data : List Nat) :
    (∃ info, eac3_run data = some (.setup_param info)) ∨ eac3_run data = some .hard_failure := by
  unfold eac3_run
  apply loop_total
  simp

theorem setup_total (param : lsmash_eac3_specific_parameters_t) (data : List Nat) :
    ∃ r, lsmash_setup_eac3_specific_parameters_from_frame param data = some r := by
  unfold lsmash_setup_eac3_specific_parameters_from_frame
  split
  · exact ⟨_, rfl⟩
  · rcases run_total data with ⟨info, h⟩ | h <;> rw [h] <;> exact ⟨_, rfl⟩

/-! ## The assembler loop -/

theorem loop_fuel : ∀ (f1 f2 : Nat) (s : eac3_loop_state),
    s.window.length + s.data.length < f1 → s.window.length + s.data.length < f2 →
    eac3_loop f1 s = eac3_loop f2 s := by
  intro f1
  induction f1 with
  | zero => intro f2 s h; omega
  | succ f1 ih =>
    intro f2 s h1 h2
    cases f2 with
    | zero => omega
    | succ f2 =>
      unfold eac3_loop
      cases hb : eac3_loop_body s with
      | setup_param info => rfl
      | hard_failure => rfl
      | next s' =>
        obtain ⟨fs, h3, hle, hw, hd⟩ := loop_body_next s s' hb
        have hm := refill_measure s
        simp only []
        apply ih
        · rw [hw, hd, List.length_drop]; omega
        · rw [hw, hd, List.length_drop]; omega

theorem run_eq_result (data : List Nat) :
    eac3_run data = eac3_result { info := zero_handler, window := [], data := data } := by
  unfold eac3_run eac3_result
  apply loop_fuel <;> simp

theorem result_next (s s' : eac3_loop_state) (h : eac3_loop_body s = .next s') :
    eac3_result s = eac3_result s' := by
  obtain ⟨fs, h3, hle, hw, hd⟩ := loop_body_next s s' h
  have hm := refill_measure s
  unfold eac3_result
  rw [show s.window.length + s.data.length + 1 = (s.window.length + s.data.length) + 1 from rfl]
  conv_lhs => unfold eac3_loop
  rw [h]
  simp only []
  apply loop_fuel
  · rw [hw, hd, List.length_drop]; omega
  · omega

theorem result_setup (s : eac3_loop_state) (info : eac3_info_t)
    (h : eac3_loop_body s = .setup_param info) : eac3_result s = some (.setup_param info) := by
  unfold eac3_result eac3_loop
  rw [h]

theorem result_hard (s : eac3_loop_state) (h : eac3_loop_body s = .hard_failure) :
    eac3_result s = some .hard_failure := by
  unfold eac3_result eac3_loop
  rw [h]

theorem hdr_frame_size_le (d : List Nat) : hdr_frame_size d ≤ 4096 := by
  have := get_lt d 21 11
  unfold hdr_frame_size
  norm_num at this
  omega

theorem hdr_end_ge (d : List Nat) : 53 ≤ hdr_end d := by
  unfold hdr_end hdr_infomdat
  rw [infomdat_snd]
  have h1 := infomdatEnd_ge d (eac3_skip_mixmdat d (hdr_mixmdate_pos d) (hdr_strmtyp d)
    (hdr_acmod d) (hdr_lfeon d) (hdr_numblkscod d)) (hdr_acmod d) (hdr_fscod d)
  have h2 : hdr_mixmdate_pos d + 1 ≤ eac3_skip_mixmdat d (hdr_mixmdate_pos d) (hdr_strmtyp d)
      (hdr_acmod d) (hdr_lfeon d) (hdr_numblkscod d) := by
    have hA := (local_comp
      (local_comp
        (local_comp (local_ite (hdr_acmod d > 0x2) (local_add 2) local_id)
          (local_ite (((hdr_acmod d &&& 0x1) ≠ 0 ∧ hdr_acmod d > 0x2) ∨ (hdr_acmod d &&& 0x4) ≠ 0)
            (local_add 6) local_id))
        (local_ite (hdr_lfeon d ≠ 0) (local_skipFlagged 5) local_id))
      (local_ite (hdr_strmtyp d = 0x0)
        (local_comp
          (local_comp
            (local_comp
              (local_comp
                (local_comp (local_skipFlagged 6)
                  (local_ite (hdr_acmod d = 0x0) (local_skipFlagged 6) local_id))
                (local_skipFlagged 6))
              (local_value 2
                (F := fun v d p =>
                  if v = 0x1 then p + 5 else if v = 0x2 then p + 12
                  else if v = 0x3 then p + 5 + 8 * (lsmash_bits_get d p 5 + 2) else p)
                (fun v => local_ite (v = 0x1) (local_add 5)
                  (local_ite (v = 0x2) (local_add 12)
                    (local_ite (v = 0x3)
                      (local_value 5 (F := fun len _ p => p + 8 * (len + 2))
                        (fun len => local_add (8 * (len + 2))))
                      local_id)))))
            (local_ite (hdr_acmod d < 0x2)
              (local_comp (local_skipFlagged 14)
                (local_ite (hdr_acmod d = 0x0) (local_skipFlagged 14) local_id))
              local_id))
          (local_flag
            (local_ite (hdr_numblkscod d = 0x0) (local_add 5)
              (local_blk ([1, 2, 3, 6].getD (hdr_numblkscod d) 0)))
            local_id))
        local_id)).1 d (hdr_mixmdate_pos d + 1)
    unfold eac3_skip_mixmdat
    by_cases hf : lsmash_bits_get d (hdr_mixmdate_pos d) 1 ≠ 0
    · rw [if_pos hf]
      exact hA
    · rw [if_neg hf]
  have h3 : 51 ≤ hdr_mixmdate_pos d := by
    have k1 := (local_skipFlagged 8).1 d 50
    have k2 := (local_skipFlagged 8).1 d (skipFlagged d 50 8 + 5)
    have k3 : 51 ≤ skipFlagged d 50 8 := by unfold skipFlagged; split <;> omega
    simp only [] at k1 k2
    unfold hdr_mixmdate_pos hdr_chanmape_pos
    split_ifs <;> omega
  split_ifs at h1 <;> omega

theorem wellFormed_length (f : List Nat) (h : WellFormedFrame f) :
    7 ≤ f.length ∧ f.length ≤ 4096 := by
  obtain ⟨_, _, h3, _, h5⟩ := h
  have := hdr_end_ge f
  have := hdr_frame_size_le f
  omega

theorem agree_take_append (f rest : List Nat) (k : Nat) (hk : f.length ≤ k) :
    agree f ((f ++ rest).take k) (8 * f.length) := by
  intro i hi
  unfold bitAt
  have h1 : i / 8 < f.length := by omega
  have h2 : i / 8 < k := by omega
  simp [List.getD_eq_getElem?_getD, List.getElem?_take, h2, List.getElem?_append_left h1]

theorem parse_window (info : eac3_info_t) (f rest : List Nat) (k : Nat)
    (hf : WellFormedFrame f) (hk : f.length ≤ k) (hl : info.independent_info.length = 8) :
    eac3_parse_syncframe info ((f ++ rest).take k) = eac3_parse_syncframe info f := by
  have hlen := wellFormed_length f hf
  obtain ⟨_, _, _, _, h5⟩ := hf
  obtain ⟨e1, e2, e3, e4, e5, e6, e7, e8, e9, c3, c6⟩ :=
    hdr_congr f ((f ++ rest).take k) (8 * f.length) (agree_take_append f rest k hk) (by omega) h5
  have ev : hdr_valid ((f ++ rest).take k) ↔ hdr_valid f := by
    unfold hdr_valid; rw [e1, e4, e5, e9]
  have eb : hdr_bsmod ((f ++ rest).take k) = hdr_bsmod f := by
    unfold hdr_bsmod; rw [c6]
  have ee : ∀ old, hdr_entry old ((f ++ rest).take k) = hdr_entry old f := by
    intro old; unfold hdr_entry; rw [e4, e5, e7, e8, e9, eb]
  by_cases hs : hdr_strmtyp f = 1
  · rw [parse_dependent info _ (by rw [e1]; exact hs), parse_dependent info f hs]
    simp only [e1, e2, e3, e6, c3, ee, ev]
  · rw [parse_independent info _ (by rw [e1]; exact hs) hl, parse_independent info f hs hl]
    simp only [e1, e2, e3, e6, c3, ee, ev]

theorem refill_no_more_read (s : eac3_loop_state) (h : s.info.no_more_read = true) :
    eac3_refill s = s := by
  unfold eac3_refill
  simp [h]

theorem count_substream_append (info : eac3_info_t) (w rest data : List Nat)
    (h : info.frame_size ≤ w.length) :
    eac3_count_substream info (w ++ rest) data =
      withRest rest (eac3_count_substream info w data) := by
  unfold eac3_count_substream withRest
  simp only []
  split_ifs <;> simp [List.drop_append_of_le_length, h]

theorem parse_no_more_read (info : eac3_info_t) (d : List Nat) :
    (eac3_parse_syncframe info d).2.no_more_read = info.no_more_read := by
  unfold eac3_parse_syncframe
  simp only []
  split_ifs <;> rfl

theorem accept_syncframe_append (info : eac3_info_t) (w rest data : List Nat)
    (h : info.frame_size ≤ w.length) :
    eac3_accept_syncframe info (w ++ rest) data =
      withRest rest (eac3_accept_syncframe info w data) := by
  unfold eac3_accept_syncframe
  have c1 : ¬ (w ++ rest).length < info.frame_size := by
    simp only [List.length_append]; omega
  have c2 : ¬ w.length < info.frame_size := by omega
  rw [if_neg c1, if_neg c2]
  simp only []
  split_ifs <;> first
    | rfl
    | exact count_substream_append _ _ _ _ h

theorem loop_body_append (info : eac3_info_t) (f rest : List Nat) (hf : WellFormedFrame f)
    (hn : info.no_more_read = true) (hl : info.independent_info.length = 8) :
    eac3_loop_body { info := info, window := f ++ rest, data := [] } =
      withRest rest (eac3_loop_body { info := info, window := f, data := [] }) := by
  have hlen := wellFormed_length f hf
  have hfs : hdr_frame_size f = f.length := hf.2.2.1
  have hp1 := parse_window { info with frame_size := 0 } f rest
    (min (f ++ rest).length EAC3_MAX_SYNCFRAME_LENGTH)
    hf (by simp [EAC3_MAX_SYNCFRAME_LENGTH]; omega) hl
  have hp2 : f.take (min f.length EAC3_MAX_SYNCFRAME_LENGTH) = f := by
    apply List.take_of_length_le; simp [EAC3_MAX_SYNCFRAME_LENGTH]; omega
  have h0 : (f ++ rest).getD 0 0 = f.getD 0 0 := by
    simp [List.getD_eq_getElem?_getD, List.getElem?_append_left (show 0 < f.length by omega)]
  have h1 : (f ++ rest).getD 1 0 = f.getD 1 0 := by
    simp [List.getD_eq_getElem?_getD, List.getElem?_append_left (show 1 < f.length by omega)]
  have hfs2 := parse_frame_size { info with frame_size := 0 } f
  unfold eac3_loop_body
  rw [refill_no_more_read _ hn, refill_no_more_read _ hn]
  simp only []
  rw [hp1, hp2, h0, h1]
  generalize eac3_parse_syncframe { info with frame_size := 0 } f = P at hfs2 ⊢
  have c1 : ¬ ((f ++ rest).length < 5 ∧ info.no_more_read = true) := by
    simp only [List.length_append]; omega
  have c2 : ¬ (f.length < 5 ∧ info.no_more_read = true) := by omega
  rw [if_neg c1, if_neg c2]
  split_ifs <;> first
    | rfl
    | (apply accept_syncframe_append; rw [hfs2, hfs])

/-! ## The first iteration and the end of the data -/

theorem hdr_fixed_congr (d1 d2 : List Nat) (n : Nat) (ha : agree d1 d2 n) (h45 : 45 ≤ n) :
    hdr_strmtyp d2 = hdr_strmtyp d1 ∧ hdr_substreamid d2 = hdr_substreamid d1 ∧
    hdr_frame_size d2 = hdr_frame_size d1 ∧ hdr_fscod d2 = hdr_fscod d1 ∧
    hdr_fscod2 d2 = hdr_fscod2 d1 ∧ hdr_numblkscod d2 = hdr_numblkscod d1 ∧
    hdr_acmod d2 = hdr_acmod d1 ∧ hdr_lfeon d2 = hdr_lfeon d1 ∧ hdr_bsid d2 = hdr_bsid d1 ∧
    (hdr_valid d2 ↔ hdr_valid d1) := by
  have g : ∀ pos w, pos + w ≤ 45 → lsmash_bits_get d2 pos w = lsmash_bits_get d1 pos w :=
    fun pos w h => (get_congr d1 d2 n pos w ha (by omega)).symm
  have e1 : hdr_strmtyp d2 = hdr_strmtyp d1 := g 16 2 (by omega)
  have e2 : hdr_substreamid d2 = hdr_substreamid d1 := g 18 3 (by omega)
  have e3 : hdr_frame_size d2 = hdr_frame_size d1 := by
    unfold hdr_frame_size; rw [g 21 11 (by omega)]
  have e4 : hdr_fscod d2 = hdr_fscod d1 := g 32 2 (by omega)
  have e5 : hdr_fscod2 d2 = hdr_fscod2 d1 := g 34 2 (by omega)
  have e6 : hdr_numblkscod d2 = hdr_numblkscod d1 := by
    unfold hdr_numblkscod; rw [e4, g 34 2 (by omega)]
  have e7 : hdr_acmod d2 = hdr_acmod d1 := g 36 3 (by omega)
  have e8 : hdr_lfeon d2 = hdr_lfeon d1 := g 39 1 (by omega)
  have e9 : hdr_bsid d2 = hdr_bsid d1 := g 40 5 (by omega)
  refine ⟨e1, e2, e3, e4, e5, e6, e7, e8, e9, ?_⟩
  unfold hdr_valid
  rw [e1, e4, e5, e9]

theorem agree_refl (d : List Nat) (n : Nat) : agree d d n := fun _ _ => rfl

/-- The first window: the first `min length 4096` bytes of the input carry
the fixed header fields of the input. -/
theorem agree_first_window (data : List Nat) (_h5 : 5 ≤ data.length) :
    agree data (data.take (min data.length EAC3_MAX_SYNCFRAME_LENGTH)) 45 := by
  by_cases h : data.length ≤ EAC3_MAX_SYNCFRAME_LENGTH
  · rw [Nat.min_eq_left h, List.take_of_length_le (Nat.le_refl _)]
    exact agree_refl _ _
  · have hm : min data.length EAC3_MAX_SYNCFRAME_LENGTH = EAC3_MAX_SYNCFRAME_LENGTH :=
      Nat.min_eq_right (by omega)
    rw [hm]
    exact agree_symm _ _ _ (agree_mono _ _ _ _ (agree_take data EAC3_MAX_SYNCFRAME_LENGTH)
      (by unfold EAC3_MAX_SYNCFRAME_LENGTH; omega))

theorem parse_ret (info : eac3_info_t) (d : List Nat) (hl : info.independent_info.length = 8) :
    (eac3_parse_syncframe info d).1 = if hdr_valid d then 0 else -1 := by
  by_cases hs : hdr_strmtyp d = 1
  · rw [parse_dependent info d hs]
  · rw [parse_independent info d hs hl]

theorem parse_strmtyp (info : eac3_info_t) (d : List Nat) :
    (eac3_parse_syncframe info d).2.strmtyp = hdr_strmtyp d := by
  unfold eac3_parse_syncframe hdr_strmtyp
  simp only []
  split_ifs <;> rfl

theorem parse_substreamid (info : eac3_info_t) (d : List Nat) :
    (eac3_parse_syncframe info d).2.substreamid = hdr_substreamid d := by
  unfold eac3_parse_syncframe hdr_substreamid
  simp only []
  split_ifs <;> rfl

theorem parse_syncframe_count (info : eac3_info_t) (d : List Nat) :
    (eac3_parse_syncframe info d).2.syncframe_count = info.syncframe_count := by
  unfold eac3_parse_syncframe
  simp only []
  split_ifs <;> rfl

theorem parse_blocks (info : eac3_info_t) (d : List Nat) :
    (eac3_parse_syncframe info d).2.number_of_audio_blocks = info.number_of_audio_blocks := by
  unfold eac3_parse_syncframe
  simp only []
  split_ifs <;> rfl

theorem parse_count (info : eac3_info_t) (d : List Nat) :
    (eac3_parse_syncframe info d).2.number_of_independent_substreams =
      info.number_of_independent_substreams := by
  unfold eac3_parse_syncframe
  simp only []
  split_ifs <;> rfl

theorem parse_numblkscod (info : eac3_info_t) (d : List Nat) :
    (eac3_parse_syncframe info d).2.numblkscod = hdr_numblkscod d := by
  unfold eac3_parse_syncframe hdr_numblkscod hdr_fscod
  simp only []
  split_ifs <;> rfl

theorem refill_init (data : List Nat) :
    eac3_refill { info := zero_handler, window := [], data := data } =
      { info := { zero_handler with
                  no_more_read :=
                    decide (data.length - min data.length EAC3_MAX_SYNCFRAME_LENGTH < 5) },
        window := data.take (min data.length EAC3_MAX_SYNCFRAME_LENGTH),
        data := data.drop (min data.length EAC3_MAX_SYNCFRAME_LENGTH) } := by
  unfold eac3_refill
  simp [zero_handler, EAC3_MAX_SYNCFRAME_LENGTH]

/-- The first iteration of the loop: the parser is run on the first window and
the frame is handed to `eac3_accept_syncframe`. -/
theorem loop_body_init (data : List Nat) (h5 : 5 ≤ data.length)
    (hs0 : data.getD 0 0 = 0x0b) (hs1 : data.getD 1 0 = 0x77) (hv : hdr_valid data) :
    eac3_loop_body { info := zero_handler, window := [], data := data } =
      eac3_accept_syncframe
        (eac3_parse_syncframe
          { zero_handler with
            no_more_read :=
              decide (data.length - min data.length EAC3_MAX_SYNCFRAME_LENGTH < 5) }
          (data.take (min data.length EAC3_MAX_SYNCFRAME_LENGTH))).2
        (data.take (min data.length EAC3_MAX_SYNCFRAME_LENGTH))
        (data.drop (min data.length EAC3_MAX_SYNCFRAME_LENGTH)) := by
  have hm : 5 ≤ min data.length EAC3_MAX_SYNCFRAME_LENGTH := by
    unfold EAC3_MAX_SYNCFRAME_LENGTH; omega
  have hv' := (hdr_fixed_congr _ _ 45 (agree_first_window data h5) (Nat.le_refl _)).2.2.2.2.2.2.2.2.2
  have hret := parse_ret
    { zero_handler with
      no_more_read := decide (data.length - min data.length EAC3_MAX_SYNCFRAME_LENGTH < 5) }
    (data.take (min data.length EAC3_MAX_SYNCFRAME_LENGTH)) (by simp [zero_handler])
  rw [if_pos (hv'.2 hv)] at hret
  have hlen : (data.take (min data.length EAC3_MAX_SYNCFRAME_LENGTH)).length =
      min data.length EAC3_MAX_SYNCFRAME_LENGTH := by
    simp
  have ht : (data.take (min data.length EAC3_MAX_SYNCFRAME_LENGTH)).take
      (min (data.take (min data.length EAC3_MAX_SYNCFRAME_LENGTH)).length
        EAC3_MAX_SYNCFRAME_LENGTH) = data.take (min data.length EAC3_MAX_SYNCFRAME_LENGTH) := by
    apply List.take_of_length_le
    rw [hlen]; simp
  have g0 : (data.take (min data.length EAC3_MAX_SYNCFRAME_LENGTH)).getD 0 0 = 0x0b := by
    rw [← hs0]
    simp only [List.getD_eq_getElem?_getD, List.getElem?_take]
    rw [if_pos (by omega)]
  have g1 : (data.take (min data.length EAC3_MAX_SYNCFRAME_LENGTH)).getD 1 0 = 0x77 := by
    rw [← hs1]
    simp only [List.getD_eq_getElem?_getD, List.getElem?_take]
    rw [if_pos (by omega)]
  unfold eac3_loop_body
  rw [refill_init]
  simp only []
  rw [ht, g0, g1]
  have hz : { zero_handler with
      no_more_read := decide (data.length - min data.length EAC3_MAX_SYNCFRAME_LENGTH < 5),
      frame_size := 0 } = { zero_handler with
      no_more_read := decide (data.length - min data.length EAC3_MAX_SYNCFRAME_LENGTH < 5) } := rfl
  rw [hz]
  generalize eac3_parse_syncframe _ _ = P at hret ⊢
  rw [if_neg (by rw [hlen]; omega), if_neg (by simp), if_neg (by simp [hret])]

theorem loop_body_end (info : eac3_info_t) (w : List Nat) (hn : info.no_more_read = true)
    (hw : w.length < 5) :
    eac3_loop_body { info := info, window := w, data := [] } = .setup_param info := by
  unfold eac3_loop_body
  rw [refill_no_more_read _ hn]
  simp only []
  rw [if_pos ⟨hw, hn⟩]

/-! ## Runs over well-formed frames -/

theorem refill_idem (s : eac3_loop_state) : eac3_refill (eac3_refill s) = eac3_refill s := by
  by_cases h : ¬ s.info.no_more_read ∧ s.window.length < EAC3_MAX_SYNCFRAME_LENGTH
  · have e : eac3_refill s =
        { info := { s.info with
                    no_more_read :=
                      decide (s.data.length - min s.data.length EAC3_MAX_SYNCFRAME_LENGTH < 5) },
          window := s.window ++ s.data.take (min s.data.length EAC3_MAX_SYNCFRAME_LENGTH),
          data := s.data.drop (min s.data.length EAC3_MAX_SYNCFRAME_LENGTH) } := by
      unfold eac3_refill
      rw [if_pos h]
    rw [e]
    unfold eac3_refill
    rw [if_neg]
    simp only [decide_eq_true_eq, List.length_append, List.length_take, not_and, not_lt,
      Bool.not_eq_true, decide_eq_false_iff_not]
    intro h2
    unfold EAC3_MAX_SYNCFRAME_LENGTH at *
    omega
  · have e : eac3_refill s = s := by
      unfold eac3_refill
      rw [if_neg h]
    rw [e, e]

theorem loop_body_refill (s : eac3_loop_state) :
    eac3_loop_body (eac3_refill s) = eac3_loop_body s := by
  unfold eac3_loop_body
  rw [refill_idem]

theorem result_refill (s : eac3_loop_state) : eac3_result (eac3_refill s) = eac3_result s := by
  unfold eac3_result
  rw [refill_measure]
  unfold eac3_loop
  rw [loop_body_refill]

/-- An input of at most one window is copied whole into the window by the
first refill, and no more input is then expected. -/
theorem run_one_window (data : List Nat) (h : data.length ≤ EAC3_MAX_SYNCFRAME_LENGTH) :
    eac3_run data =
      eac3_result { info := { zero_handler with no_more_read := true },
                    window := data, data := [] } := by
  rw [run_eq_result, ← result_refill, refill_init, Nat.min_eq_left h,
    List.take_of_length_le (Nat.le_refl _), List.drop_of_length_le (Nat.le_refl _)]
  simp

theorem wellFormed_valid (f : List Nat) (h : WellFormedFrame f) : hdr_valid f := h.2.2.2.1

/-- The loop body on a window that starts with a well-formed frame. -/
theorem loop_body_frame (info : eac3_info_t) (f rest : List Nat) (hf : WellFormedFrame f)
    (hn : info.no_more_read = true) (hl : info.independent_info.length = 8) :
    eac3_loop_body { info := info, window := f ++ rest, data := [] } =
      withRest rest
        (eac3_accept_syncframe (eac3_parse_syncframe { info with frame_size := 0 } f).2 f []) := by
  have hlen := wellFormed_length f hf
  rw [loop_body_append info f rest hf hn hl]
  congr 1
  have hp2 : f.take (min f.length EAC3_MAX_SYNCFRAME_LENGTH) = f := by
    apply List.take_of_length_le; simp [EAC3_MAX_SYNCFRAME_LENGTH]; omega
  have hret := parse_ret { info with frame_size := 0 } f hl
  rw [if_pos (wellFormed_valid f hf)] at hret
  unfold eac3_loop_body
  rw [refill_no_more_read _ hn]
  simp only []
  rw [hp2, hf.1, hf.2.1]
  generalize eac3_parse_syncframe { info with frame_size := 0 } f = P at hret ⊢
  rw [if_neg (by omega), if_neg (by simp), if_neg (by simp [hret])]

theorem parse_table_length (info : eac3_info_t) (d : List Nat) :
    (eac3_parse_syncframe info d).2.independent_info.length = info.independent_info.length := by
  unfold eac3_parse_syncframe
  simp only []
  split_ifs <;> simp [modifyEntry, update_independent_info]

theorem count_substream_inv (info : eac3_info_t) (w data : List Nat) (s' : eac3_loop_state)
    (h : eac3_count_substream info w data = .next s') :
    s'.info.no_more_read = info.no_more_read ∧
    s'.info.independent_info.length = info.independent_info.length ∧
    s'.window = w.drop info.frame_size ∧ s'.data = data := by
  unfold eac3_count_substream at h
  simp only [] at h
  split_ifs at h <;> (injection h with h; subst h; simp [modifyEntry])

theorem accept_syncframe_inv (info : eac3_info_t) (w data : List Nat) (s' : eac3_loop_state)
    (h : eac3_accept_syncframe info w data = .next s') :
    s'.info.no_more_read = info.no_more_read ∧
    s'.info.independent_info.length = info.independent_info.length ∧
    s'.window = w.drop info.frame_size ∧ s'.data = data := by
  unfold eac3_accept_syncframe at h
  simp only [] at h
  split_ifs at h
  · exact count_substream_inv
      { info with
        number_of_audio_blocks :=
          (info.number_of_audio_blocks + eac3_audio_block_table info.numblkscod) % 256,
        number_of_independent_substreams := 0 } _ _ _ h
  · exact count_substream_inv _ _ _ _ h

/-- The assembler on a sequence of well-formed frames followed by `rest`
either ends inside the sequence, with a result that does not depend on `rest`,
or reaches the end of the sequence with a handler that does not depend on `rest`. -/
theorem result_frames : ∀ (fs : List (List Nat)) (info : eac3_info_t),
    (∀ f ∈ fs, WellFormedFrame f) → info.no_more_read = true →
    info.independent_info.length = 8 →
    (∃ r, (∀ x, eac3_result { info := info, window := fs.flatten ++ x, data := [] } = some r)) ∨
    (∃ info', info'.no_more_read = true ∧ info'.independent_info.length = 8 ∧
      ∀ x, eac3_result { info := info, window := fs.flatten ++ x, data := [] } =
        eac3_result { info := info', window := x, data := [] }) := by
  intro fs
  induction fs with
  | nil =>
    intro info _ hn hl
    exact Or.inr ⟨info, hn, hl, fun x => by simp⟩
  | cons f fs ih =>
    intro info hwf hn hl
    have hf : WellFormedFrame f := hwf f (List.mem_cons_self _ _)
    have hfs : ∀ g ∈ fs, WellFormedFrame g := fun g hg => hwf g (List.mem_cons_of_mem _ hg)
    have hb := fun x => loop_body_frame info f (fs.flatten ++ x) hf hn hl
    have hfl : ∀ x, (f :: fs).flatten ++ x = f ++ (fs.flatten ++ x) := by
      intro x; simp
    cases hacc : eac3_accept_syncframe (eac3_parse_syncframe { info with frame_size := 0 } f).2 f []
      with
    | setup_param i =>
      refine Or.inl ⟨.setup_param i, fun x => ?_⟩
      rw [hfl]
      apply result_setup
      rw [hb, hacc]; rfl
    | hard_failure =>
      refine Or.inl ⟨.hard_failure, fun x => ?_⟩
      rw [hfl]
      apply result_hard
      rw [hb, hacc]; rfl
    | next s' =>
      obtain ⟨i1, i2, i3, i4⟩ := accept_syncframe_inv _ _ _ _ hacc
      rw [parse_no_more_read] at i1
      rw [parse_table_length] at i2
      rw [parse_frame_size, hf.2.2.1, List.drop_length] at i3
      have hstep : ∀ x, eac3_result { info := info, window := (f :: fs).flatten ++ x, data := [] } =
          eac3_result { info := s'.info, window := fs.flatten ++ x, data := [] } := by
        intro x
        rw [hfl]
        apply result_next
        rw [hb, hacc]
        simp only [withRest]
        rw [i3, i4, List.nil_append]
      rcases ih s'.info hfs (by rw [i1]; exact hn) (by rw [i2]; exact hl) with ⟨r, hr⟩ | ⟨i', h1, h2, h3⟩
      · exact Or.inl ⟨r, fun x => (hstep x).trans (hr x)⟩
      · exact Or.inr ⟨i', h1, h2, fun x => (hstep x).trans (h3 x)⟩

theorem setup_param_code (param : lsmash_eac3_specific_parameters_t) (info : eac3_info_t) :
    (eac3_setup_param param info).1 =
      if info.number_of_independent_substreams = 0 ∨ info.number_of_independent_substreams > 8
      then -1 else if info.number_of_audio_blocks = 6 then 0 else -1 := by
  unfold eac3_setup_param
  split_ifs <;> simp_all [eac3_update_specific_param]

theorem flatten_length_ge (fs : List (List Nat)) (hwf : ∀ f ∈ fs, WellFormedFrame f)
    (hne : fs ≠ []) : 7 ≤ fs.flatten.length := by
  cases fs with
  | nil => exact absurd rfl hne
  | cons f fs =>
    have := (wellFormed_length f (hwf f (List.mem_cons_self _ _))).1
    simp only [List.flatten_cons, List.length_append]
    omega

/-- The loop body on a window whose first frame fails the syncword check. -/
theorem loop_body_bad_syncword (info : eac3_info_t) (w : List Nat)
    (hn : info.no_more_read = true) (hb : w.getD 0 0 ≠ 0x0b ∨ w.getD 1 0 ≠ 0x77) :
    eac3_loop_body { info := info, window := w, data := [] } = .setup_param info := by
  unfold eac3_loop_body
  rw [refill_no_more_read _ hn]
  simp only []
  split_ifs
  · rfl
  · rfl

/-- The loop body on a window whose first frame fails the header validation. -/
theorem loop_body_invalid (info : eac3_info_t) (w : List Nat)
    (hn : info.no_more_read = true) (hl : info.independent_info.length = 8)
    (hw : w.length ≤ EAC3_MAX_SYNCFRAME_LENGTH) (hv : ¬ hdr_valid w) :
    ∃ info', eac3_loop_body { info := info, window := w, data := [] } = .setup_param info' ∧
      info'.number_of_independent_substreams = info.number_of_independent_substreams ∧
      info'.number_of_audio_blocks = info.number_of_audio_blocks := by
  have hp2 : w.take (min w.length EAC3_MAX_SYNCFRAME_LENGTH) = w := by
    apply List.take_of_length_le; simp; exact hw
  have hret := parse_ret { info with frame_size := 0 } w hl
  rw [if_neg hv] at hret
  have hc := parse_count { info with frame_size := 0 } w
  have hb := parse_blocks { info with frame_size := 0 } w
  unfold eac3_loop_body
  rw [refill_no_more_read _ hn]
  simp only []
  rw [hp2]
  generalize eac3_parse_syncframe { info with frame_size := 0 } w = P at hret hc hb ⊢
  split_ifs with h1 h2 h3
  · exact ⟨_, rfl, rfl, rfl⟩
  · exact ⟨_, rfl, rfl, rfl⟩
  · exact ⟨_, rfl, hc, hb⟩
  · rw [hret] at h3; exact absurd (by decide) h3

/-! ## The three kinds of accepted frame -/

/-- The loop body on a window that starts with a well-formed dependent frame,
once a first frame has been accepted. -/
theorem loop_body_dependent (info : eac3_info_t) (f rest : List Nat) (hf : WellFormedFrame f)
    (hn : info.no_more_read = true) (hl : info.independent_info.length = 8)
    (hs : hdr_strmtyp f = 1) (hc : info.syncframe_count ≠ 0)
    (hk : info.number_of_independent_substreams ≠ 0) :
    eac3_loop_body { info := info, window := f ++ rest, data := [] } =
      .next { info := after_dependent info f, window := rest, data := [] } := by
  unfold after_dependent
  rw [loop_body_frame info f rest hf hn hl, parse_dependent _ _ hs]
  have hfs : hdr_frame_size f = f.length := hf.2.2.1
  simp [eac3_accept_syncframe, eac3_count_substream, hs, hc, hk, withRest, hfs]

/-- The loop body on a window that starts with a well-formed independent frame
of a substream other than 0, once a first frame has been accepted. -/
theorem loop_body_independent (info : eac3_info_t) (f rest : List Nat) (hf : WellFormedFrame f)
    (hn : info.no_more_read = true) (hl : info.independent_info.length = 8)
    (hs : hdr_strmtyp f ≠ 1) (hi : hdr_substreamid f ≠ 0) (hc : info.syncframe_count ≠ 0) :
    eac3_loop_body { info := info, window := f ++ rest, data := [] } =
      .next { info := after_independent info f, window := rest, data := [] } := by
  unfold after_independent
  rw [loop_body_frame info f rest hf hn hl, parse_independent { info with frame_size := 0 } f hs hl]
  have hfs : hdr_frame_size f = f.length := hf.2.2.1
  simp [eac3_accept_syncframe, eac3_count_substream, hs, hc, hi, withRest, hfs]

/-- The loop body on a window that starts with a well-formed independent frame
of substream 0, while fewer than 6 blocks are accumulated. -/
theorem loop_body_unit_start (info : eac3_info_t) (f rest : List Nat) (hf : WellFormedFrame f)
    (hn : info.no_more_read = true) (hl : info.independent_info.length = 8)
    (hs : hdr_strmtyp f ≠ 1) (hi : hdr_substreamid f = 0)
    (hb : info.number_of_audio_blocks < 6) :
    eac3_loop_body { info := info, window := f ++ rest, data := [] } =
      .next { info := after_unit_start info f, window := rest, data := [] } := by
  unfold after_unit_start
  rw [loop_body_frame info f rest hf hn hl, parse_independent { info with frame_size := 0 } f hs hl]
  have hfs : hdr_frame_size f = f.length := hf.2.2.1
  have h6 : ¬ info.number_of_audio_blocks = 6 := by omega
  have h7 : ¬ 6 < info.number_of_audio_blocks := by omega
  by_cases hk : info.number_of_independent_substreams = 0 <;>
  simp [eac3_accept_syncframe, eac3_count_substream, hs, hi, withRest, hfs, hk, h6, h7,
    eac3_update_specific_param]

/-! ## Dependent frames -/

theorem modifyEntry_length (t : List lsmash_eac3_substream_info_t) (i : Nat)
    (f : lsmash_eac3_substream_info_t → lsmash_eac3_substream_info_t) :
    (modifyEntry t i f).length = t.length := by
  simp [modifyEntry]

theorem modifyEntry_getD_self (t : List lsmash_eac3_substream_info_t) (i : Nat)
    (f : lsmash_eac3_substream_info_t → lsmash_eac3_substream_info_t) (h : i < t.length) :
    (modifyEntry t i f).getD i zero_info = f (t.getD i zero_info) := by
  unfold modifyEntry
  simp only [List.getD_eq_getElem?_getD]
  rw [List.getElem?_set_self h]
  rfl

theorem or_chan_loc_length (t : List lsmash_eac3_substream_info_t) (cur : Nat)
    (c : Option Nat) : (or_chan_loc t cur c).length = t.length := by
  cases c <;> simp [or_chan_loc, modifyEntry_length]

/-- The run of the assembler over dependent frames attached to the single
independent substream 0. -/
theorem result_dependents : ∀ (deps : List (List Nat)) (info : eac3_info_t) (acc : Nat),
    (∀ f ∈ deps, WellFormedFrame f ∧ hdr_strmtyp f = 1) →
    info.no_more_read = true → info.independent_info.length = 8 →
    info.syncframe_count ≠ 0 → info.number_of_independent_substreams = 1 →
    info.current_independent_substream_id = 0 →
    (info.independent_info.getD 0 zero_info).num_dep_sub + deps.length < 256 →
    (info.independent_info.getD 0 zero_info).chan_loc = acc →
    ∃ info', eac3_result { info := info, window := deps.flatten, data := [] } =
        some (.setup_param info') ∧
      info'.number_of_independent_substreams = 1 ∧
      info'.number_of_audio_blocks = info.number_of_audio_blocks ∧
      info'.dec3_param_initialized = info.dec3_param_initialized ∧
      info'.dec3_param = info.dec3_param ∧
      info'.independent_info.length = 8 ∧
      (info'.independent_info.getD 0 zero_info).num_dep_sub =
        (info.independent_info.getD 0 zero_info).num_dep_sub + deps.length ∧
      (info'.independent_info.getD 0 zero_info).chan_loc =
        (deps.filterMap hdr_chanmap).foldl
          (fun a chanmap => a ||| lsmash_eac3_get_chan_loc_from_chanmap chanmap) acc := by
  intro deps
  induction deps with
  | nil =>
    intro info acc _ hn hl _ hk _ _ hacc
    exact ⟨info, result_setup _ _ (loop_body_end info [] hn (by simp)), hk, rfl, rfl, rfl, hl,
      by simp, by simpa using hacc⟩
  | cons f fs ih =>
    intro info acc hd hn hl hc hk hcur hnum hacc
    obtain ⟨hf, hs⟩ := hd f (List.mem_cons_self _ _)
    have hfs : ∀ g ∈ fs, WellFormedFrame g ∧ hdr_strmtyp g = 1 :=
      fun g hg => hd g (List.mem_cons_of_mem _ hg)
    have hb := loop_body_dependent info f fs.flatten hf hn hl hs hc (by omega)
    simp only [List.length_cons] at hnum
    have hl1 : (or_chan_loc info.independent_info 0 (hdr_chanmap f)).length = 8 := by
      rw [or_chan_loc_length, hl]
    have htab : (after_dependent info f).independent_info =
        modifyEntry (or_chan_loc info.independent_info 0 (hdr_chanmap f)) 0
          fun e => { e with num_dep_sub := (e.num_dep_sub + 1) % 256 } := by
      unfold after_dependent
      simp only [hk, hcur]
    have hor : (or_chan_loc info.independent_info 0 (hdr_chanmap f)).getD 0 zero_info =
        { info.independent_info.getD 0 zero_info with
          chan_loc := match hdr_chanmap f with
            | some c => acc ||| lsmash_eac3_get_chan_loc_from_chanmap c
            | none => acc } := by
      cases hcm : hdr_chanmap f with
      | none => simp only [or_chan_loc]; rw [← hacc]
      | some c =>
        simp only [or_chan_loc]
        rw [modifyEntry_getD_self _ 0 _ (by omega), hacc]
    have hent : (after_dependent info f).independent_info.getD 0 zero_info =
        { info.independent_info.getD 0 zero_info with
          chan_loc := (match hdr_chanmap f with
            | some c => acc ||| lsmash_eac3_get_chan_loc_from_chanmap c
            | none => acc),
          num_dep_sub := ((info.independent_info.getD 0 zero_info).num_dep_sub + 1) % 256 } := by
      rw [htab, modifyEntry_getD_self _ 0 _ (by omega), hor]
    obtain ⟨info', h1, h2, h3, h4, h5, h6, h7, h8⟩ := ih (after_dependent info f)
      (match hdr_chanmap f with
        | some c => acc ||| lsmash_eac3_get_chan_loc_from_chanmap c
        | none => acc)
      hfs (show _ = true from hn) (by rw [htab, modifyEntry_length]; exact hl1)
      (show info.syncframe_count + 1 ≠ 0 by omega) hk hcur
      (by rw [hent]; simp only []; omega)
      (by rw [hent])
    refine ⟨info', ?_, h2, h3, h4, h5, h6, ?_, ?_⟩
    · rw [List.flatten_cons, result_next _ _ hb]
      exact h1
    · rw [h7, hent]
      simp only [List.length_cons]
      omega
    · rw [h8]
      cases hcm : hdr_chanmap f <;> simp [List.filterMap_cons, hcm]

/-! ## Groups of frames -/

theorem block_table_pos (d : List Nat) :
    1 ≤ eac3_audio_block_table (hdr_numblkscod d) ∧
      eac3_audio_block_table (hdr_numblkscod d) ≤ 6 := by
  have h : hdr_numblkscod d < 4 := by
    unfold hdr_numblkscod
    split
    · omega
    · exact get_lt d 34 2
  unfold eac3_audio_block_table
  generalize hdr_numblkscod d = k at h
  interval_cases k <;> simp

/-- The run of the assembler over well-formed frames that follow an accepted
first frame: every frame is accepted, and the snapshot of the parameters is
that of the group before the last independent frame of substream 0. -/
theorem result_groups : ∀ (fs : List (List Nat)) (info : eac3_info_t) (prev : Option Nat),
    (∀ f ∈ fs, WellFormedFrame f) →
    info.no_more_read = true → info.independent_info.length = 8 →
    info.syncframe_count ≠ 0 → 1 ≤ info.number_of_independent_substreams →
    info.number_of_audio_blocks + unit_blocks fs = 6 →
    groups_within fs info.number_of_independent_substreams →
    (∀ s, prev = some s →
      info.dec3_param_initialized = true ∧ info.dec3_param.num_ind_sub + 1 = s) →
    ∃ info', eac3_result { info := info, window := fs.flatten, data := [] } =
        some (.setup_param info') ∧
      info'.number_of_audio_blocks = 6 ∧
      info'.number_of_independent_substreams =
        last_group fs info.number_of_independent_substreams ∧
      1 ≤ info'.number_of_independent_substreams ∧
      info'.number_of_independent_substreams ≤ 8 ∧
      (∀ s, previous_group fs info.number_of_independent_substreams prev = some s →
        info'.dec3_param_initialized = true ∧ info'.dec3_param.num_ind_sub + 1 = s) ∧
      (previous_group fs info.number_of_independent_substreams prev = none →
        info'.dec3_param_initialized = info.dec3_param_initialized) := by
  intro fs
  induction fs with
  | nil =>
    intro info prev _ hn hl _ h1 hb hg hp
    simp only [unit_blocks, Nat.add_zero] at hb
    simp only [groups_within] at hg
    exact ⟨info, result_setup _ _ (loop_body_end info [] hn (by simp)), hb, rfl, h1, hg,
      fun s hs => hp s hs, fun _ => rfl⟩
  | cons f fs ih =>
    intro info prev hwf hn hl hc h1 hb hg hp
    have hf : WellFormedFrame f := hwf f (List.mem_cons_self _ _)
    have hfs : ∀ g ∈ fs, WellFormedFrame g := fun g hg => hwf g (List.mem_cons_of_mem _ hg)
    have htab := block_table_pos f
    by_cases hu : hdr_strmtyp f ≠ 1 ∧ hdr_substreamid f = 0
    · -- an independent frame of substream 0
      simp only [unit_blocks, if_pos hu] at hb
      simp only [groups_within, if_pos hu] at hg
      simp only [last_group, previous_group, if_pos hu]
      have hbody := loop_body_unit_start info f fs.flatten hf hn hl hu.1 hu.2 (by omega)
      have hk : info.number_of_independent_substreams ≠ 0 := by omega
      obtain ⟨info', r1, r2, r3, r4, r5, r6, r7⟩ := ih (after_unit_start info f)
        (some info.number_of_independent_substreams) hfs
        (by unfold after_unit_start; simp only []; split_ifs; exact hn)
        (by unfold after_unit_start; simp [modifyEntry, hl])
        (by unfold after_unit_start; simp)
        (by unfold after_unit_start; simp)
        (by unfold after_unit_start; simp only []; omega)
        (by unfold after_unit_start; exact hg.2)
        (by
          intro s hs
          injection hs with hs
          subst hs
          unfold after_unit_start
          simp only [hk, ne_eq, not_false_eq_true, if_true, eac3_update_specific_param]
          refine ⟨trivial, ?_⟩
          omega)
      have e1 : (after_unit_start info f).number_of_independent_substreams = 1 := by
        unfold after_unit_start; rfl
      rw [e1] at r3 r6 r7
      refine ⟨info', ?_, r2, r3, r4, r5, r6, ?_⟩
      · rw [List.flatten_cons, result_next _ _ hbody]; exact r1
      · intro hnone
        -- the previous group is never `none` after a frame of substream 0
        exfalso
        have : ∀ (gs : List (List Nat)) (m : Nat) (p : Nat),
            previous_group gs m (some p) ≠ none := by
          intro gs
          induction gs with
          | nil => intro m p; simp [previous_group]
          | cons g gs ihg =>
            intro m p
            simp only [previous_group]
            split_ifs
            · exact ihg 1 m
            · exact ihg (m + 1) p
            · exact ihg m p
        exact this fs 1 _ hnone
    · by_cases hi : hdr_strmtyp f ≠ 1
      · -- an independent frame of another substream
        have hsid : hdr_substreamid f ≠ 0 := fun h => hu ⟨hi, h⟩
        simp only [unit_blocks, if_neg hu, Nat.zero_add] at hb
        simp only [groups_within, if_neg hu, if_pos hi] at hg
        simp only [last_group, previous_group, if_neg hu, if_pos hi]
        have hbody := loop_body_independent info f fs.flatten hf hn hl hi hsid hc
        have hn8 : info.number_of_independent_substreams + 1 ≤ 8 := by
          have : ∀ (gs : List (List Nat)) (m : Nat), groups_within gs m → m ≤ 8 := by
            intro gs
            induction gs with
            | nil => intro m h; exact h
            | cons g gs ihg =>
              intro m h
              simp only [groups_within] at h
              split_ifs at h
              · exact h.1
              · have := ihg (m + 1) h; omega
              · exact ihg m h
          exact this fs _ hg
        have e1 : (after_independent info f).number_of_independent_substreams =
            info.number_of_independent_substreams + 1 := by
          unfold after_independent
          simp only []
          omega
        obtain ⟨info', r1, r2, r3, r4, r5, r6, r7⟩ := ih (after_independent info f) prev hfs
          (by unfold after_independent; exact hn)
          (by unfold after_independent; simp [modifyEntry, hl])
          (by unfold after_independent; simp)
          (by rw [e1]; omega)
          (by unfold after_independent; exact hb)
          (by rw [e1]; exact hg)
          (by unfold after_independent; exact hp)
        rw [e1] at r3 r6 r7
        refine ⟨info', ?_, r2, r3, r4, r5, r6, ?_⟩
        · rw [List.flatten_cons, result_next _ _ hbody]; exact r1
        · intro hnone; rw [r7 hnone]; unfold after_independent; rfl
      · -- a dependent frame
        have hs : hdr_strmtyp f = 1 := by omega
        simp only [unit_blocks, if_neg hu, Nat.zero_add] at hb
        simp only [groups_within, if_neg hu, if_neg hi] at hg
        simp only [last_group, previous_group, if_neg hu, if_neg hi]
        have hbody := loop_body_dependent info f fs.flatten hf hn hl hs hc (by omega)
        have e1 : (after_dependent info f).number_of_independent_substreams =
            info.number_of_independent_substreams := by
          unfold after_dependent; rfl
        obtain ⟨info', r1, r2, r3, r4, r5, r6, r7⟩ := ih (after_dependent info f) prev hfs
          (by unfold after_dependent; exact hn)
          (by unfold after_dependent; simp [modifyEntry_length, or_chan_loc_length, hl])
          (by unfold after_dependent; simp)
          (by rw [e1]; exact h1)
          (by unfold after_dependent; exact hb)
          (by rw [e1]; exact hg)
          (by unfold after_dependent; exact hp)
        rw [e1] at r3 r6 r7
        refine ⟨info', ?_, r2, r3, r4, r5, r6, ?_⟩
        · rw [List.flatten_cons, result_next _ _ hbody]; exact r1
        · intro hnone; rw [r7 hnone]; unfold after_dependent; rfl


theorem setup_param_success (param : lsmash_eac3_specific_parameters_t) (info : eac3_info_t)
    (h1 : 1 ≤ info.number_of_independent_substreams)
    (h8 : info.number_of_independent_substreams ≤ 8) (hb : info.number_of_audio_blocks = 6) :
    eac3_setup_param param info =
      (0, if info.dec3_param_initialized = true then info.dec3_param
          else (eac3_update_specific_param info).dec3_param) := by
  have hnot : ¬ (info.number_of_independent_substreams = 0 ∨
      info.number_of_independent_substreams > 8) := by omega
  unfold eac3_setup_param
  rw [if_neg hnot]
  by_cases hi : info.dec3_param_initialized = true
  · simp [hi, hb]
  · simp [hi, hb, eac3_update_specific_param]

/-! ## The AC-3 record codec -/

theorem create_ac3_bytes (p : lsmash_ac3_specific_parameters_t) :
    lsmash_create_ac3_specific_info p =
      [0, 0, 0, 11, 100, 97, 99, 51,
       (p.fscod % 4 * 32 + p.bsid % 32) * 2 + p.bsmod % 8 / 4,
       (p.bsmod % 4) * 64 + (p.acmod % 8) * 8 + (p.lfeon % 2) * 4 + (p.frmsizecod / 2) % 32 / 8,
       (p.frmsizecod / 2) % 8 * 32] := by
  simp [lsmash_create_ac3_specific_info, lsmash_bits_put, lsmash_bits_init,
    lsmash_bits_export_data, beBytes_zero, beBytes_one, beBytes_four, AC3_SPECIFIC_BOX_LENGTH,
    ISOM_BOX_TYPE_DAC3, Nat.shiftRight_eq_div_pow]
  refine ⟨?_, ?_, ?_⟩ <;> omega

/-- The decoder applied to a record of the encoder, for whatever byte `x` lies
in memory right after the 11-byte record (the decoder reads `data[3]`, one
byte past it). -/
theorem ac3_construct_of_create (p : lsmash_ac3_specific_parameters_t) (oob : Nat → Nat)
    (dst : lsmash_ac3_specific_parameters_t) :
    ac3_construct_specific_parameters oob dst (lsmash_create_ac3_specific_info p) =
      (0, { fscod := ((p.fscod % 4 * 32 + p.bsid % 32) * 2 + p.bsmod % 8 / 4) / 64 % 4,
            bsid := ((p.fscod % 4 * 32 + p.bsid % 32) * 2 + p.bsmod % 8 / 4) / 2 % 32,
            bsmod := ((((p.fscod % 4 * 32 + p.bsid % 32) * 2 + p.bsmod % 8 / 4) % 2) <<< 2) |||
              ((p.frmsizecod / 2) % 8 * 32 / 64 % 4),
            acmod := ((p.bsmod % 4) * 64 + (p.acmod % 8) * 8 + (p.lfeon % 2) * 4 +
              (p.frmsizecod / 2) % 32 / 8) / 8 % 8,
            lfeon := ((p.bsmod % 4) * 64 + (p.acmod % 8) * 8 + (p.lfeon % 2) * 4 +
              (p.frmsizecod / 2) % 32 / 8) / 4 % 2,
            frmsizecod := ((((p.bsmod % 4) * 64 + (p.acmod % 8) * 8 + (p.lfeon % 2) * 4 +
              (p.frmsizecod / 2) % 32 / 8) % 4 * 8 + oob 11 % 256 / 32 % 8) * 2) % 256 }) := by
  rw [create_ac3_bytes]
  have h : ∀ a : Nat, a % 4 * 8 ||| oob 11 % 256 / 32 % 8 = a % 4 * 8 + oob 11 % 256 / 32 % 8 :=
    fun a => mul_or (a % 4) _ 3 (by omega)
  simp [ac3_construct_specific_parameters, AC3_SPECIFIC_BOX_LENGTH, LSMASH_GET_BE32, rdByte,
    ISOM_BASEBOX_COMMON_SIZE, and_1, and_3, and_7, and_31, Nat.shiftRight_eq_div_pow,
    Nat.shiftLeft_eq, h]

/-! ## The AC-3 syncframe header parser -/

theorem ac3_min_length_ge : 7 ≤ AC3_MIN_SYNCFRAME_LENGTH := by decide

theorem ac3_min_le_max : AC3_MIN_SYNCFRAME_LENGTH ≤ AC3_MAX_SYNCFRAME_LENGTH := by decide

theorem bitAt_take (d : List Nat) (k i : Nat) (h : i < 8 * k) : bitAt (d.take k) i = bitAt d i :=
  agree_take d k i h

theorem ac3_parse_ret (info : ac3_info_t) (data : List Nat) :
    (ac3_parse_syncframe_header info data).1 =
      ac3_check_syncframe_header (ac3_parse_syncframe_header info data).2.dac3_param := rfl

theorem ac3_parse_fields (info : ac3_info_t) (data : List Nat) :
    (ac3_parse_syncframe_header info data).2.dac3_param.fscod = ac3_hdr_fscod data ∧
    (ac3_parse_syncframe_header info data).2.dac3_param.frmsizecod = ac3_hdr_frmsizecod data ∧
    (ac3_parse_syncframe_header info data).2.dac3_param.bsid = ac3_hdr_bsid data ∧
    (ac3_parse_syncframe_header info data).2.dac3_param.bsmod = ac3_hdr_bsmod data ∧
    (ac3_parse_syncframe_header info data).2.dac3_param.acmod = ac3_hdr_acmod data := by
  have hm := ac3_min_length_ge
  have hb : ∀ i, i < 56 → bitAt (data.take AC3_MIN_SYNCFRAME_LENGTH) i = bitAt data i :=
    fun i hi => bitAt_take data _ i (by omega)
  simp only [ac3_parse_syncframe_header, lsmash_bits_get, ac3_hdr_fscod, ac3_hdr_frmsizecod,
    ac3_hdr_bsid, ac3_hdr_bsmod, ac3_hdr_acmod, Nat.reduceAdd, Nat.add_zero]
  rw [hb 32 (by omega), hb 33 (by omega), hb 34 (by omega), hb 35 (by omega), hb 36 (by omega),
    hb 37 (by omega), hb 38 (by omega), hb 39 (by omega), hb 40 (by omega), hb 41 (by omega),
    hb 42 (by omega), hb 43 (by omega), hb 44 (by omega), hb 45 (by omega), hb 46 (by omega),
    hb 47 (by omega), hb 48 (by omega), hb 49 (by omega), hb 50 (by omega)]
  refine ⟨?_, ?_, ?_, ?_, ?_⟩ <;> omega

theorem ac3_parse_take (info : ac3_info_t) (d1 d2 : List Nat)
    (h : d1.take AC3_MIN_SYNCFRAME_LENGTH = d2.take AC3_MIN_SYNCFRAME_LENGTH) :
    ac3_parse_syncframe_header info d1 = ac3_parse_syncframe_header info d2 := by
  unfold ac3_parse_syncframe_header
  rw [h]

theorem ac3_buffer_take (data : List Nat) (hl : AC3_MIN_SYNCFRAME_LENGTH ≤ data.length) :
    (data.take (min data.length AC3_MAX_SYNCFRAME_LENGTH) ++
        List.replicate (AC3_MAX_SYNCFRAME_LENGTH - min data.length AC3_MAX_SYNCFRAME_LENGTH) 0).take
      AC3_MIN_SYNCFRAME_LENGTH = data.take AC3_MIN_SYNCFRAME_LENGTH := by
  have hm := ac3_min_le_max
  rw [List.take_append_of_le_length (by rw [List.length_take]; omega), List.take_take]
  congr 1
  omega

theorem ac3_setup_eq (param : lsmash_ac3_specific_parameters_t) (data : List Nat)
    (hl : AC3_MIN_SYNCFRAME_LENGTH ≤ data.length) (h0 : data.getD 0 0 = 0x0b)
    (h1 : data.getD 1 0 = 0x77) :
    lsmash_setup_ac3_specific_parameters_from_syncframe param data =
      if (ac3_parse_syncframe_header { dac3_param := zero_ac3_param, buffer := [] } data).1 ≠ 0
      then (-1, param)
      else (0, (ac3_parse_syncframe_header
        { dac3_param := zero_ac3_param, buffer := [] } data).2.dac3_param) := by
  have hnl : ¬ data.length < AC3_MIN_SYNCFRAME_LENGTH := by omega
  have hs : ¬ (data.getD 0 0 ≠ 0x0b ∨ data.getD 1 0 ≠ 0x77) := by
    rintro (h | h)
    · exact h h0
    · exact h h1
  unfold lsmash_setup_ac3_specific_parameters_from_syncframe
  rw [if_neg hnl, if_neg hs]
  simp only []
  rw [ac3_parse_take _ _ data (ac3_buffer_take data hl)]
  rfl

theorem bitAt_lt (d : List Nat) (i : Nat) : bitAt d i < 2 := by
  unfold bitAt; omega

theorem ac3_hdr_acmod_lt (d : List Nat) : ac3_hdr_acmod d < 8 := by
  have h1 := bitAt_lt d 48
  have h2 := bitAt_lt d 49
  have h3 := bitAt_lt d 50
  unfold ac3_hdr_acmod; omega

theorem ac3_parse_lfeon (info : ac3_info_t) (data : List Nat) :
    (ac3_parse_syncframe_header info data).2.dac3_param.lfeon =
      bitAt data (ac3_hdr_lfeon_pos data) := by
  have hm := ac3_min_length_ge
  have hb : ∀ i, i < 56 → bitAt (data.take AC3_MIN_SYNCFRAME_LENGTH) i = bitAt data i :=
    fun i hi => bitAt_take data _ i (by omega)
  have ha := (ac3_parse_fields info data).2.2.2.2
  have hlt := ac3_hdr_acmod_lt data
  have e : (ac3_parse_syncframe_header info data).2.dac3_param.lfeon =
      bitAt (data.take AC3_MIN_SYNCFRAME_LENGTH)
        (let acmod := (ac3_parse_syncframe_header info data).2.dac3_param.acmod
         let pos := 51
         let pos := if (acmod &&& 0x01) ≠ 0 ∧ acmod ≠ 0x01 then pos + 2 else pos
         let pos := if (acmod &&& 0x04) ≠ 0 then pos + 2 else pos
         if acmod = 0x02 then pos + 2 else pos) := by
    simp [ac3_parse_syncframe_header, lsmash_bits_get]
  rw [e, ha]
  unfold ac3_hdr_lfeon_pos
  generalize ac3_hdr_acmod data = a at hlt
  interval_cases a <;> simp +decide <;> exact hb _ (by omega)

/-! ## Bit layout of the records -/

theorem bytesOfBits_append (n : Nat) : ∀ (a b : List Nat), a.length = 8 * n →
    bytesOfBits (a ++ b) = bytesOfBits a ++ bytesOfBits b := by
  induction n with
  | zero =>
    intro a b h
    have : a = [] := List.length_eq_zero.mp (by omega)
    subst this
    simp [bytesOfBits]
  | succ n ih =>
    intro a b h
    match a, h with
    | b0 :: b1 :: b2 :: b3 :: b4 :: b5 :: b6 :: b7 :: rest, h =>
      simp only [List.length_cons] at h
      have e := ih rest b (by omega)
      simp [bytesOfBits, e]

theorem substream_bits_bytes (e : lsmash_eac3_substream_info_t) :
    bytesOfBits (eac3_substream_bits e) = substreamBytes e := by
  unfold eac3_substream_bits substreamBytes
  by_cases h : e.num_dep_sub > 0
  · simp [h, fieldBits, List.range_succ, bytesOfBits]
    refine ⟨?_, ?_, ?_, ?_⟩ <;> omega
  · have h0 : e.num_dep_sub = 0 := by omega
    simp [h0, fieldBits, List.range_succ, bytesOfBits]
    refine ⟨?_, ?_⟩ <;> omega

theorem substream_bits_length (e : lsmash_eac3_substream_info_t) :
    (eac3_substream_bits e).length = 8 * (if e.num_dep_sub > 0 then 4 else 3) := by
  unfold eac3_substream_bits
  split <;> simp [fieldBits]

theorem flatten_bits_bytes (ents : List lsmash_eac3_substream_info_t) :
    ∃ n, ((ents.map eac3_substream_bits).flatten).length = 8 * n ∧
    bytesOfBits ((ents.map eac3_substream_bits).flatten) = (ents.map substreamBytes).flatten := by
  induction ents with
  | nil => exact ⟨0, rfl, rfl⟩
  | cons e es ih =>
    obtain ⟨n, h1, h2⟩ := ih
    refine ⟨(if e.num_dep_sub > 0 then 4 else 3) + n, ?_, ?_⟩
    · simp only [List.map_cons, List.flatten_cons, List.length_append, h1, substream_bits_length]
      omega
    · simp only [List.map_cons, List.flatten_cons]
      rw [bytesOfBits_append _ _ _ (substream_bits_length e), h2, substream_bits_bytes]

theorem ac3_bits_bytes (p : lsmash_ac3_specific_parameters_t) :
    bytesOfBits (ac3_record_bits p) =
      [(p.fscod % 4 * 32 + p.bsid % 32) * 2 + p.bsmod % 8 / 4,
       (p.bsmod % 4) * 64 + (p.acmod % 8) * 8 + (p.lfeon % 2) * 4 + (p.frmsizecod / 2) % 32 / 8,
       (p.frmsizecod / 2) % 8 * 32] := by
  simp [ac3_record_bits, fieldBits, List.range_succ, bytesOfBits]
  refine ⟨?_, ?_, ?_⟩ <;> omega

theorem eac3_header_bits_bytes (p : lsmash_eac3_specific_parameters_t) :
    bytesOfBits (fieldBits 13 p.data_rate ++ fieldBits 3 p.num_ind_sub) =
      [p.data_rate % 8192 / 32, p.data_rate % 32 * 8 + p.num_ind_sub % 8] := by
  simp [fieldBits, List.range_succ, bytesOfBits]
  refine ⟨?_, ?_⟩ <;> omega

theorem testBit_2040 (i : Nat) : Nat.testBit 0x7f8 i = decide (3 ≤ i ∧ i ≤ 10) := by
  by_cases h : i ≤ 10
  · interval_cases i <;> decide
  · have : Nat.testBit 0x7f8 i = false :=
      Nat.testBit_eq_false_of_lt (Nat.lt_of_lt_of_le (by decide) (Nat.pow_le_pow_right (by decide) (by omega : 11 ≤ i)))
    simp [this]; omega

theorem testBit_two (i : Nat) : Nat.testBit 0x2 i = decide (i = 1) := by
  by_cases h : i ≤ 1
  · interval_cases i <;> decide
  · have : Nat.testBit 0x2 i = false :=
      Nat.testBit_eq_false_of_lt (Nat.lt_of_lt_of_le (by decide) (Nat.pow_le_pow_right (by decide) (by omega : 2 ≤ i)))
    simp [this]; omega

theorem chan_loc_testBit (chanmap j : Nat) :
    (lsmash_eac3_get_chan_loc_from_chanmap chanmap).testBit j =
      if j = 0 then chanmap.testBit 1 else (decide (j ≤ 8) && chanmap.testBit (j + 2)) := by
  unfold lsmash_eac3_get_chan_loc_from_chanmap
  simp only [Nat.testBit_or, Nat.testBit_shiftRight, Nat.testBit_and, testBit_2040, testBit_two]
  by_cases h0 : j = 0
  · subst h0; simp
  · by_cases h8 : j ≤ 8
    · have h1 : ¬ (1 + j = 1) := by omega
      have h2 : 3 ≤ 2 + j ∧ 2 + j ≤ 10 := by omega
      simp [h0, h8, h1, h2, Nat.add_comm]
      intro _; omega
    · have h1 : ¬ (1 + j = 1) := by omega
      have h2 : ¬ (3 ≤ 2 + j ∧ 2 + j ≤ 10) := by omega
      simp [h0, h8, h1, h2]

/-! ## Fixed fields, failed parses and the reference assembler -/

theorem get_eq_foldl (d : List Nat) (pos : Nat) : ∀ w,
    (List.range w).foldl (fun acc i => 2 * acc + bitAt d (pos + i)) 0 = lsmash_bits_get d pos w := by
  intro w
  induction w with
  | zero => rfl
  | succ w ih =>
    rw [List.range_succ, List.foldl_append, ih]
    simp only [List.foldl_cons, List.foldl_nil, lsmash_bits_get]
    omega

theorem get_eq_bitsValue (d : List Nat) (pos w : Nat) :
    lsmash_bits_get d pos (w + 1) = bitsValue d pos (pos + w) := by
  unfold bitsValue
  rw [← get_eq_foldl]
  congr 2
  omega

theorem hdr_substreamid_lt (d : List Nat) : hdr_substreamid d < 8 := get_lt d 18 3

theorem substream_info_of_parse (info : eac3_info_t) (d : List Nat)
    (hl : info.independent_info.length = 8) :
    ∃ old, substream_info_of (eac3_parse_syncframe info d).2 = hdr_entry old d := by
  by_cases h : hdr_strmtyp d = 1
  · refine ⟨info.dependent_info, ?_⟩
    rw [parse_dependent info d h]
    simp [substream_info_of, h]
  · refine ⟨{ info.independent_info.getD (hdr_substreamid d) zero_info with chan_loc := 0 }, ?_⟩
    rw [parse_independent info d h hl]
    have hs := hdr_substreamid_lt d
    simp only [substream_info_of, ne_eq, h, not_false_eq_true, if_true]
    rw [List.getD_eq_getElem?_getD, List.getElem?_set_self (by omega)]
    rfl

theorem or_chan_loc_getD_ne (table : List lsmash_eac3_substream_info_t) (cur i : Nat)
    (c : Option Nat) (h : i ≠ cur) :
    (or_chan_loc table cur c).getD i zero_info = table.getD i zero_info := by
  cases c with
  | none => rfl
  | some m =>
    simp only [or_chan_loc, modifyEntry, List.getD_eq_getElem?_getD]
    rw [List.getElem?_set_ne (by omega)]

theorem or_chan_loc_getD (table : List lsmash_eac3_substream_info_t) (cur i : Nat)
    (c : Option Nat) :
    ∃ l, (or_chan_loc table cur c).getD i zero_info =
      { table.getD i zero_info with chan_loc := l } := by
  by_cases h : i = cur
  · subst h
    cases c with
    | none => exact ⟨(table.getD i zero_info).chan_loc, rfl⟩
    | some m =>
      by_cases hi : i < table.length
      · refine ⟨(table.getD i zero_info).chan_loc ||| lsmash_eac3_get_chan_loc_from_chanmap m, ?_⟩
        simp only [or_chan_loc, modifyEntry, List.getD_eq_getElem?_getD]
        rw [List.getElem?_set_self hi]
        rfl
      · refine ⟨(table.getD i zero_info).chan_loc, ?_⟩
        simp only [or_chan_loc, modifyEntry]
        rw [List.set_eq_of_length_le (by omega)]
  · exact ⟨(table.getD i zero_info).chan_loc, or_chan_loc_getD_ne table cur i c h⟩

theorem count_substream_frame_size (info : eac3_info_t) (w data : List Nat)
    (s' : eac3_loop_state) (h : eac3_count_substream info w data = .next s') :
    s'.info.frame_size = info.frame_size := by
  unfold eac3_count_substream at h
  simp only [] at h
  injection h with h
  subst h
  split_ifs <;> rfl

theorem accept_syncframe_frame_size (info : eac3_info_t) (w data : List Nat)
    (s' : eac3_loop_state) (h : eac3_accept_syncframe info w data = .next s') :
    s'.info.frame_size = info.frame_size := by
  unfold eac3_accept_syncframe at h
  simp only [] at h
  split_ifs at h with h1 h2 h3 h4 h5
  · exact (count_substream_frame_size _ _ _ _ h).trans rfl
  · exact count_substream_frame_size _ _ _ _ h

theorem loop_body_advance (s s' : eac3_loop_state) (h : eac3_loop_body s = .next s') :
    2 ≤ s'.info.frame_size ∧ s'.info.frame_size ≤ (eac3_refill s).window.length ∧
      s'.window = (eac3_refill s).window.drop s'.info.frame_size ∧
      s'.data = (eac3_refill s).data := by
  unfold eac3_loop_body at h
  simp only [] at h
  split_ifs at h with h1 h2 h3
  obtain ⟨k1, k2, k3⟩ := accept_syncframe_next _ _ _ _ h
  have k4 := accept_syncframe_frame_size _ _ _ _ h
  rw [← k4] at k1 k2
  refine ⟨?_, k1, k2, k3⟩
  rw [k4, parse_frame_size]
  exact hdr_frame_size_ge _

theorem loop_body_next_flag (s s' : eac3_loop_state) (h : eac3_loop_body s = .next s')
    (hn : s.info.no_more_read = true) :
    s'.info.no_more_read = true ∧ s'.data = s.data := by
  unfold eac3_loop_body at h
  rw [refill_no_more_read s hn] at h
  simp only [] at h
  split_ifs at h with h1 h2 h3
  obtain ⟨k1, _, _, k4⟩ := accept_syncframe_inv _ _ _ _ h
  rw [parse_no_more_read] at k1
  exact ⟨k1.trans hn, k4⟩

theorem reference_body_eq (info : eac3_info_t) (rest : List Nat)
    (hn : info.no_more_read = true) :
    reference_body info rest = eac3_loop_body { info := info, window := rest, data := [] } := by
  unfold eac3_loop_body
  rw [refill_no_more_read _ hn]
  unfold reference_body
  simp only [hn, and_true]

theorem reference_loop_eq : ∀ (fuel : Nat) (info : eac3_info_t) (rest : List Nat),
    info.no_more_read = true →
    reference_loop fuel info rest = eac3_loop fuel { info := info, window := rest, data := [] } := by
  intro fuel
  induction fuel with
  | zero => intro info rest _; rfl
  | succ fuel ih =>
    intro info rest hn
    unfold reference_loop eac3_loop
    rw [reference_body_eq info rest hn]
    cases hb : eac3_loop_body { info := info, window := rest, data := [] } with
    | setup_param i => rfl
    | hard_failure => rfl
    | next s =>
      obtain ⟨k1, k2⟩ := loop_body_next_flag _ _ hb hn
      simp only []
      rw [ih s.info s.window k1]
      congr 1
      cases s
      simp only [] at k2
      subst k2
      rfl

theorem reference_one_window (param : lsmash_eac3_specific_parameters_t) (data : List Nat)
    (h : data.length ≤ EAC3_MAX_SYNCFRAME_LENGTH) :
    lsmash_setup_eac3_specific_parameters_from_frame param data =
      reference_assembler param data := by
  unfold lsmash_setup_eac3_specific_parameters_from_frame reference_assembler
  rw [run_one_window data h, reference_loop_eq _ _ _ rfl]
  rfl

/-! ## Properties of the record codecs -/

/-- The record keeps `frmsizecod >> 1` only: for the valid parameters with
`frmsizecod = 1` (all other fields 0), no content of the memory after the record
and no initial destination make `ac3_construct_specific_parameters` return 0
with parameters equal to the encoded ones. -/
theorem ac3_roundtrip_fails_odd_frmsizecod :
    ¬ ∃ (oob : Nat → Nat) (dst : lsmash_ac3_specific_parameters_t),
      ac3_construct_specific_parameters oob dst
          (lsmash_create_ac3_specific_info
            { fscod := 0, bsid := 0, bsmod := 0, acmod := 0, lfeon := 0, frmsizecod := 1 }) =
        (0, { fscod := 0, bsid := 0, bsmod := 0, acmod := 0, lfeon := 0, frmsizecod := 1 }) := by
  rintro ⟨oob, dst, h⟩
  rw [ac3_construct_of_create] at h
  have h2 := congrArg (fun r => r.2.frmsizecod) h
  simp only [] at h2
  omega

/-- What the decoder does return of an encoded record: for every valid
AC3Parameters `p` (fscod != 3, bsid < 10, frmsizecod <= 0x25, bsmod < 8,
acmod < 8, lfeon <= 1), decoding with `ac3_construct_specific_parameters` the
record of `lsmash_create_ac3_specific_info p` succeeds and returns `p`'s fscod,
bsid, acmod and lfeon, the top bit of `p`'s bsmod, and an even frmsizecod with
the two top bits of `p`'s frmsizecod. -/
theorem ac3_roundtrip_fields (p : lsmash_ac3_specific_parameters_t)
    (h1 : p.fscod ≠ 3) (h2 : p.bsid < 10) (h3 : p.frmsizecod ≤ 0x25) (h4 : p.bsmod < 8)
    (h5 : p.acmod < 8) (h6 : p.lfeon ≤ 1) (hf : p.fscod < 4)
    (oob : Nat → Nat) (dst : lsmash_ac3_specific_parameters_t) :
    (ac3_construct_specific_parameters oob dst (lsmash_create_ac3_specific_info p)).1 = 0 ∧
    (ac3_construct_specific_parameters oob dst (lsmash_create_ac3_specific_info p)).2.fscod
      = p.fscod ∧
    (ac3_construct_specific_parameters oob dst (lsmash_create_ac3_specific_info p)).2.bsid
      = p.bsid ∧
    (ac3_construct_specific_parameters oob dst (lsmash_create_ac3_specific_info p)).2.acmod
      = p.acmod ∧
    (ac3_construct_specific_parameters oob dst (lsmash_create_ac3_specific_info p)).2.lfeon
      = p.lfeon ∧
    (ac3_construct_specific_parameters oob dst (lsmash_create_ac3_specific_info p)).2.bsmod / 4
      = p.bsmod / 4 ∧
    (ac3_construct_specific_parameters oob dst (lsmash_create_ac3_specific_info p)).2.frmsizecod
      % 2 = 0 ∧
    (ac3_construct_specific_parameters oob dst (lsmash_create_ac3_specific_info p)).2.frmsizecod
      / 16 = p.frmsizecod / 16 := by
  have _ := h1
  rw [ac3_construct_of_create]
  simp only []
  rw [shl_or _ _ 2 (by omega)]
  refine ⟨trivial, ?_, ?_, ?_, ?_, ?_, ?_, ?_⟩ <;> omega

theorem ac3_roundtrip_fields_witness :
    (ac3_construct_specific_parameters (fun _ => 0)
        { fscod := 0, bsid := 0, bsmod := 0, acmod := 0, lfeon := 0, frmsizecod := 0 }
        (lsmash_create_ac3_specific_info
          { fscod := 0, bsid := 8, bsmod := 5, acmod := 2, lfeon := 1, frmsizecod := 0x21 })).1
      = 0 ∧
    (ac3_construct_specific_parameters (fun _ => 0)
        { fscod := 0, bsid := 0, bsmod := 0, acmod := 0, lfeon := 0, frmsizecod := 0 }
        (lsmash_create_ac3_specific_info
          { fscod := 0, bsid := 8, bsmod := 5, acmod := 2, lfeon := 1, frmsizecod := 0x21 })
      ).2.bsid = 8 :=
  have h := ac3_roundtrip_fields
    { fscod := 0, bsid := 8, bsmod := 5, acmod := 2, lfeon := 1, frmsizecod := 0x21 }
    (by decide) (by decide) (by decide) (by decide) (by decide) (by decide) (by decide)
    (fun _ => 0)
    { fscod := 0, bsid := 0, bsmod := 0, acmod := 0, lfeon := 0, frmsizecod := 0 }
  ⟨h.1, h.2.2.1⟩

/-- C1 on the code: the record holds bsmod in the low bit of its byte 8 and the
two top bits of byte 9, and frmsizecod >> 1 in the two low bits of byte 9 and
the three top bits of byte 10 (data[0], data[1], data[2] after the 8-byte
prefix, as the decoder's bit-position comments and `ac3_print_codec_specific`
read them), but `ac3_construct_specific_parameters` takes the low bits of bsmod
from data[2] and those of frmsizecod from data[3].  For the valid parameters
{fscod 0, bsid 8, bsmod 1, acmod 2, lfeon 0, frmsizecod 0}, whose even
frmsizecod the record keeps in full, the field bytes are 10 50 00 and the
decoder returns 0 with bsmod 0, whatever the memory after the record and the
destination; for frmsizecod 2 it returns frmsizecod 0 or 14 depending on the
byte after the 11-byte record. -/
theorem ac3_decoder_reads_wrong_bytes :
    (∀ (p : lsmash_ac3_specific_parameters_t) (oob : Nat → Nat),
      p.bsmod < 8 → p.frmsizecod < 64 →
      ((rdByte oob (lsmash_create_ac3_specific_info p) 8 &&& 0x01) <<< 2) |||
        ((rdByte oob (lsmash_create_ac3_specific_info p) 9 >>> 6) &&& 0x03) = p.bsmod ∧
      ((rdByte oob (lsmash_create_ac3_specific_info p) 9 &&& 0x03) <<< 3) |||
        ((rdByte oob (lsmash_create_ac3_specific_info p) 10 >>> 5) &&& 0x07) =
          p.frmsizecod >>> 1) ∧
    lsmash_create_ac3_specific_info
        { fscod := 0, bsid := 8, bsmod := 1, acmod := 2, lfeon := 0, frmsizecod := 0 } =
      [0x00, 0x00, 0x00, 0x0B, 0x64, 0x61, 0x63, 0x33, 0x10, 0x50, 0x00] ∧
    (∀ (oob : Nat → Nat) (dst : lsmash_ac3_specific_parameters_t),
      (ac3_construct_specific_parameters oob dst
        (lsmash_create_ac3_specific_info
          { fscod := 0, bsid := 8, bsmod := 1, acmod := 2, lfeon := 0, frmsizecod := 0 })).1 = 0 ∧
      (ac3_construct_specific_parameters oob dst
        (lsmash_create_ac3_specific_info
          { fscod := 0, bsid := 8, bsmod := 1, acmod := 2, lfeon := 0, frmsizecod := 0 })).2.bsmod
        = 0) ∧
    (ac3_construct_specific_parameters (fun _ => 0) zero_ac3_param
        (lsmash_create_ac3_specific_info
          { fscod := 0, bsid := 8, bsmod := 0, acmod := 2, lfeon := 0, frmsizecod := 2 })).2.frmsizecod
      = 0 ∧
    (ac3_construct_specific_parameters (fun _ => 255) zero_ac3_param
        (lsmash_create_ac3_specific_info
          { fscod := 0, bsid := 8, bsmod := 0, acmod := 2, lfeon := 0, frmsizecod := 2 })).2.frmsizecod
      = 14 := by
  refine ⟨?_, ?_, ?_, ?_, ?_⟩
  · intro p oob h1 h2
    rw [create_ac3_bytes]
    simp only [rdByte, List.length_cons, List.length_nil, Nat.reduceAdd, Nat.reduceLT, if_true,
      List.getD_eq_getElem?_getD, and_1, and_3, and_7, Nat.shiftRight_eq_div_pow]
    simp only [List.getElem?_cons_succ, List.getElem?_cons_zero, Option.getD_some]
    rw [shl_or _ _ 2 (by omega), shl_or _ _ 3 (by omega)]
    refine ⟨?_, ?_⟩ <;> omega
  · rw [create_ac3_bytes]; decide
  · intro oob dst
    rw [ac3_construct_of_create]
    exact ⟨rfl, rfl⟩
  · rw [ac3_construct_of_create]; decide
  · rw [ac3_construct_of_create]; decide

/-- C2: for every EAC3Parameters `p` with num_ind_sub <= 7, data_rate < 2^13 and
every entry `0..num_ind_sub` within its record width, `lsmash_create_eac3_specific_info p`
yields a record on which `eac3_construct_specific_parameters` returns 0 together
with `p`'s data_rate and num_ind_sub and, for each of the num_ind_sub+1 entries,
the same fscod, bsid, bsmod, acmod, lfeon and num_dep_sub, and the same chan_loc
whenever num_dep_sub > 0 (the destination holding its 8 entries). -/
theorem eac3_record_roundtrip (p : lsmash_eac3_specific_parameters_t)
    (hn : p.num_ind_sub ≤ 7) (hr : p.data_rate < 2 ^ 13)
    (hw : ∀ i, i ≤ p.num_ind_sub → InWidth (p.independent_info.getD i zero_info))
    (oob : Nat → Nat) (dst : lsmash_eac3_specific_parameters_t)
    (hd : dst.independent_info.length = 8) :
    ∃ record, lsmash_create_eac3_specific_info p = some record ∧
      (eac3_construct_specific_parameters oob dst record).1 = 0 ∧
      (eac3_construct_specific_parameters oob dst record).2.data_rate = p.data_rate ∧
      (eac3_construct_specific_parameters oob dst record).2.num_ind_sub = p.num_ind_sub ∧
      ∀ i, i ≤ p.num_ind_sub →
        entryMatches
          ((eac3_construct_specific_parameters oob dst record).2.independent_info.getD i zero_info)
          (p.independent_info.getD i zero_info) := by
  obtain ⟨record, h1, h2⟩ := eac3_construct_of_create p hn hr hw oob dst
  refine ⟨record, h1, ?_⟩
  rw [h2]
  refine ⟨rfl, rfl, rfl, ?_⟩
  intro i hi
  have h3 := writeBack_at (firstEntries p.independent_info (p.num_ind_sub + 1))
    dst.independent_info 0 i (by rw [firstEntries_length]; omega) (by omega)
  simp only [Nat.zero_add] at h3
  simp only [h3]
  have h4 : (firstEntries p.independent_info (p.num_ind_sub + 1)).getD i zero_info =
      p.independent_info.getD i zero_info := by
    have hi' : i < p.num_ind_sub + 1 := by omega
    simp [firstEntries, List.getD_eq_getElem?_getD, List.getElem?_map, List.getElem?_range hi']
  rw [h4]
  exact entryMatches_decoded _ _

theorem eac3_record_roundtrip_witness :
    ∃ record,
      lsmash_create_eac3_specific_info
        { data_rate := 5000, num_ind_sub := 1,
          independent_info :=
            [{ fscod := 1, fscod2 := 0, bsid := 16, bsmod := 7, acmod := 5, lfeon := 1,
               num_dep_sub := 3, chan_loc := 300 },
             { fscod := 2, fscod2 := 0, bsid := 11, bsmod := 6, acmod := 2, lfeon := 0,
               num_dep_sub := 0, chan_loc := 77 }] ++ List.replicate 6 zero_info } = some record ∧
      (eac3_construct_specific_parameters (fun _ => 0) zero_param record).1 = 0 ∧
      (eac3_construct_specific_parameters (fun _ => 0) zero_param record).2.data_rate = 5000 :=
  have h := eac3_record_roundtrip
    { data_rate := 5000, num_ind_sub := 1,
      independent_info :=
        [{ fscod := 1, fscod2 := 0, bsid := 16, bsmod := 7, acmod := 5, lfeon := 1,
           num_dep_sub := 3, chan_loc := 300 },
         { fscod := 2, fscod2 := 0, bsid := 11, bsmod := 6, acmod := 2, lfeon := 0,
           num_dep_sub := 0, chan_loc := 77 }] ++ List.replicate 6 zero_info }
    (by decide) (by decide)
    (by intro i hi; interval_cases i <;> (unfold InWidth; decide))
    (fun _ => 0) zero_param (by decide)
  match h with
  | ⟨record, h1, h2, h3, _⟩ => ⟨record, h1, h2, h3⟩

/-- C13, as stated, fails: the record of scenario A is not
`00 00 00 0B 'dac3' 08 20 00`. -/
theorem scenario_a_claimed_bytes_differ :
    lsmash_create_ac3_specific_info
        { fscod := 0, bsid := 8, bsmod := 0, acmod := 2, lfeon := 0, frmsizecod := 0x20 } ≠
      [0x00, 0x00, 0x00, 0x0B, 0x64, 0x61, 0x63, 0x33, 0x08, 0x20, 0x00] := by
  rw [create_ac3_bytes]
  decide

/-- C13, amended: `lsmash_create_ac3_specific_info` applied to {fscod=0, bsid=8,
bsmod=0, acmod=2, lfeon=0, frmsizecod=0x20} returns exactly 11 bytes:
00 00 00 0B, the type tag 'dac3', and the three field bytes 10 12 00 (binary
00010000 00010010 00000000, which is 00 01000 000 010 0 10000 00000). -/
theorem scenario_a_bytes :
    lsmash_create_ac3_specific_info
        { fscod := 0, bsid := 8, bsmod := 0, acmod := 2, lfeon := 0, frmsizecod := 0x20 } =
      [0x00, 0x00, 0x00, 0x0B, 0x64, 0x61, 0x63, 0x33, 0x10, 0x12, 0x00] ∧
    bytesOfBits [0,0, 0,1,0,0,0, 0,0,0, 0,1,0, 0, 1,0,0,0,0, 0,0,0,0,0] = [0x10, 0x12, 0x00] := by
  rw [create_ac3_bytes]
  decide

/-- C14: for every AC3Parameters whose fields fit their widths (fscod < 4,
bsid < 32, bsmod < 8, acmod < 8, lfeon <= 1, frmsizecod < 64),
`lsmash_create_ac3_specific_info` returns exactly 11 bytes: the big-endian
32-bit value 11, the 4-byte tag 'dac3', and the three bytes of the 24-bit
MSB-first concatenation fscod(2) bsid(5) bsmod(3) acmod(3) lfeon(1)
(frmsizecod >> 1)(5) followed by 5 zero bits, given both as the big-endian
bytes of the 24-bit number and as the bytes of the bit sequence. -/
theorem ac3_record_layout (p : lsmash_ac3_specific_parameters_t)
    (h1 : p.fscod < 4) (h2 : p.bsid < 32) (h3 : p.bsmod < 8) (h4 : p.acmod < 8)
    (h5 : p.lfeon ≤ 1) (h6 : p.frmsizecod < 64) :
    (lsmash_create_ac3_specific_info p).length = 11 ∧
    lsmash_create_ac3_specific_info p =
      beBytes 4 11 ++ [0x64, 0x61, 0x63, 0x33] ++
        beBytes 3 ((((((p.fscod * 2 ^ 5 + p.bsid) * 2 ^ 3 + p.bsmod) * 2 ^ 3 + p.acmod) * 2 ^ 1
          + p.lfeon) * 2 ^ 5 + p.frmsizecod / 2) * 2 ^ 5) ∧
    lsmash_create_ac3_specific_info p =
      beBytes 4 11 ++ [0x64, 0x61, 0x63, 0x33] ++ bytesOfBits (ac3_record_bits p) ∧
    (((((p.fscod * 2 ^ 5 + p.bsid) * 2 ^ 3 + p.bsmod) * 2 ^ 3 + p.acmod) * 2 ^ 1
      + p.lfeon) * 2 ^ 5 + p.frmsizecod / 2) * 2 ^ 5 < 2 ^ 24 := by
  rw [ac3_bits_bytes, create_ac3_bytes]
  simp [beBytes, List.range_succ]
  refine ⟨⟨?_, ?_, ?_⟩, ?_⟩ <;> omega

theorem ac3_record_layout_witness :
    (lsmash_create_ac3_specific_info
        { fscod := 1, bsid := 8, bsmod := 5, acmod := 7, lfeon := 1, frmsizecod := 0x25 }).length
      = 11 ∧
    lsmash_create_ac3_specific_info
        { fscod := 1, bsid := 8, bsmod := 5, acmod := 7, lfeon := 1, frmsizecod := 0x25 } =
      beBytes 4 11 ++ [0x64, 0x61, 0x63, 0x33] ++
        bytesOfBits (ac3_record_bits
          { fscod := 1, bsid := 8, bsmod := 5, acmod := 7, lfeon := 1, frmsizecod := 0x25 }) :=
  have h := ac3_record_layout
    { fscod := 1, bsid := 8, bsmod := 5, acmod := 7, lfeon := 1, frmsizecod := 0x25 }
    (by decide) (by decide) (by decide) (by decide) (by decide) (by decide)
  ⟨h.1, h.2.2.1⟩

/-- C17: `lsmash_create_eac3_specific_info` returns `NULL` (no bytes) if and only
if num_ind_sub > 7; in particular it fails for 9 substreams (num_ind_sub = 8,
whatever the other members) and yields a record for every num_ind_sub in 0..7. -/
theorem create_eac3_null_iff (p : lsmash_eac3_specific_parameters_t) :
    (lsmash_create_eac3_specific_info p = none ↔ p.num_ind_sub > 7) ∧
    lsmash_create_eac3_specific_info { p with num_ind_sub := 8 } = none ∧
    (p.num_ind_sub ≤ 7 → ∃ record, lsmash_create_eac3_specific_info p = some record ∧
      record ≠ []) := by
  refine ⟨?_, ?_, ?_⟩
  · unfold lsmash_create_eac3_specific_info
    split <;> simp_all
  · simp [lsmash_create_eac3_specific_info]
  · intro h
    exact ⟨_, create_eac3_bytes p h, by simp [beBytes_four]⟩

/-- C16: for every EAC3Parameters with num_ind_sub <= 7, the first four bytes of
the record returned by `lsmash_create_eac3_specific_info`, read as a big-endian
32-bit integer, are the number of bytes returned, and that number lies between
13 and 42; more precisely between 10 + 3 * (num_ind_sub + 1) and
10 + 4 * (num_ind_sub + 1). -/
theorem eac3_record_size (p : lsmash_eac3_specific_parameters_t) (h : p.num_ind_sub ≤ 7)
    (oob : Nat → Nat) :
    ∃ record, lsmash_create_eac3_specific_info p = some record ∧
      LSMASH_GET_BE32 oob record 0 = record.length ∧
      13 ≤ record.length ∧ record.length ≤ 42 ∧
      10 + 3 * (p.num_ind_sub + 1) ≤ record.length ∧
      record.length ≤ 10 + 4 * (p.num_ind_sub + 1) := by
  refine ⟨_, create_eac3_bytes p h, ?_⟩
  obtain ⟨hb1, hb2⟩ := flatten_substreamBytes_length
    (firstEntries p.independent_info (p.num_ind_sub + 1))
  rw [firstEntries_length] at hb1 hb2
  generalize ((firstEntries p.independent_info (p.num_ind_sub + 1)).map substreamBytes).flatten
    = body at hb1 hb2
  have hL : (10 + body.length) % 2 ^ 32 = 10 + body.length := by omega
  have e4 : beBytes 4 (10 + body.length) = [0, 0, 0, 10 + body.length] := by
    rw [beBytes_four]
    simp only [List.cons.injEq, and_true]
    refine ⟨?_, ?_, ?_, ?_⟩ <;> omega
  rw [hL, e4]
  have hlen : ([0, 0, 0, 10 + body.length] ++
      ([100, 101, 99, 51, p.data_rate % 8192 / 32, p.data_rate % 32 * 8 + p.num_ind_sub % 8] ++
        body)).length = 10 + body.length := by
    simp; omega
  rw [hlen]
  refine ⟨?_, by omega, by omega, by omega, by omega⟩
  simp [LSMASH_GET_BE32, rdByte]

theorem eac3_record_size_witness :
    ∃ record,
      lsmash_create_eac3_specific_info
        { data_rate := 5000, num_ind_sub := 1,
          independent_info :=
            [{ fscod := 1, fscod2 := 0, bsid := 16, bsmod := 7, acmod := 5, lfeon := 1,
               num_dep_sub := 3, chan_loc := 300 },
             { fscod := 2, fscod2 := 0, bsid := 11, bsmod := 6, acmod := 2, lfeon := 0,
               num_dep_sub := 0, chan_loc := 77 }] ++ List.replicate 6 zero_info } = some record ∧
      LSMASH_GET_BE32 (fun _ => 0) record 0 = record.length :=
  have h := eac3_record_size
    { data_rate := 5000, num_ind_sub := 1,
      independent_info :=
        [{ fscod := 1, fscod2 := 0, bsid := 16, bsmod := 7, acmod := 5, lfeon := 1,
           num_dep_sub := 3, chan_loc := 300 },
         { fscod := 2, fscod2 := 0, bsid := 11, bsmod := 6, acmod := 2, lfeon := 0,
           num_dep_sub := 0, chan_loc := 77 }] ++ List.replicate 6 zero_info }
    (by decide) (fun _ => 0)
  match h with
  | ⟨record, h1, h2, _⟩ => ⟨record, h1, h2⟩

/-- C15: for every EAC3Parameters with num_ind_sub <= 7, the body of the record
returned by `lsmash_create_eac3_specific_info` (after the 8-byte size/type
prefix) is the MSB-first concatenation data_rate(13) num_ind_sub(3) followed, for
each substream i = 0..num_ind_sub in order, by fscod(2) bsid(5) bsmod(5) acmod(3)
lfeon(1) 000 num_dep_sub(4) and then chan_loc(9) if num_dep_sub > 0 or a single
0 bit otherwise (a field wider than its width contributes its low bits); the
body is 2 bytes followed by the bytes of each substream in turn, and a substream
occupies exactly 4 bytes when it has dependents and 3 bytes when it has none. -/
theorem eac3_record_body_layout (p : lsmash_eac3_specific_parameters_t)
    (h : p.num_ind_sub ≤ 7) :
    ∃ record, lsmash_create_eac3_specific_info p = some record ∧
      record.drop 8 = bytesOfBits (eac3_record_bits p) ∧
      record.drop 8 =
        bytesOfBits (fieldBits 13 p.data_rate ++ fieldBits 3 p.num_ind_sub) ++
          ((firstEntries p.independent_info (p.num_ind_sub + 1)).map fun e =>
            bytesOfBits (eac3_substream_bits e)).flatten ∧
      (bytesOfBits (fieldBits 13 p.data_rate ++ fieldBits 3 p.num_ind_sub)).length = 2 ∧
      ∀ e : lsmash_eac3_substream_info_t,
        (bytesOfBits (eac3_substream_bits e)).length = if e.num_dep_sub > 0 then 4 else 3 := by
  refine ⟨_, create_eac3_bytes p h, ?_, ?_, ?_, ?_⟩
  · obtain ⟨n, _, h2⟩ := flatten_bits_bytes (firstEntries p.independent_info (p.num_ind_sub + 1))
    unfold eac3_record_bits
    rw [bytesOfBits_append 2 _ _ (by simp [fieldBits]), h2, eac3_header_bits_bytes]
    simp [beBytes_four]
  · rw [eac3_header_bits_bytes]
    simp [beBytes_four, substream_bits_bytes]
  · rw [eac3_header_bits_bytes]; rfl
  · intro e
    rw [substream_bits_bytes]
    unfold substreamBytes
    split <;> simp

theorem eac3_record_body_layout_witness :
    ∃ record,
      lsmash_create_eac3_specific_info
        { data_rate := 5000, num_ind_sub := 1,
          independent_info :=
            [{ fscod := 1, fscod2 := 0, bsid := 16, bsmod := 7, acmod := 5, lfeon := 1,
               num_dep_sub := 3, chan_loc := 300 },
             { fscod := 2, fscod2 := 0, bsid := 11, bsmod := 6, acmod := 2, lfeon := 0,
               num_dep_sub := 0, chan_loc := 77 }] ++ List.replicate 6 zero_info } = some record ∧
      record.drop 8 = bytesOfBits (eac3_record_bits
        { data_rate := 5000, num_ind_sub := 1,
          independent_info :=
            [{ fscod := 1, fscod2 := 0, bsid := 16, bsmod := 7, acmod := 5, lfeon := 1,
               num_dep_sub := 3, chan_loc := 300 },
             { fscod := 2, fscod2 := 0, bsid := 11, bsmod := 6, acmod := 2, lfeon := 0,
               num_dep_sub := 0, chan_loc := 77 }] ++ List.replicate 6 zero_info }) :=
  have h := eac3_record_body_layout
    { data_rate := 5000, num_ind_sub := 1,
      independent_info :=
        [{ fscod := 1, fscod2 := 0, bsid := 16, bsmod := 7, acmod := 5, lfeon := 1,
           num_dep_sub := 3, chan_loc := 300 },
         { fscod := 2, fscod2 := 0, bsid := 11, bsmod := 6, acmod := 2, lfeon := 0,
           num_dep_sub := 0, chan_loc := 77 }] ++ List.replicate 6 zero_info }
    (by decide)
  match h with
  | ⟨record, h1, h2, _⟩ => ⟨record, h1, h2⟩

/-- C18: `ac3_construct_specific_parameters` returns 0 exactly when the supplied
length is at least 11 and equals the declared size of the record, where the
declared size is the big-endian 32-bit value at offset 0, or, when that value is
1, the big-endian 64-bit value at offset 8; every other call returns -1 and
leaves the destination parameters unchanged; on success the fields are read
from the bytes at offset 8, or 8 bytes later with the 64-bit size. -/
theorem ac3_construct_acceptance (oob : Nat → Nat) (dst : lsmash_ac3_specific_parameters_t)
    (src : List Nat) :
    ((ac3_construct_specific_parameters oob dst src).1 = 0 ↔
      11 ≤ src.length ∧ ac3_declared_size oob src = src.length) ∧
    ((ac3_construct_specific_parameters oob dst src).1 ≠ 0 →
      ac3_construct_specific_parameters oob dst src = (-1, dst)) ∧
    ((ac3_construct_specific_parameters oob dst src).1 = 0 →
      (ac3_construct_specific_parameters oob dst src).2.fscod =
        rdByte oob src (ac3_fields_offset oob src) / 64 % 4 ∧
      (ac3_construct_specific_parameters oob dst src).2.bsid =
        rdByte oob src (ac3_fields_offset oob src) / 2 % 32 ∧
      (ac3_construct_specific_parameters oob dst src).2.acmod =
        rdByte oob src (ac3_fields_offset oob src + 1) / 8 % 8 ∧
      (ac3_construct_specific_parameters oob dst src).2.lfeon =
        rdByte oob src (ac3_fields_offset oob src + 1) / 4 % 2) := by
  unfold ac3_construct_specific_parameters ac3_declared_size ac3_fields_offset
  simp only [AC3_SPECIFIC_BOX_LENGTH, ISOM_BASEBOX_COMMON_SIZE]
  by_cases hl : src.length < 11
  · simp [hl]
  · by_cases h1 : LSMASH_GET_BE32 oob src 0 = 1
    · simp only [hl, h1, if_false, if_true]
      by_cases hs : LSMASH_GET_BE64 oob src 8 = src.length
      · simp [hs, and_1, and_3, and_7, and_31, Nat.shiftRight_eq_div_pow]
        omega
      · simp [hs]
    · simp only [hl, h1, if_false]
      by_cases hs : LSMASH_GET_BE32 oob src 0 = src.length
      · simp [hs, and_1, and_3, and_7, and_31, Nat.shiftRight_eq_div_pow]
        omega
      · simp [hs]

/-- C19: `lsmash_eac3_get_chan_loc_from_chanmap` returns a 9-bit mask for every
chanmap (in particular every 16-bit one): the result is below 512, its bit 0 is
bit 1 of chanmap, its bit j (1 <= j <= 8) is bit j+2 of chanmap, and two
chanmaps that differ in the bits 0, 2 and 11 and above only give the same
result. -/
theorem chan_loc_from_chanmap_bits (chanmap : Nat) :
    lsmash_eac3_get_chan_loc_from_chanmap chanmap < 512 ∧
    (lsmash_eac3_get_chan_loc_from_chanmap chanmap).testBit 0 = chanmap.testBit 1 ∧
    (∀ j, 1 ≤ j → j ≤ 8 →
      (lsmash_eac3_get_chan_loc_from_chanmap chanmap).testBit j = chanmap.testBit (j + 2)) ∧
    (∀ other : Nat, (∀ i, i = 1 ∨ (3 ≤ i ∧ i ≤ 10) → other.testBit i = chanmap.testBit i) →
      lsmash_eac3_get_chan_loc_from_chanmap other =
        lsmash_eac3_get_chan_loc_from_chanmap chanmap) := by
  refine ⟨?_, ?_, ?_, ?_⟩
  · apply Nat.lt_pow_two_of_testBit _ (n := 9)
    intro i hi
    rw [chan_loc_testBit]
    have h0 : i ≠ 0 := by omega
    have h8 : ¬ i ≤ 8 := by omega
    simp [h0, h8]
  · rw [chan_loc_testBit]; simp
  · intro j h1 h8
    rw [chan_loc_testBit]
    have h0 : j ≠ 0 := by omega
    simp [h0, h8]
  · intro other h
    apply Nat.eq_of_testBit_eq
    intro j
    rw [chan_loc_testBit, chan_loc_testBit]
    by_cases h0 : j = 0
    · simp [h0, h 1 (Or.inl rfl)]
    · by_cases h8 : j ≤ 8
      · simp [h0, h8, h (j + 2) (Or.inr ⟨by omega, by omega⟩)]
      · simp [h0, h8]

/-- C27 on the code: the 13-byte buffer 00 00 00 0D 'dec3' 00 01 00 00 00 passes
the size checks of `eac3_construct_specific_parameters` (length 13, declared size
13), and with num_ind_sub = 1 the second loop iteration finds the running size
at 8, so the decoder reads the indices 13, 14 and 15, past the 13 bytes; the
call returns 0 and the entry it stores depends on the memory after the buffer. -/
theorem construct_reads_past_record :
    ([0, 0, 0, 13, 100, 101, 99, 51, 0, 1, 0, 0, 0] : List Nat).length = 13 ∧
    (∀ oob : Nat → Nat,
      LSMASH_GET_BE32 oob [0, 0, 0, 13, 100, 101, 99, 51, 0, 1, 0, 0, 0] 0 = 13 ∧
      eac3_construct_reads oob [0, 0, 0, 13, 100, 101, 99, 51, 0, 1, 0, 0, 0] =
        [0, 1, 2, 3, 8, 9, 10, 11, 12, 13, 14, 15] ++
          (if ((oob 15 % 256) >>> 1) &&& 0x0F > 0 then [15, 16] else []) ∧
      (eac3_construct_specific_parameters oob zero_param
        [0, 0, 0, 13, 100, 101, 99, 51, 0, 1, 0, 0, 0]).1 = 0) ∧
    (eac3_construct_specific_parameters (fun _ => 0) zero_param
        [0, 0, 0, 13, 100, 101, 99, 51, 0, 1, 0, 0, 0]).2 ≠
      (eac3_construct_specific_parameters (fun _ => 255) zero_param
        [0, 0, 0, 13, 100, 101, 99, 51, 0, 1, 0, 0, 0]).2 := by
  refine ⟨rfl, ?_, by decide!⟩
  intro oob
  refine ⟨by simp [LSMASH_GET_BE32, rdByte], ?_, ?_⟩
  · simp [eac3_construct_reads, eac3_construct_loop_reads, LSMASH_GET_BE32, rdByte,
      EAC3_SPECIFIC_BOX_MIN_LENGTH, ISOM_BASEBOX_COMMON_SIZE]
    split <;> simp
  · simp [eac3_construct_specific_parameters, eac3_construct_loop, LSMASH_GET_BE32, rdByte,
      EAC3_SPECIFIC_BOX_MIN_LENGTH, ISOM_BASEBOX_COMMON_SIZE, zero_param]
    split <;> simp

/-! ## Properties of the AC-3 header parser -/

/-- C20: whatever the handler and the buffer handed to
`ac3_parse_syncframe_header` (accepted or not), with the header read MSB-first
the decoded fscod is bits 32..33, frmsizecod is bits 34..39, bsid is bits
40..44, bsmod is bits 45..47 and acmod is bits 48..50 of the buffer (bit 0
being the most significant bit of byte 0). -/
theorem ac3_header_fixed_fields (info : ac3_info_t) (data : List Nat) :
    (ac3_parse_syncframe_header info data).2.dac3_param.fscod =
      2 * bitAt data 32 + bitAt data 33 ∧
    (ac3_parse_syncframe_header info data).2.dac3_param.frmsizecod =
      32 * bitAt data 34 + 16 * bitAt data 35 + 8 * bitAt data 36 + 4 * bitAt data 37 +
        2 * bitAt data 38 + bitAt data 39 ∧
    (ac3_parse_syncframe_header info data).2.dac3_param.bsid =
      16 * bitAt data 40 + 8 * bitAt data 41 + 4 * bitAt data 42 + 2 * bitAt data 43 +
        bitAt data 44 ∧
    (ac3_parse_syncframe_header info data).2.dac3_param.bsmod =
      4 * bitAt data 45 + 2 * bitAt data 46 + bitAt data 47 ∧
    (ac3_parse_syncframe_header info data).2.dac3_param.acmod =
      4 * bitAt data 48 + 2 * bitAt data 49 + bitAt data 50 :=
  ac3_parse_fields info data

/-- C12: `lsmash_setup_ac3_specific_parameters_from_syncframe` returns 0 if and
only if the buffer has at least `AC3_MIN_SYNCFRAME_LENGTH` bytes, starts with the
syncword 0x0B 0x77, and its header has fscod != 3, frmsizecod <= 0x25 and
bsid < 10; on success the output parameters are those of the header and satisfy
the three bounds; every other call returns -1 and leaves the caller's parameter
structure as it was. -/
theorem ac3_setup_acceptance (param : lsmash_ac3_specific_parameters_t) (data : List Nat) :
    ((lsmash_setup_ac3_specific_parameters_from_syncframe param data).1 = 0 ↔
      AC3_MIN_SYNCFRAME_LENGTH ≤ data.length ∧ data.getD 0 0 = 0x0b ∧ data.getD 1 0 = 0x77 ∧
        ac3_hdr_fscod data ≠ 3 ∧ ac3_hdr_frmsizecod data ≤ 0x25 ∧ ac3_hdr_bsid data < 10) ∧
    ((lsmash_setup_ac3_specific_parameters_from_syncframe param data).1 = 0 →
      (lsmash_setup_ac3_specific_parameters_from_syncframe param data).2.fscod ≠ 3 ∧
      (lsmash_setup_ac3_specific_parameters_from_syncframe param data).2.frmsizecod ≤ 0x25 ∧
      (lsmash_setup_ac3_specific_parameters_from_syncframe param data).2.bsid < 10 ∧
      (lsmash_setup_ac3_specific_parameters_from_syncframe param data).2.fscod =
        ac3_hdr_fscod data ∧
      (lsmash_setup_ac3_specific_parameters_from_syncframe param data).2.frmsizecod =
        ac3_hdr_frmsizecod data ∧
      (lsmash_setup_ac3_specific_parameters_from_syncframe param data).2.bsid =
        ac3_hdr_bsid data ∧
      (lsmash_setup_ac3_specific_parameters_from_syncframe param data).2.bsmod =
        ac3_hdr_bsmod data ∧
      (lsmash_setup_ac3_specific_parameters_from_syncframe param data).2.acmod =
        ac3_hdr_acmod data) ∧
    ((lsmash_setup_ac3_specific_parameters_from_syncframe param data).1 ≠ 0 →
      lsmash_setup_ac3_specific_parameters_from_syncframe param data = (-1, param)) := by
  by_cases hl : data.length < AC3_MIN_SYNCFRAME_LENGTH
  · have e : lsmash_setup_ac3_specific_parameters_from_syncframe param data = (-1, param) := by
      unfold lsmash_setup_ac3_specific_parameters_from_syncframe
      rw [if_pos hl]
    rw [e]
    refine ⟨⟨fun h => by simp at h, fun h => by omega⟩, fun h => by simp at h, fun _ => rfl⟩
  · by_cases hs : data.getD 0 0 ≠ 0x0b ∨ data.getD 1 0 ≠ 0x77
    · have e : lsmash_setup_ac3_specific_parameters_from_syncframe param data = (-1, param) := by
        unfold lsmash_setup_ac3_specific_parameters_from_syncframe
        rw [if_neg hl, if_pos hs]
      rw [e]
      refine ⟨⟨fun h => by simp at h, fun h => ?_⟩, fun h => by simp at h, fun _ => rfl⟩
      rcases hs with hs | hs
      · exact absurd h.2.1 hs
      · exact absurd h.2.2.1 hs
    · have h0 : data.getD 0 0 = 0x0b := by
        by_contra h; exact hs (Or.inl h)
      have h1 : data.getD 1 0 = 0x77 := by
        by_contra h; exact hs (Or.inr h)
      rw [ac3_setup_eq param data (by omega) h0 h1, ac3_parse_ret]
      obtain ⟨f1, f2, f3, f4, f5⟩ :=
        ac3_parse_fields { dac3_param := zero_ac3_param, buffer := [] } data
      generalize (ac3_parse_syncframe_header
        { dac3_param := zero_ac3_param, buffer := [] } data).2.dac3_param = p at f1 f2 f3 f4 f5
      rw [← f1, ← f2, ← f3, ← f4, ← f5]
      unfold ac3_check_syncframe_header
      by_cases c1 : p.fscod = 0x3
      · simp [c1]
      · by_cases c2 : p.frmsizecod > 0x25
        · simp [c1, c2]
        · by_cases c3 : p.bsid ≥ 10
          · simp [c1, c2, c3]
          · simp [c1, c2, c3]
            have hl2 : AC3_MIN_SYNCFRAME_LENGTH ≤ data.length := by omega
            simp only [List.getD_eq_getElem?_getD] at h0 h1
            refine ⟨⟨hl2, h0, h1, ?_⟩, ?_⟩ <;> omega

/-- C21, as stated, fails: in the accepted header with acmod = 1 (1/0, the low
bit set and acmod not 0) whose bit 51 is set and whose bit 53 is clear,
`ac3_parse_syncframe_header` reads lfeon = 1, the bit at offset 51, while the
offset 51 + 2 of the claim holds 0. -/
theorem lfeon_position_fails_for_acmod_1 :
    (ac3_parse_syncframe_header { dac3_param := zero_ac3_param, buffer := [] }
        [0x0b, 0x77, 0, 0, 0x20, 0x40, 0x30]).1 = 0 ∧
    (ac3_parse_syncframe_header { dac3_param := zero_ac3_param, buffer := [] }
        [0x0b, 0x77, 0, 0, 0x20, 0x40, 0x30]).2.dac3_param.acmod = 1 ∧
    (ac3_parse_syncframe_header { dac3_param := zero_ac3_param, buffer := [] }
        [0x0b, 0x77, 0, 0, 0x20, 0x40, 0x30]).2.dac3_param.lfeon = 1 ∧
    ac3_lfeon_pos_excluding_acmod0 [0x0b, 0x77, 0, 0, 0x20, 0x40, 0x30] = 53 ∧
    bitAt [0x0b, 0x77, 0, 0, 0x20, 0x40, 0x30] 53 = 0 ∧
    bitAt [0x0b, 0x77, 0, 0, 0x20, 0x40, 0x30] 51 = 1 := by
  decide!

/-- C21, amended: whatever the handler and the buffer, `ac3_parse_syncframe_header`
reads lfeon from bit offset 51 + 2*a + 2*b + 2*c of the buffer, where a = 1 iff
acmod's low bit is set and acmod is not 1 (the 1/0 mode), b = 1 iff acmod's
bit 0x4 is set, and c = 1 iff acmod is 2 (the 2/0 mode); otherwise a, b, c
are 0; acmod is the 3-bit field at bits 48..50, so it lies in 0..7. -/
theorem ac3_lfeon_position (info : ac3_info_t) (data : List Nat) :
    (ac3_parse_syncframe_header info data).2.dac3_param.lfeon =
      bitAt data
        (51 + 2 * (if (ac3_parse_syncframe_header info data).2.dac3_param.acmod % 2 = 1 ∧
                      (ac3_parse_syncframe_header info data).2.dac3_param.acmod ≠ 1 then 1 else 0)
          + 2 * (if (ac3_parse_syncframe_header info data).2.dac3_param.acmod / 4 % 2 = 1
                 then 1 else 0)
          + 2 * (if (ac3_parse_syncframe_header info data).2.dac3_param.acmod = 2 then 1 else 0)) ∧
    (ac3_parse_syncframe_header info data).2.dac3_param.acmod < 8 ∧
    (ac3_parse_syncframe_header info data).2.dac3_param.acmod =
      4 * bitAt data 48 + 2 * bitAt data 49 + bitAt data 50 := by
  have ha := (ac3_parse_fields info data).2.2.2.2
  rw [ha]
  exact ⟨ac3_parse_lfeon info data, ac3_hdr_acmod_lt data, rfl⟩

/-! ## Properties of the syncframe parser -/

/-- C22: for every handler (its table holding 8 entries) and every syncframe
given to `eac3_parse_syncframe`, strmtyp is bits 16..17, substreamid is bits
18..20, frame_size is 2 * (v + 1) for the 11-bit value v of bits 21..31 (so it
is even and between 2 and 4096), the fscod stored for the frame is bits 32..33,
numblkscod is 3 when fscod = 3 (bits 34..35 then being stored as fscod2) and is
bits 34..35 otherwise, and the stored acmod, lfeon and bsid are bits 36..38, 39
and 40..44. -/
theorem eac3_header_fixed_fields (info : eac3_info_t) (data : List Nat)
    (hl : info.independent_info.length = 8) :
    (eac3_parse_syncframe info data).2.strmtyp = bitsValue data 16 17 ∧
    (eac3_parse_syncframe info data).2.substreamid = bitsValue data 18 20 ∧
    (eac3_parse_syncframe info data).2.frame_size = 2 * (bitsValue data 21 31 + 1) ∧
    (eac3_parse_syncframe info data).2.frame_size % 2 = 0 ∧
    2 ≤ (eac3_parse_syncframe info data).2.frame_size ∧
    (eac3_parse_syncframe info data).2.frame_size ≤ 4096 ∧
    (substream_info_of (eac3_parse_syncframe info data).2).fscod = bitsValue data 32 33 ∧
    (bitsValue data 32 33 = 3 →
      (eac3_parse_syncframe info data).2.numblkscod = 3 ∧
      (substream_info_of (eac3_parse_syncframe info data).2).fscod2 = bitsValue data 34 35) ∧
    (bitsValue data 32 33 ≠ 3 →
      (eac3_parse_syncframe info data).2.numblkscod = bitsValue data 34 35) ∧
    (substream_info_of (eac3_parse_syncframe info data).2).acmod = bitsValue data 36 38 ∧
    (substream_info_of (eac3_parse_syncframe info data).2).lfeon = bitsValue data 39 39 ∧
    (substream_info_of (eac3_parse_syncframe info data).2).bsid = bitsValue data 40 44 := by
  obtain ⟨old, he⟩ := substream_info_of_parse info data hl
  rw [he, parse_strmtyp, parse_substreamid, parse_frame_size, parse_numblkscod]
  have h1 := hdr_frame_size_ge data
  have h2 := hdr_frame_size_le data
  have e1 : bitsValue data 16 17 = hdr_strmtyp data := (get_eq_bitsValue data 16 1).symm
  have e2 : bitsValue data 18 20 = hdr_substreamid data := (get_eq_bitsValue data 18 2).symm
  have e3 : bitsValue data 21 31 = lsmash_bits_get data 21 11 := (get_eq_bitsValue data 21 10).symm
  have e4 : bitsValue data 32 33 = hdr_fscod data := (get_eq_bitsValue data 32 1).symm
  have e5 : bitsValue data 34 35 = lsmash_bits_get data 34 2 := (get_eq_bitsValue data 34 1).symm
  have e6 : bitsValue data 36 38 = hdr_acmod data := (get_eq_bitsValue data 36 2).symm
  have e7 : bitsValue data 39 39 = hdr_lfeon data := (get_eq_bitsValue data 39 0).symm
  have e8 : bitsValue data 40 44 = hdr_bsid data := (get_eq_bitsValue data 40 4).symm
  rw [e1, e2, e3, e4, e5, e6, e7, e8]
  refine ⟨rfl, rfl, rfl, ?_, h1, h2, rfl, ?_, ?_, rfl, rfl, rfl⟩
  · unfold hdr_frame_size; omega
  · intro h3
    simp [hdr_numblkscod, hdr_entry, h3, hdr_fscod2]
  · intro h3
    simp [hdr_numblkscod, h3]

theorem eac3_header_fixed_fields_witness :
    (eac3_parse_syncframe zero_handler [11, 119, 0, 3, 52, 128, 0, 0]).2.strmtyp =
      bitsValue [11, 119, 0, 3, 52, 128, 0, 0] 16 17 ∧
    (eac3_parse_syncframe zero_handler [11, 119, 0, 3, 52, 128, 0, 0]).2.frame_size =
      2 * (bitsValue [11, 119, 0, 3, 52, 128, 0, 0] 21 31 + 1) :=
  have h := eac3_header_fixed_fields zero_handler [11, 119, 0, 3, 52, 128, 0, 0] (by decide)
  ⟨h.1, h.2.2.1⟩

/-- C23: for every handler (its table holding 8 entries) and every syncframe,
`eac3_parse_syncframe` returns a failure (-1) if and only if strmtyp (bits
16..17) is 3, or the bsid of the frame (bits 40..44) is below 10 or above 16, or
the fscod of the frame (bits 32..33) is 3 and its fscod2 (bits 34..35) is 3, and
returns 0 otherwise (a read past the window is served zero bits); a frame with
strmtyp 0 or 2 is treated as independent (its fields go to the table entry
substreamid, which becomes the current independent substream, and
`dependent_info` is left alone) and a frame with strmtyp 1 as dependent (its
fields go to `dependent_info` and the current independent substream stays). -/
theorem eac3_header_validation (info : eac3_info_t) (data : List Nat)
    (hl : info.independent_info.length = 8) :
    ((eac3_parse_syncframe info data).1 ≠ 0 ↔
      bitsValue data 16 17 = 3 ∨ bitsValue data 40 44 < 10 ∨ bitsValue data 40 44 > 16 ∨
        (bitsValue data 32 33 = 3 ∧ bitsValue data 34 35 = 3)) ∧
    ((eac3_parse_syncframe info data).1 = 0 ∨ (eac3_parse_syncframe info data).1 = -1) ∧
    (bitsValue data 16 17 = 0 ∨ bitsValue data 16 17 = 2 →
      (eac3_parse_syncframe info data).2.current_independent_substream_id =
        bitsValue data 18 20 ∧
      substream_info_of (eac3_parse_syncframe info data).2 =
        (eac3_parse_syncframe info data).2.independent_info.getD (bitsValue data 18 20)
          zero_info ∧
      (eac3_parse_syncframe info data).2.dependent_info = info.dependent_info) ∧
    (bitsValue data 16 17 = 1 →
      (eac3_parse_syncframe info data).2.current_independent_substream_id =
        info.current_independent_substream_id ∧
      substream_info_of (eac3_parse_syncframe info data).2 =
        (eac3_parse_syncframe info data).2.dependent_info) := by
  have e1 : bitsValue data 16 17 = hdr_strmtyp data := (get_eq_bitsValue data 16 1).symm
  have e2 : bitsValue data 18 20 = hdr_substreamid data := (get_eq_bitsValue data 18 2).symm
  have e4 : bitsValue data 32 33 = hdr_fscod data := (get_eq_bitsValue data 32 1).symm
  have e5 : bitsValue data 34 35 = hdr_fscod2 data := (get_eq_bitsValue data 34 1).symm
  have e8 : bitsValue data 40 44 = hdr_bsid data := (get_eq_bitsValue data 40 4).symm
  rw [e1, e2, e4, e5, e8, parse_ret info data hl]
  refine ⟨?_, ?_, ?_, ?_⟩
  · unfold hdr_valid
    by_cases h3 : hdr_strmtyp data = 3
    · simp [h3]
    · by_cases hf : hdr_fscod data = 3 ∧ hdr_fscod2 data = 3
      · simp [h3, hf]
      · by_cases hb : 10 ≤ hdr_bsid data ∧ hdr_bsid data ≤ 16
        · have hb1 : ¬ hdr_bsid data < 10 := by omega
          have hb2 : ¬ hdr_bsid data > 16 := by omega
          simp only [h3, hf, hb, hb1, hb2, ne_eq, not_false_eq_true, and_self, if_true,
            not_true_eq_false, or_self]
        · have hb3 : hdr_bsid data < 10 ∨ hdr_bsid data > 16 := by omega
          have hn : ¬ (hdr_strmtyp data ≠ 3 ∧ ¬ (hdr_fscod data = 3 ∧ hdr_fscod2 data = 3) ∧
              10 ≤ hdr_bsid data ∧ hdr_bsid data ≤ 16) := fun h => hb h.2.2
          rw [if_neg hn]
          refine ⟨fun _ => ?_, fun _ => by decide⟩
          rcases hb3 with h | h
          · exact Or.inr (Or.inl h)
          · exact Or.inr (Or.inr (Or.inl h))
  · split
    · exact Or.inl rfl
    · exact Or.inr rfl
  · intro h
    have hn : hdr_strmtyp data ≠ 1 := by omega
    have hs := hdr_substreamid_lt data
    rw [parse_independent info data hn hl]
    refine ⟨rfl, ?_, ?_⟩
    · simp only [substream_info_of, ne_eq, hn, not_false_eq_true, if_true]
    · by_cases hq : hdr_substreamid data = 0 ∧ info.number_of_independent_substreams ≠ 0 <;>
        simp [hq, eac3_update_specific_param]
  · intro h
    rw [parse_dependent info data h]
    refine ⟨rfl, ?_⟩
    simp [substream_info_of, h]

theorem eac3_header_validation_witness :
    ((eac3_parse_syncframe zero_handler [11, 119, 200, 3, 50, 96, 0, 0]).1 ≠ 0 ↔
      bitsValue [11, 119, 200, 3, 50, 96, 0, 0] 16 17 = 3 ∨
      bitsValue [11, 119, 200, 3, 50, 96, 0, 0] 40 44 < 10 ∨
      bitsValue [11, 119, 200, 3, 50, 96, 0, 0] 40 44 > 16 ∨
        (bitsValue [11, 119, 200, 3, 50, 96, 0, 0] 32 33 = 3 ∧
         bitsValue [11, 119, 200, 3, 50, 96, 0, 0] 34 35 = 3)) ∧
    bitsValue [11, 119, 200, 3, 50, 96, 0, 0] 16 17 = 3 :=
  ⟨(eac3_header_validation zero_handler [11, 119, 200, 3, 50, 96, 0, 0] (by decide)).1,
   by decide⟩

/-- C24, as stated, fails: after the assembler has accepted an independent
frame of substream 0 and one of substream 1, the independent frame of
substream 0 with bsid 9 that follows fails the validation of
`eac3_parse_syncframe`, and the failed call has retaken the snapshot of output
parameters, overwritten entry 0 of the table and moved the current independent
substream id from 1 to 0. -/
theorem failed_parse_changes_state :
    ∃ s1 s2,
      eac3_loop_body { info := zero_handler, window := [],
                       data := [11, 119, 0, 3, 52, 128, 0, 0] ++ [11, 119, 8, 3, 52, 128, 0, 0] ++
                         [11, 119, 0, 3, 62, 72, 0, 0] } = .next s1 ∧
      eac3_loop_body s1 = .next s2 ∧
      s2.window = [11, 119, 0, 3, 62, 72, 0, 0] ∧
      s2.info.independent_info.length = 8 ∧
      (eac3_parse_syncframe { s2.info with frame_size := 0 } s2.window).1 = -1 ∧
      (eac3_parse_syncframe { s2.info with frame_size := 0 } s2.window).2.dec3_param ≠
        s2.info.dec3_param ∧
      (eac3_parse_syncframe { s2.info with frame_size := 0 } s2.window).2.independent_info ≠
        s2.info.independent_info ∧
      s2.info.current_independent_substream_id = 1 ∧
      (eac3_parse_syncframe { s2.info with frame_size := 0 }
        s2.window).2.current_independent_substream_id = 0 :=
  ⟨{ info := { (eac3_parse_syncframe { zero_handler with no_more_read := true }
                  [11, 119, 0, 3, 52, 128, 0, 0]).2 with
               number_of_audio_blocks := 6, number_of_independent_substreams := 1,
               syncframe_count := 1 },
     window := [11, 119, 8, 3, 52, 128, 0, 0] ++ [11, 119, 0, 3, 62, 72, 0, 0], data := [] },
   { info := { (eac3_parse_syncframe
                 { (eac3_parse_syncframe { zero_handler with no_more_read := true }
                     [11, 119, 0, 3, 52, 128, 0, 0]).2 with
                   number_of_audio_blocks := 6, number_of_independent_substreams := 1,
                   syncframe_count := 1 }
                 [11, 119, 8, 3, 52, 128, 0, 0]).2 with
               number_of_independent_substreams := 2, syncframe_count := 2 },
     window := [11, 119, 0, 3, 62, 72, 0, 0], data := [] },
   by decide!⟩

/-- C24, amended: whenever `eac3_parse_syncframe` returns a validation failure
(the table holding its 8 entries), the counters of the assembly state
(number_of_audio_blocks, number_of_independent_substreams, syncframe_count) are
unchanged and every table entry other than the one the frame addresses (entry
substreamid for an independent frame, the current entry for a dependent one) is
unchanged; if the failed frame is dependent (strmtyp = 1), the current
independent substream id and the snapshot of output parameters are unchanged
too and a table entry changes at most in its chan_loc; if it is independent
with substreamid != 0, or no independent substream has been counted, the
snapshot is unchanged. -/
theorem failed_parse_effect (info : eac3_info_t) (data : List Nat)
    (hl : info.independent_info.length = 8)
    (hf : (eac3_parse_syncframe info data).1 ≠ 0) :
    (eac3_parse_syncframe info data).1 = -1 ∧
    (eac3_parse_syncframe info data).2.number_of_audio_blocks = info.number_of_audio_blocks ∧
    (eac3_parse_syncframe info data).2.number_of_independent_substreams =
      info.number_of_independent_substreams ∧
    (eac3_parse_syncframe info data).2.syncframe_count = info.syncframe_count ∧
    (∀ i, i ≠ (if bitsValue data 16 17 = 1 then info.current_independent_substream_id
               else bitsValue data 18 20) →
      (eac3_parse_syncframe info data).2.independent_info.getD i zero_info =
        info.independent_info.getD i zero_info) ∧
    (bitsValue data 16 17 = 1 →
      (eac3_parse_syncframe info data).2.current_independent_substream_id =
        info.current_independent_substream_id ∧
      (eac3_parse_syncframe info data).2.dec3_param = info.dec3_param ∧
      (eac3_parse_syncframe info data).2.dec3_param_initialized = info.dec3_param_initialized ∧
      ∀ i, ∃ l, (eac3_parse_syncframe info data).2.independent_info.getD i zero_info =
        { info.independent_info.getD i zero_info with chan_loc := l }) ∧
    (bitsValue data 16 17 ≠ 1 →
      bitsValue data 18 20 ≠ 0 ∨ info.number_of_independent_substreams = 0 →
      (eac3_parse_syncframe info data).2.dec3_param = info.dec3_param ∧
      (eac3_parse_syncframe info data).2.dec3_param_initialized = info.dec3_param_initialized) := by
  have e1 : bitsValue data 16 17 = hdr_strmtyp data := (get_eq_bitsValue data 16 1).symm
  have e2 : bitsValue data 18 20 = hdr_substreamid data := (get_eq_bitsValue data 18 2).symm
  rw [e1, e2]
  have hr := parse_ret info data hl
  have hret : (eac3_parse_syncframe info data).1 = -1 := by
    rw [hr] at hf ⊢
    split_ifs at hf ⊢ with hv
    · exact absurd rfl hf
    · rfl
  refine ⟨hret, parse_blocks info data, parse_count info data, parse_syncframe_count info data,
    ?_, ?_, ?_⟩
  · intro i hi
    by_cases h : hdr_strmtyp data = 1
    · rw [if_pos h] at hi
      rw [parse_dependent info data h]
      exact or_chan_loc_getD_ne _ _ _ _ hi
    · rw [if_neg h] at hi
      rw [parse_independent info data h hl]
      simp only [List.getD_eq_getElem?_getD]
      rw [List.getElem?_set_ne (by omega)]
  · intro h
    rw [parse_dependent info data h]
    exact ⟨rfl, rfl, rfl, fun i => or_chan_loc_getD _ _ i _⟩
  · intro h hq
    rw [parse_independent info data h hl]
    have hn : ¬ (hdr_substreamid data = 0 ∧ info.number_of_independent_substreams ≠ 0) := by
      rintro ⟨a, b⟩
      rcases hq with hq | hq
      · exact hq a
      · exact b hq
    simp [hn]

theorem failed_parse_effect_witness :
    (eac3_parse_syncframe zero_handler [11, 119, 64, 4, 52, 72, 16, 0, 128, 0]).1 = -1 ∧
    (eac3_parse_syncframe zero_handler
      [11, 119, 64, 4, 52, 72, 16, 0, 128, 0]).2.number_of_audio_blocks = 0 :=
  have h := failed_parse_effect zero_handler [11, 119, 64, 4, 52, 72, 16, 0, 128, 0]
    (by decide) (by decide!)
  ⟨h.1, h.2.1⟩

/-! ## Properties of the assembler -/

/-- C8: if the first syncframe of the input is complete (at least 5 bytes, the
syncword, a frame size within the input) and passes the header validation but
is dependent (strmtyp = 1) or independent with substream id != 0,
`lsmash_setup_eac3_specific_parameters_from_frame` returns -2 and leaves the
caller's parameters as they were. -/
theorem first_frame_rule (param : lsmash_eac3_specific_parameters_t) (data : List Nat)
    (h5 : 5 ≤ data.length) (hs0 : data.getD 0 0 = 0x0b) (hs1 : data.getD 1 0 = 0x77)
    (hv : hdr_valid data) (hc : hdr_frame_size data ≤ data.length)
    (hk : hdr_strmtyp data = 1 ∨ hdr_substreamid data ≠ 0) :
    lsmash_setup_eac3_specific_parameters_from_frame param data = some (-2, param) := by
  obtain ⟨e1, e2, e3, _⟩ := hdr_fixed_congr _ _ 45 (agree_first_window data h5) (Nat.le_refl _)
  have hb := loop_body_init data h5 hs0 hs1 hv
  have hr : eac3_run data = some .hard_failure := by
    rw [run_eq_result]
    apply result_hard
    rw [hb]
    unfold eac3_accept_syncframe
    simp only [parse_frame_size, parse_strmtyp, parse_substreamid, parse_syncframe_count, e1, e2, e3]
    have hfs := hdr_frame_size_le data
    rw [if_neg (by simp [EAC3_MAX_SYNCFRAME_LENGTH]; omega)]
    rw [if_neg (by rcases hk with hk | hk <;> simp [hk])]
    simp [zero_handler]
  unfold lsmash_setup_eac3_specific_parameters_from_frame
  rw [if_neg (by omega), hr]

/-- C6: for every input that is exactly one complete, well-formed syncframe with
strmtyp = 0, substreamid = 0 and block selector 3 (six blocks), the assembler
returns 0 with num_ind_sub = 0 and an entry 0 whose num_dep_sub is 0 and whose
fscod, bsid, acmod and lfeon are the header fields of the frame. -/
theorem single_frame_unit (param : lsmash_eac3_specific_parameters_t) (data : List Nat)
    (h5 : 5 ≤ data.length) (hs0 : data.getD 0 0 = 0x0b) (hs1 : data.getD 1 0 = 0x77)
    (hv : hdr_valid data) (hc : hdr_frame_size data = data.length)
    (ht : hdr_strmtyp data = 0) (hi : hdr_substreamid data = 0) (hb : hdr_numblkscod data = 3) :
    ∃ p, lsmash_setup_eac3_specific_parameters_from_frame param data = some (0, p) ∧
      p.num_ind_sub = 0 ∧
      (p.independent_info.getD 0 zero_info).num_dep_sub = 0 ∧
      (p.independent_info.getD 0 zero_info).fscod = hdr_fscod data ∧
      (p.independent_info.getD 0 zero_info).bsid = hdr_bsid data ∧
      (p.independent_info.getD 0 zero_info).acmod = hdr_acmod data ∧
      (p.independent_info.getD 0 zero_info).lfeon = hdr_lfeon data := by
  have hfs := hdr_frame_size_le data
  have hm : min data.length EAC3_MAX_SYNCFRAME_LENGTH = data.length := by
    unfold EAC3_MAX_SYNCFRAME_LENGTH; omega
  have hbody := loop_body_init data h5 hs0 hs1 hv
  rw [hm, List.take_of_length_le (Nat.le_refl _), List.drop_of_length_le (Nat.le_refl _)] at hbody
  have hd : decide (data.length - data.length < 5) = true := by simp
  rw [hd] at hbody
  rw [parse_independent _ _ (by rw [ht]; decide) (by simp [zero_handler])] at hbody
  simp only [hi, ht, hb, hc, zero_handler, eac3_accept_syncframe, eac3_count_substream,
    eac3_audio_block_table, modifyEntry] at hbody
  simp at hbody
  have hr := (run_eq_result data).trans
    ((result_next _ _ hbody).trans (result_setup _ _ (loop_body_end _ [] rfl (by simp))))
  unfold lsmash_setup_eac3_specific_parameters_from_frame
  rw [if_neg (by omega), hr]
  simp [eac3_setup_param, eac3_update_specific_param, eac3_copy_entries, zero_param, hdr_entry]

/-- C9, amended: for every input of at most one window made of complete,
well-formed syncframes (in particular a complete 6-block access unit) followed
by further bytes whose next syncframe is malformed, the assembler returns the
same result code as for the frames followed by no further bytes; and when the
malformation is a syncword mismatch it also returns the same output parameters. -/
theorem best_effort_finalize (param : lsmash_eac3_specific_parameters_t)
    (fs : List (List Nat)) (rest : List Nat)
    (hwf : ∀ f ∈ fs, WellFormedFrame f) (hne : fs ≠ [])
    (hlen : (fs.flatten ++ rest).length ≤ EAC3_MAX_SYNCFRAME_LENGTH)
    (hbad : rest.getD 0 0 ≠ 0x0b ∨ rest.getD 1 0 ≠ 0x77 ∨ ¬ hdr_valid rest) :
    (lsmash_setup_eac3_specific_parameters_from_frame param (fs.flatten ++ rest)).map Prod.fst =
      (lsmash_setup_eac3_specific_parameters_from_frame param fs.flatten).map Prod.fst ∧
    (rest.getD 0 0 ≠ 0x0b ∨ rest.getD 1 0 ≠ 0x77 →
      lsmash_setup_eac3_specific_parameters_from_frame param (fs.flatten ++ rest) =
        lsmash_setup_eac3_specific_parameters_from_frame param fs.flatten) := by
  have h7 := flatten_length_ge fs hwf hne
  have hl1 : fs.flatten.length ≤ EAC3_MAX_SYNCFRAME_LENGTH := by
    simp only [List.length_append] at hlen; omega
  have hl2 : rest.length ≤ EAC3_MAX_SYNCFRAME_LENGTH := by
    simp only [List.length_append] at hlen; omega
  have r1 := run_one_window (fs.flatten ++ rest) hlen
  have r2 := run_one_window fs.flatten hl1
  unfold lsmash_setup_eac3_specific_parameters_from_frame
  rw [if_neg (by simp only [List.length_append]; omega), if_neg (by omega), r1, r2]
  rcases result_frames fs { zero_handler with no_more_read := true } hwf rfl
      (by simp [zero_handler]) with ⟨r, hr⟩ | ⟨info', hn', hl', hr⟩
  · have e1 := hr rest
    have e2 := hr []
    rw [List.append_nil] at e2
    rw [e1, e2]
    exact ⟨rfl, fun _ => rfl⟩
  · have e1 := hr rest
    have e2 := hr []
    rw [List.append_nil] at e2
    rw [e1, e2, result_setup _ _ (loop_body_end info' [] hn' (by simp))]
    by_cases hs : rest.getD 0 0 ≠ 0x0b ∨ rest.getD 1 0 ≠ 0x77
    · rw [result_setup _ _ (loop_body_bad_syncword info' rest hn' hs)]
      exact ⟨rfl, fun _ => rfl⟩
    · have hv : ¬ hdr_valid rest := by
        rcases hbad with h | h | h
        · exact absurd (Or.inl h) hs
        · exact absurd (Or.inr h) hs
        · exact h
      obtain ⟨i2, hb2, hc2, hk2⟩ := loop_body_invalid info' rest hn' hl' hl2 hv
      rw [result_setup _ _ hb2]
      refine ⟨?_, fun h => absurd h hs⟩
      simp only [Option.map_some', setup_param_code, hc2, hk2]

/-- C7: for every input of at most one window that consists of one well-formed
independent syncframe (substream id 0, block selector 3: six blocks) followed by
n complete well-formed dependent syncframes (strmtyp = 1, 0 <= n <= 15) and
nothing else, the assembler returns 0 with num_ind_sub = 0 and an entry 0 whose
num_dep_sub is n and whose chan_loc is the bitwise OR of
`lsmash_eac3_get_chan_loc_from_chanmap` over the dependent frames that carry a
channel map (0 if none does). -/
theorem dependent_accumulation (param : lsmash_eac3_specific_parameters_t)
    (f0 : List Nat) (deps : List (List Nat))
    (h0 : WellFormedFrame f0) (hs0 : hdr_strmtyp f0 ≠ 1) (hi0 : hdr_substreamid f0 = 0)
    (hb0 : hdr_numblkscod f0 = 3)
    (hd : ∀ f ∈ deps, WellFormedFrame f ∧ hdr_strmtyp f = 1) (hn : deps.length ≤ 15)
    (hlen : (f0 ++ deps.flatten).length ≤ EAC3_MAX_SYNCFRAME_LENGTH) :
    ∃ p, lsmash_setup_eac3_specific_parameters_from_frame param (f0 ++ deps.flatten) =
        some (0, p) ∧
      p.num_ind_sub = 0 ∧
      (p.independent_info.getD 0 zero_info).num_dep_sub = deps.length ∧
      (p.independent_info.getD 0 zero_info).chan_loc = chan_loc_of deps := by
  have h7 := (wellFormed_length f0 h0).1
  have hb := loop_body_unit_start { zero_handler with no_more_read := true } f0 deps.flatten h0
    rfl (by simp [zero_handler]) hs0 hi0 (by simp [zero_handler])
  have he : (after_unit_start { zero_handler with no_more_read := true } f0).independent_info.getD
      0 zero_info =
      { hdr_entry { zero_info with chan_loc := 0 } f0 with num_dep_sub := 0 } := by
    unfold after_unit_start
    simp [zero_handler, modifyEntry]
  obtain ⟨info', h1, h2, h3, h4, h5, h6, h7', h8⟩ := result_dependents deps
    (after_unit_start { zero_handler with no_more_read := true } f0) 0 hd rfl
    (by unfold after_unit_start; simp [zero_handler, modifyEntry]) (by unfold after_unit_start; simp)
    rfl rfl (by rw [he]; simp only []; omega) (by rw [he]; rfl)
  have hr : eac3_run (f0 ++ deps.flatten) = some (.setup_param info') := by
    rw [run_one_window _ hlen, result_next _ _ hb]
    exact h1
  have hblk : info'.number_of_audio_blocks = 6 := by
    rw [h3]
    unfold after_unit_start
    simp [zero_handler, hb0, eac3_audio_block_table]
  have hini : info'.dec3_param_initialized = false := by
    rw [h4]
    unfold after_unit_start
    simp [zero_handler]
  have hdec : info'.dec3_param = zero_param := by
    rw [h5]
    unfold after_unit_start
    simp [zero_handler]
  have hnd : (info'.independent_info.getD 0 zero_info).num_dep_sub = deps.length := by
    rw [h7', he]; simp
  have hcl : (info'.independent_info.getD 0 zero_info).chan_loc = chan_loc_of deps := h8
  simp only [List.getD_eq_getElem?_getD] at hnd hcl
  unfold lsmash_setup_eac3_specific_parameters_from_frame
  rw [if_neg (by simp only [List.length_append]; omega), hr]
  simp only [eac3_setup_param, h2, hini, hblk, eac3_update_specific_param, hdec,
    eac3_copy_entries, zero_param]
  refine ⟨{ data_rate := 0, num_ind_sub := 0,
             independent_info :=
               (List.replicate 8 zero_info).set 0 (info'.independent_info.getD 0 zero_info) },
    by simp, rfl, ?_, ?_⟩
  · simp [List.replicate, hnd]
  · simp [List.replicate, hcl]

/-- C3, amended: for every input of at most one window that is a concatenation
of complete, well-formed syncframes beginning with an independent frame of
substream id 0, whose independent substream-0 frames contribute exactly 6 audio
blocks in total and none of whose groups holds more than 8 independent
syncframes, the assembler returns 0 and the returned num_ind_sub + 1 equals the
number of independent syncframes in the group that precedes the last
independent substream-0 frame, or in the whole input when the first frame is
the only such frame. -/
theorem assembler_success (param : lsmash_eac3_specific_parameters_t)
    (f0 : List Nat) (rest : List (List Nat))
    (h0 : WellFormedFrame f0) (hs0 : hdr_strmtyp f0 ≠ 1) (hi0 : hdr_substreamid f0 = 0)
    (hwf : ∀ f ∈ rest, WellFormedFrame f)
    (hlen : (f0 ++ rest.flatten).length ≤ EAC3_MAX_SYNCFRAME_LENGTH)
    (hb : unit_blocks (f0 :: rest) = 6) (hg : groups_within rest 1) :
    ∃ p, lsmash_setup_eac3_specific_parameters_from_frame param (f0 ++ rest.flatten) =
        some (0, p) ∧
      p.num_ind_sub + 1 = (previous_group rest 1 none).getD (last_group rest 1) := by
  have h7 := (wellFormed_length f0 h0).1
  have htab := block_table_pos f0
  simp only [unit_blocks, if_pos (And.intro hs0 hi0)] at hb
  have hbody := loop_body_unit_start { zero_handler with no_more_read := true } f0 rest.flatten
    h0 rfl (by simp [zero_handler]) hs0 hi0 (by simp [zero_handler])
  have e1 : (after_unit_start { zero_handler with no_more_read := true }
      f0).number_of_independent_substreams = 1 := by
    unfold after_unit_start; rfl
  have e2 : (after_unit_start { zero_handler with no_more_read := true }
      f0).dec3_param_initialized = false := by
    unfold after_unit_start; simp [zero_handler]
  obtain ⟨info', r1, r2, r3, r4, r5, r6, r7⟩ := result_groups rest
    (after_unit_start { zero_handler with no_more_read := true } f0) none hwf
    (by unfold after_unit_start; simp [zero_handler])
    (by unfold after_unit_start; simp [zero_handler, modifyEntry])
    (by unfold after_unit_start; simp)
    (by rw [e1])
    (by unfold after_unit_start; simp [zero_handler]; omega)
    (by rw [e1]; exact hg)
    (by intro s hs; exact absurd hs (by simp))
  rw [e1] at r3 r6 r7
  rw [e2] at r7
  have hr : eac3_run (f0 ++ rest.flatten) = some (.setup_param info') := by
    rw [run_one_window _ hlen, result_next _ _ hbody]
    exact r1
  unfold lsmash_setup_eac3_specific_parameters_from_frame
  rw [if_neg (by simp only [List.length_append]; omega), hr]
  simp only []
  rw [setup_param_success param info' r4 r5 r2]
  cases hprev : previous_group rest 1 none with
  | none =>
    have hini := r7 hprev
    refine ⟨_, rfl, ?_⟩
    rw [if_neg (by simp [hini])]
    simp only [eac3_update_specific_param, Option.getD_none, ← r3]
    omega
  | some s =>
    obtain ⟨hini, hs⟩ := r6 s hprev
    refine ⟨_, rfl, ?_⟩
    rw [if_pos hini]
    simp only [Option.getD_some]; exact hs

/-- C4: `lsmash_setup_eac3_specific_parameters_from_frame` always returns, and it
returns 0 only if the loop was left for `setup_param` with exactly 6 accumulated
audio blocks and between 1 and 8 counted independent substreams; in particular
an input on which the loop stops with fewer than 6 accumulated blocks yields a
nonzero result. -/
theorem success_only_if_complete (param : lsmash_eac3_specific_parameters_t) (data : List Nat) :
    ∃ r, lsmash_setup_eac3_specific_parameters_from_frame param data = some r ∧
      (r.1 = 0 →
        ∃ info, eac3_run data = some (.setup_param info) ∧
          info.number_of_audio_blocks = 6 ∧
          1 ≤ info.number_of_independent_substreams ∧
          info.number_of_independent_substreams ≤ 8) ∧
      (∀ info, eac3_run data = some (.setup_param info) →
        info.number_of_audio_blocks < 6 → r.1 ≠ 0) := by
  unfold lsmash_setup_eac3_specific_parameters_from_frame
  by_cases h5 : data.length < 5
  · rw [if_pos h5]
    exact ⟨_, rfl, fun h => by simp at h, fun _ _ _ => by simp⟩
  · rw [if_neg h5]
    rcases run_total data with ⟨info, h⟩ | h
    · rw [h]
      refine ⟨_, rfl, ?_, ?_⟩
      · intro hz
        rw [setup_param_code] at hz
        refine ⟨info, rfl, ?_⟩
        split_ifs at hz with h1 h2
        · exact ⟨h2, by omega, by omega⟩
      · intro info' hi hlt
        injection hi with hi
        injection hi with hi
        subst hi
        rw [setup_param_code]
        split_ifs with h1 h2
        · decide
        · omega
        · decide
    · rw [h]
      exact ⟨_, rfl, fun h => by simp at h, fun _ hi => by simp at hi⟩

/-- C5 on the code: a complete 6-block access unit (one independent frame of
substream 0 with six blocks) immediately followed by a further well-formed
independent frame of substream 0 makes the assembler return -1, where the
access unit alone gives 0; the parameters written are those of the first unit. -/
theorem next_unit_frame_gives_failure :
    (lsmash_setup_eac3_specific_parameters_from_frame zero_param
        ([11, 119, 0, 3, 52, 128, 0, 0] ++ [11, 119, 0, 3, 52, 128, 0, 0])).map Prod.fst
      = some (-1) ∧
    (lsmash_setup_eac3_specific_parameters_from_frame zero_param
        [11, 119, 0, 3, 52, 128, 0, 0]).map Prod.fst = some 0 ∧
    (lsmash_setup_eac3_specific_parameters_from_frame zero_param
        ([11, 119, 0, 3, 52, 128, 0, 0] ++ [11, 119, 0, 3, 52, 128, 0, 0])).map Prod.snd =
      (lsmash_setup_eac3_specific_parameters_from_frame zero_param
        [11, 119, 0, 3, 52, 128, 0, 0]).map Prod.snd := by
  decide!

/-- C10 on the code: for the input made of an independent frame of substream 0
(3 blocks), eight further independent frames and a second independent frame of
substream 0 (3 blocks), the assembler returns 0 with num_ind_sub = 8, that is
nine entries. -/
theorem nine_substreams_returned :
    (lsmash_setup_eac3_specific_parameters_from_frame zero_param
        (List.flatten
          [[11, 119, 0, 3, 36, 128, 0, 0],
           [11, 119, 8, 3, 52, 128, 0, 0], [11, 119, 16, 3, 52, 128, 0, 0],
           [11, 119, 24, 3, 52, 128, 0, 0], [11, 119, 32, 3, 52, 128, 0, 0],
           [11, 119, 40, 3, 52, 128, 0, 0], [11, 119, 48, 3, 52, 128, 0, 0],
           [11, 119, 56, 3, 52, 128, 0, 0], [11, 119, 8, 3, 52, 128, 0, 0],
           [11, 119, 0, 3, 36, 128, 0, 0]])).map (fun r => (r.1, r.2.num_ind_sub))
      = some (0, 8) := by
  decide


/-- C3, as stated, fails: the input made of a six-block independent frame of
substream 0 followed by two independent frames of substream 1 is a
concatenation of complete, well-formed syncframes whose substream-0 frames
contribute exactly 6 blocks; the assembler returns 0 with num_ind_sub + 1 = 3,
while 2 distinct independent substreams are present. -/
theorem distinct_substream_count_fails :
    (∀ f ∈ [[11, 119, 0, 3, 52, 128, 0, 0], [11, 119, 8, 3, 52, 128, 0, 0],
          [11, 119, 8, 3, 52, 128, 0, 0]], WellFormedFrame f) ∧
    hdr_strmtyp [11, 119, 0, 3, 52, 128, 0, 0] ≠ 1 ∧
    hdr_substreamid [11, 119, 0, 3, 52, 128, 0, 0] = 0 ∧
    unit_blocks [[11, 119, 0, 3, 52, 128, 0, 0], [11, 119, 8, 3, 52, 128, 0, 0],
      [11, 119, 8, 3, 52, 128, 0, 0]] = 6 ∧
    (lsmash_setup_eac3_specific_parameters_from_frame zero_param
        (List.flatten [[11, 119, 0, 3, 52, 128, 0, 0], [11, 119, 8, 3, 52, 128, 0, 0],
          [11, 119, 8, 3, 52, 128, 0, 0]])).map (fun r => (r.1, r.2.num_ind_sub + 1))
      = some (0, 3) ∧
    distinct_independent [[11, 119, 0, 3, 52, 128, 0, 0], [11, 119, 8, 3, 52, 128, 0, 0],
      [11, 119, 8, 3, 52, 128, 0, 0]] = 2 := by
  decide!

theorem assembler_success_witness :
    ∃ p, lsmash_setup_eac3_specific_parameters_from_frame zero_param
        ([11, 119, 0, 3, 36, 128, 0, 0] ++
          List.flatten [[11, 119, 8, 3, 52, 128, 0, 0], [11, 119, 64, 4, 52, 128, 16, 0, 128, 0],
            [11, 119, 0, 3, 36, 128, 0, 0]]) = some (0, p) ∧
      p.num_ind_sub + 1 =
        (previous_group [[11, 119, 8, 3, 52, 128, 0, 0], [11, 119, 64, 4, 52, 128, 16, 0, 128, 0],
            [11, 119, 0, 3, 36, 128, 0, 0]] 1 none).getD
          (last_group [[11, 119, 8, 3, 52, 128, 0, 0], [11, 119, 64, 4, 52, 128, 16, 0, 128, 0],
            [11, 119, 0, 3, 36, 128, 0, 0]] 1) :=
  assembler_success zero_param [11, 119, 0, 3, 36, 128, 0, 0]
    [[11, 119, 8, 3, 52, 128, 0, 0], [11, 119, 64, 4, 52, 128, 16, 0, 128, 0],
      [11, 119, 0, 3, 36, 128, 0, 0]]
    (by decide!) (by decide!) (by decide!) (by decide!) (by decide!) (by decide!)
    (by simp only [groups_within]; decide!)

theorem single_frame_unit_witness :
    ∃ p, lsmash_setup_eac3_specific_parameters_from_frame zero_param
        [11, 119, 0, 3, 52, 128, 0, 0] = some (0, p) ∧
      p.num_ind_sub = 0 ∧
      (p.independent_info.getD 0 zero_info).num_dep_sub = 0 ∧
      (p.independent_info.getD 0 zero_info).fscod = hdr_fscod [11, 119, 0, 3, 52, 128, 0, 0] ∧
      (p.independent_info.getD 0 zero_info).bsid = hdr_bsid [11, 119, 0, 3, 52, 128, 0, 0] ∧
      (p.independent_info.getD 0 zero_info).acmod = hdr_acmod [11, 119, 0, 3, 52, 128, 0, 0] ∧
      (p.independent_info.getD 0 zero_info).lfeon = hdr_lfeon [11, 119, 0, 3, 52, 128, 0, 0] :=
  single_frame_unit zero_param [11, 119, 0, 3, 52, 128, 0, 0]
    (by decide!) (by decide!) (by decide!) (by decide!) (by decide!) (by decide!) (by decide!)
    (by decide!)

theorem dependent_accumulation_witness :
    ∃ p, lsmash_setup_eac3_specific_parameters_from_frame zero_param
        ([11, 119, 0, 3, 52, 128, 0, 0] ++
          List.flatten [[11, 119, 64, 4, 52, 128, 16, 0, 128, 0],
            [11, 119, 64, 4, 52, 128, 0, 0, 0, 0],
            [11, 119, 64, 4, 52, 128, 16, 0, 32, 0]]) = some (0, p) ∧
      p.num_ind_sub = 0 ∧
      (p.independent_info.getD 0 zero_info).num_dep_sub = 3 ∧
      (p.independent_info.getD 0 zero_info).chan_loc =
        chan_loc_of [[11, 119, 64, 4, 52, 128, 16, 0, 128, 0],
            [11, 119, 64, 4, 52, 128, 0, 0, 0, 0],
            [11, 119, 64, 4, 52, 128, 16, 0, 32, 0]] :=
  dependent_accumulation zero_param [11, 119, 0, 3, 52, 128, 0, 0]
    [[11, 119, 64, 4, 52, 128, 16, 0, 128, 0], [11, 119, 64, 4, 52, 128, 0, 0, 0, 0],
      [11, 119, 64, 4, 52, 128, 16, 0, 32, 0]]
    (by decide!) (by decide!) (by decide!) (by decide!) (by decide!) (by decide!) (by decide!)

theorem first_frame_rule_witness :
    lsmash_setup_eac3_specific_parameters_from_frame zero_param
        [11, 119, 64, 4, 52, 128, 0, 0, 0, 0] = some (-2, zero_param) :=
  first_frame_rule zero_param [11, 119, 64, 4, 52, 128, 0, 0, 0, 0]
    (by decide!) (by decide!) (by decide!) (by decide!) (by decide!) (by decide!)

/-- C9, as stated, fails: after the access unit made of a six-block independent
frame of substream 0 and an independent frame of substream 1, a frame with the
syncword, strmtyp = 3 and substream id 1 fails the validation, yet the output
parameters differ from those returned for the access unit alone: entry 1
carries fields of the malformed frame. -/
theorem malformed_frame_changes_output :
    WellFormedFrame [11, 119, 0, 3, 52, 128, 0, 0] ∧
    WellFormedFrame [11, 119, 8, 3, 62, 128, 0, 0] ∧
    ¬ hdr_valid [11, 119, 200, 3, 50, 96, 0, 0] ∧
    lsmash_setup_eac3_specific_parameters_from_frame zero_param
        ([11, 119, 0, 3, 52, 128, 0, 0] ++ [11, 119, 8, 3, 62, 128, 0, 0] ++
          [11, 119, 200, 3, 50, 96, 0, 0]) ≠
      lsmash_setup_eac3_specific_parameters_from_frame zero_param
        ([11, 119, 0, 3, 52, 128, 0, 0] ++ [11, 119, 8, 3, 62, 128, 0, 0]) := by
  decide!

theorem best_effort_finalize_witness :
    (lsmash_setup_eac3_specific_parameters_from_frame zero_param
        (List.flatten [[11, 119, 0, 3, 52, 128, 0, 0], [11, 119, 8, 3, 62, 128, 0, 0]] ++
          [11, 119, 200, 3, 50, 96, 0, 0])).map Prod.fst =
      (lsmash_setup_eac3_specific_parameters_from_frame zero_param
        (List.flatten [[11, 119, 0, 3, 52, 128, 0, 0], [11, 119, 8, 3, 62, 128, 0, 0]])).map
        Prod.fst :=
  (best_effort_finalize zero_param
    [[11, 119, 0, 3, 52, 128, 0, 0], [11, 119, 8, 3, 62, 128, 0, 0]]
    [11, 119, 200, 3, 50, 96, 0, 0]
    (by decide!) (by decide!) (by decide!) (by decide!)).1

/-- C11, as stated, fails: on the single complete three-block frame of
substream 0 the assembler returns -1 and the caller's parameters, all zero
before the call, are overwritten (entry 0 then carries bsid 16). -/
theorem failure_overwrites_param :
    (lsmash_setup_eac3_specific_parameters_from_frame zero_param
        [11, 119, 0, 3, 36, 128, 0, 0]).map Prod.fst = some (-1) ∧
    (lsmash_setup_eac3_specific_parameters_from_frame zero_param
        [11, 119, 0, 3, 36, 128, 0, 0]).map Prod.snd ≠ some zero_param ∧
    (lsmash_setup_eac3_specific_parameters_from_frame zero_param
        [11, 119, 0, 3, 36, 128, 0, 0]).map (fun r => (r.2.independent_info.getD 0 zero_info).bsid)
      = some 16 := by
  decide!

/-- C11, amended: whenever `lsmash_setup_eac3_specific_parameters_from_frame`
is given fewer than 5 bytes or returns -2, it returns a nonzero result and the
caller's parameter structure is left exactly as it was before the call. -/
theorem no_output_on_hard_failure (param : lsmash_eac3_specific_parameters_t) (data : List Nat)
    (h : data.length < 5 ∨
      (lsmash_setup_eac3_specific_parameters_from_frame param data).map Prod.fst = some (-2)) :
    ∃ c, c ≠ 0 ∧ lsmash_setup_eac3_specific_parameters_from_frame param data = some (c, param) := by
  unfold lsmash_setup_eac3_specific_parameters_from_frame at h ⊢
  by_cases h5 : data.length < 5
  · rw [if_pos h5]
    exact ⟨-1, by decide, rfl⟩
  · rw [if_neg h5] at h ⊢
    rcases h with h | h
    · exact absurd h h5
    · rcases run_total data with ⟨info, hr⟩ | hr
      · rw [hr] at h
        simp only [Option.map_some', Option.some.injEq] at h
        rw [setup_param_code] at h
        split_ifs at h <;> simp at h
      · rw [hr]
        exact ⟨-2, by decide, rfl⟩

theorem no_output_on_hard_failure_witness :
    ∃ c, c ≠ 0 ∧
      lsmash_setup_eac3_specific_parameters_from_frame zero_param
        [11, 119, 64, 4, 52, 128, 0, 0, 0, 0] = some (c, zero_param) :=
  no_output_on_hard_failure zero_param [11, 119, 64, 4, 52, 128, 0, 0, 0, 0]
    (Or.inr (by decide!))

/-- C25 on the code: the 4100-byte input made of a well-formed three-block
frame of 4092 bytes followed by a well-formed three-block frame of 8 bytes is
given -1 by the assembler, while the reference assembler, which reads the second
frame at offset 4092, returns 0: the first refill copies 4096 bytes, sets
`no_more_read` because fewer than 5 bytes remain uncopied, and the last 4 bytes
never reach the window.  On inputs of at most `EAC3_MAX_SYNCFRAME_LENGTH` bytes
the two assemblers agree. -/
theorem refill_drops_input_tail :
    WellFormedFrame ([11, 119, 7, 253, 36, 128, 0, 0] ++ List.replicate 4084 0) ∧
    WellFormedFrame [11, 119, 0, 3, 36, 128, 0, 0] ∧
    (lsmash_setup_eac3_specific_parameters_from_frame zero_param
        ([11, 119, 7, 253, 36, 128, 0, 0] ++ List.replicate 4084 0 ++
          [11, 119, 0, 3, 36, 128, 0, 0])).map Prod.fst = some (-1) ∧
    (reference_assembler zero_param
        ([11, 119, 7, 253, 36, 128, 0, 0] ++ List.replicate 4084 0 ++
          [11, 119, 0, 3, 36, 128, 0, 0])).map Prod.fst = some 0 ∧
    (∀ (param : lsmash_eac3_specific_parameters_t) (data : List Nat),
      data.length ≤ EAC3_MAX_SYNCFRAME_LENGTH →
      lsmash_setup_eac3_specific_parameters_from_frame param data =
        reference_assembler param data) :=
  ⟨by decide!, by decide!, by decide!, by decide!, reference_one_window⟩

/-- C26: every iteration of the `while( 1 )` loop of
`lsmash_setup_eac3_specific_parameters_from_frame` that does not leave the loop
advances the read position by the frame size the parser stored, which is at
least 2 and at most the unread window, and copies nothing back, so the number
of unread bytes (window remainder plus input not yet copied) strictly
decreases; hence the loop is left on every input (the fuel of the loop model
suffices) and the entry point always returns. -/
theorem assembler_loop_terminates :
    (∀ s s' : eac3_loop_state, eac3_loop_body s = .next s' →
      2 ≤ s'.info.frame_size ∧ s'.info.frame_size ≤ (eac3_refill s).window.length ∧
      s'.window = (eac3_refill s).window.drop s'.info.frame_size ∧
      s'.data = (eac3_refill s).data ∧
      s'.window.length + s'.data.length + s'.info.frame_size =
        s.window.length + s.data.length ∧
      s'.window.length + s'.data.length < s.window.length + s.data.length) ∧
    (∀ (fuel : Nat) (s : eac3_loop_state), s.window.length + s.data.length < fuel →
      (∃ info, eac3_loop fuel s = some (.setup_param info)) ∨
        eac3_loop fuel s = some .hard_failure) ∧
    (∀ (param : lsmash_eac3_specific_parameters_t) (data : List Nat),
      ∃ r, lsmash_setup_eac3_specific_parameters_from_frame param data = some r) := by
  refine ⟨?_, loop_total, setup_total⟩
  intro s s' h
  obtain ⟨h1, h2, h3, h4⟩ := loop_body_advance s s' h
  have hm := refill_measure s
  have hl : s'.window.length = (eac3_refill s).window.length - s'.info.frame_size := by
    rw [h3, List.length_drop]
  refine ⟨h1, h2, h3, h4, ?_, ?_⟩
  · rw [hl, h4]; omega
  · rw [hl, h4]; omega

end A52
